import Mathlib

/-!
# The MPI worker command interpreter of OSPRay (`ospray/mpi/worker.cpp`)

A shallow embedding of `ospray::mpi::runWorker`: the per-rank state (object heap, handle
registry, scratch buffer, trace of observable actions), the command channel as a sequence of
typed fields, one Lean function per `case` of the dispatch `switch`, and the dispatch loop.
Collaborators that live outside `worker.cpp` (factories, `setRegion`, enum values) are fields
of `Env`; the handle registry and the reference counter are modelled from the specification.
-/

namespace Ospray

/-! ## Data model -/

/-- Address of an object on one rank: its index in the heap of that rank. -/
abbrev ObjId := Nat

/-- An `ObjectHandle`: a 64-bit id that has the same value on every rank. -/
abbrev ObjectHandle := Int

/-- A C `int` holds the values from `-2^31` to `2^31 - 1`; `INT_MAX` is the largest. -/
def INT_MAX : Int := 2147483647

/-- Reduction of an integer to the range of a 32-bit two-complement `int`. -/
def wrapInt32 (x : Int) : Int := (x + 2147483648) % 4294967296 - 2147483648

/-- The classes an object of the scene model can be an instance of. -/
inductive Kind
  | pixelOp | renderer | camera | volume | transferFunction | material | light
  | geometry | frameBuffer | model | triangleMesh | data | texture2D
  deriving DecidableEq, Repr

/-- Subclass test: `TriangleMesh` derives from `Geometry`, every class from itself. -/
def Kind.isA (k target : Kind) : Bool :=
  k == target || (k == Kind.triangleMesh && target == Kind.geometry)

/-- One 64-bit slot of a data array: the word received from the master, or the address of a
local object once the handle it held has been translated. -/
inductive Slot
  | word (v : Int)
  | ptr (o : ObjId)
  deriving DecidableEq, Repr

/-- Value stored in a parameter of a managed object (floats are kept as bit patterns). -/
inductive ParamValue
  | str (s : String)
  | int (v : Int)
  | float (bits : Nat)
  | vecf (comps : List Nat)
  | veci (comps : List Int)
  | obj (o : Option ObjId)
  deriving DecidableEq, Repr

/-- A `ManagedObject::Param`: name, `OSPDataType` tag and value. -/
structure Param where
  name : String
  type : Int
  value : ParamValue
  deriving DecidableEq, Repr

/-- A `ManagedObject` with the members the interpreter touches. `geometry` and `volume` are
the collections of a `Model`; `flags`, `format`, `slots` belong to a `Data` array. -/
structure ManagedObject where
  kind : Kind
  typeName : String
  refCount : Int
  alive : Bool
  params : List Param
  geometry : List ObjId
  volume : List ObjId
  flags : Int
  format : Int
  nitems : Nat
  slots : List Slot
  material : Option ObjId
  hasPixelOp : Bool
  commits : Nat
  deriving DecidableEq, Repr

/-- Observable actions of one rank, in program order. -/
inductive Event
  | log
  | refInc (o : ObjId)
  | refDec (o : ObjId)
  | toString (o : ObjId)
  | allreduce (myFail sumFail : Int)
  | send (v : Int)
  | sendRecord (success : Int) (value : Option ParamValue)
  | sendSamples (count : Nat)
  | flush
  | barrier
  | alignedMalloc (bytes : Nat) (scratch : Bool)
  | alignedFree
  | getData (bytes : Nat) (intoScratch : Bool)
  | commit (o : ObjId)
  | finalize (o : ObjId)
  | clear (fb : ObjId) (channelFlags : Int)
  | renderFrame (renderer : ObjId) (fb : Option ObjId) (channelFlags : Int)
  | setRegion (volume : ObjId) (success : Int)
  | loadLibrary (name : String)
  | shutdown
  deriving DecidableEq, Repr

/-- Ways in which a handler stops instead of returning to the loop. -/
inductive Fault
  | assertion (expr : String)
  | runtimeError (what : String)
  | nullDereference (expr : String)
  | useAfterFree (expr : String)
  | badCast (expr : String)
  | fatal (msg : String)
  | notImplemented
  | channel
  | blocked
  | undefinedBehaviour (what : String)
  deriving DecidableEq, Repr

/-- State of one worker process. -/
structure WorkerState where
  heap : List ManagedObject
  objectByHandle : List (ObjectHandle × ObjId)
  bcBuffer : Bool
  modules : List String
  trace : List Event
  deriving DecidableEq, Repr

/-- One typed field of a command frame. -/
inductive Token
  | int32 (v : Int)
  | size_t (v : Nat)
  | handle (h : ObjectHandle)
  | charPtr (s : String)
  | float (bits : Nat)
  | vecf (comps : List Nat)
  | veci (comps : List Int)
  | data (bytes : Nat) (words : List Int)
  deriving DecidableEq, Repr

/-- What a rank receives: the command stream of the master, and for each collective
sum-reduction still to come the flags that the other ranks of the group contribute to it. -/
structure Channel where
  cmd : List Token
  peers : List (List Int)
  deriving DecidableEq, Repr

/-- The case labels of the dispatch `switch`. -/
inductive Cmd
  | NEW_PIXELOP | NEW_RENDERER | NEW_CAMERA | NEW_VOLUME | NEW_TRANSFERFUNCTION
  | NEW_MATERIAL | NEW_LIGHT | NEW_GEOMETRY | FRAMEBUFFER_CREATE | FRAMEBUFFER_CLEAR
  | RENDER_FRAME | FRAMEBUFFER_MAP | NEW_MODEL | NEW_TRIANGLEMESH | NEW_DATA
  | NEW_TEXTURE2D | ADD_GEOMETRY | REMOVE_GEOMETRY | REMOVE_VOLUME | ADD_VOLUME
  | COMMIT | SET_OBJECT | RELEASE | SAMPLE_VOLUME | GET_TYPE | GET_VALUE
  | SET_MATERIAL | SET_PIXELOP | SET_REGION | SET_STRING | SET_INT | SET_FLOAT
  | SET_VEC3F | SET_VEC4F | SET_VEC2F | SET_VEC2I | SET_VEC3I | LOAD_MODULE
  | API_MODE | FINALIZE
  deriving DecidableEq, Repr

/-- Everything `runWorker` uses that is declared outside `worker.cpp`: the identity of the
rank, the enum values, and the collaborators (type registries, renderer overrides,
`Volume::setRegion`, symbol lookup) as functions. -/
structure Env where
  rank : Nat
  logLevel : Int
  code : Cmd → Int
  NULL_HANDLE : ObjectHandle
  OSP_OBJECT : Int
  OSP_STRING : Int
  OSP_INT : Int
  OSP_FLOAT : Int
  OSP_FLOAT2 : Int
  OSP_FLOAT3 : Int
  OSP_FLOAT4 : Int
  OSP_INT2 : Int
  OSP_INT3 : Int
  OSP_DATA_SHARED_BUFFER : Int
  OSPD_MODE_MASTERED : Int
  sizeOf : Int → Nat
  registered : List String → Kind → String → Bool
  rendererCreateMaterial : String → String → Bool
  rendererCreateLight : String → String → Bool
  setRegion : String → List Int → List Int → List Int → Int
  pixelOpCreateInstance : String → Bool
  getSymbol : List String → String → Bool
  currentApiMode : Int
  createTexture : List Int → Int → Int → Bool
  computeSamples : String → List Int → Nat → Bool
  managedObjectType : Kind → Int

/-- Result of running one handler. -/
inductive Step
  | next (st : WorkerState) (ch : Channel)
  | raised (f : Fault) (st : WorkerState)
  | exited (status : Int) (st : WorkerState)
  deriving DecidableEq, Repr

/-! ## Heap, reference counts and the handle registry -/

/-- Append an action to the trace. -/
def emit (st : WorkerState) (e : Event) : WorkerState :=
  { st with trace := st.trace ++ [e] }

/-- Apply `f` to the object at address `o`. -/
def updObj (st : WorkerState) (o : ObjId) (f : ManagedObject → ManagedObject) : WorkerState :=
  { st with heap := st.heap.modify f o }

/-- Modelled from the spec: the reference counter of a managed object (class `RefCount` of the
headers that are not part of the sources). A count changes by one per reference taken or
dropped, and the object is destroyed when a decrement reaches zero ("decrement reference
count; destroy on reaching zero"). -/
def bump (st : WorkerState) (o : ObjId) (delta : Int) : WorkerState :=
  updObj st o fun x =>
    { x with refCount := x.refCount + delta,
             alive := if x.refCount + delta = 0 ∧ delta < 0 then false else x.alive }

/-- A call `obj->refInc()` written in a handler. -/
def refInc (st : WorkerState) (o : ObjId) : WorkerState :=
  emit (bump st o 1) (Event.refInc o)

/-- A call `obj->refDec()` written in a handler. -/
def refDec (st : WorkerState) (o : ObjId) : WorkerState :=
  emit (bump st o (-1)) (Event.refDec o)

/-- Modelled from the spec: a freshly constructed object (`new T`, or what a factory yields);
nobody references it yet, so its count is zero. -/
def freshObject (kind : Kind) (typeName : String) : ManagedObject :=
  { kind := kind, typeName := typeName, refCount := 0, alive := true, params := [],
    geometry := [], volume := [], flags := 0, format := 0, nitems := 0, slots := [],
    material := none, hasPixelOp := false, commits := 0 }

/-- Allocate an object at the end of the heap and return its address. -/
def newObject (st : WorkerState) (x : ManagedObject) : WorkerState × ObjId :=
  ({ st with heap := st.heap ++ [x] }, st.heap.length)

/-- Modelled from the spec: `ObjectHandle::lookup`, the object the registry binds to the
handle, or `NULL` (`none`) for a handle that is not bound. -/
def lookup (st : WorkerState) (h : ObjectHandle) : Option ObjId :=
  st.objectByHandle.lookup h

/-- Modelled from the spec: `ObjectHandle::assign`. The registry binds the handle to the
object and holds a reference to it ("the registry holds the sole strong reference"). -/
def assign (st : WorkerState) (h : ObjectHandle) (o : ObjId) : WorkerState :=
  { bump st o 1 with objectByHandle := (h, o) :: st.objectByHandle }

/-- Modelled from the spec: `ObjectHandle::freeObject`, "unbind the handle (decrement
reference count; destroy on reaching zero)". -/
def freeObject (st : WorkerState) (h : ObjectHandle) : WorkerState :=
  match lookup st h with
  | none => st
  | some o =>
    { bump st o (-1) with objectByHandle := st.objectByHandle.filter fun b => b.1 != h }

/-- Reference count of the object at an address (zero where there is no object). -/
def refCountOf (st : WorkerState) (o : ObjId) : Int :=
  match st.heap[o]? with
  | some x => x.refCount
  | none => 0

/-! ## Primitive statements of the handlers, in continuation style -/

/-- The statement `Assert(p)` / `assert(p)` on a pointer: stop when the pointer is `NULL`. -/
def Assert (st : WorkerState) (expr : String) (p : Option ObjId)
    (k : ObjId → Step) : Step :=
  match p with
  | none => Step.raised (Fault.assertion expr) st
  | some o => k o

/-- A member access `p->...`: undefined for `NULL` and for an object that was destroyed. -/
def deref (st : WorkerState) (expr : String) (p : Option ObjId)
    (k : ObjId → ManagedObject → Step) : Step :=
  match p with
  | none => Step.raised (Fault.nullDereference expr) st
  | some o =>
    match st.heap[o]? with
    | none => Step.raised (Fault.useAfterFree expr) st
    | some x => if x.alive then k o x else Step.raised (Fault.useAfterFree expr) st

/-- A member access through a pointer that a C cast turned into `target*`. -/
def derefAs (st : WorkerState) (target : Kind) (expr : String) (p : Option ObjId)
    (k : ObjId → ManagedObject → Step) : Step :=
  deref st expr p fun o x =>
    if x.kind.isA target then k o x else Step.raised (Fault.badCast expr) st

/-- The field reader `cmd.get_int32()` (and `cmd.get_int()`). -/
def get_int32 (st : WorkerState) (ch : Channel) (k : Int → Channel → Step) : Step :=
  match ch.cmd with
  | Token.int32 v :: rest => k v { ch with cmd := rest }
  | _ => Step.raised Fault.channel st

/-- The field reader `cmd.get_size_t()`. -/
def get_size_t (st : WorkerState) (ch : Channel) (k : Nat → Channel → Step) : Step :=
  match ch.cmd with
  | Token.size_t v :: rest => k v { ch with cmd := rest }
  | _ => Step.raised Fault.channel st

/-- The field reader `cmd.get_handle()`. -/
def get_handle (st : WorkerState) (ch : Channel) (k : ObjectHandle → Channel → Step) : Step :=
  match ch.cmd with
  | Token.handle h :: rest => k h { ch with cmd := rest }
  | _ => Step.raised Fault.channel st

/-- The field reader `cmd.get_charPtr()`. -/
def get_charPtr (st : WorkerState) (ch : Channel) (k : String → Channel → Step) : Step :=
  match ch.cmd with
  | Token.charPtr s :: rest => k s { ch with cmd := rest }
  | _ => Step.raised Fault.channel st

/-- The field reader `cmd.get_float()`. -/
def get_float (st : WorkerState) (ch : Channel) (k : Nat → Channel → Step) : Step :=
  match ch.cmd with
  | Token.float b :: rest => k b { ch with cmd := rest }
  | _ => Step.raised Fault.channel st

/-- The field readers `cmd.get_vec2f()`, `get_vec3f()`, `get_vec4f()` for `n` components. -/
def get_vecf (n : Nat) (st : WorkerState) (ch : Channel)
    (k : List Nat → Channel → Step) : Step :=
  match ch.cmd with
  | Token.vecf v :: rest =>
    if v.length = n then k v { ch with cmd := rest } else Step.raised Fault.channel st
  | _ => Step.raised Fault.channel st

/-- The field readers `cmd.get_vec2i()`, `get_vec3i()` for `n` components. -/
def get_veci (n : Nat) (st : WorkerState) (ch : Channel)
    (k : List Int → Channel → Step) : Step :=
  match ch.cmd with
  | Token.veci v :: rest =>
    if v.length = n then k v { ch with cmd := rest } else Step.raised Fault.channel st
  | _ => Step.raised Fault.channel st

/-- The reader `cmd.get_data(bytes, mem)`: a raw blob of the stated length. -/
def get_data (bytes : Nat) (st : WorkerState) (ch : Channel)
    (k : List Int → Channel → Step) : Step :=
  match ch.cmd with
  | Token.data n words :: rest =>
    if n = bytes then k words { ch with cmd := rest } else Step.raised Fault.channel st
  | _ => Step.raised Fault.channel st

/-- The sum computed by `MPI_Allreduce(..., MPI_INT, MPI_SUM, worker.comm)` from the flag of
this rank and the flags of the other ranks. -/
def MPI_SUM (myFail : Int) (others : List Int) : Int :=
  wrapInt32 (myFail + others.sum)

/-- The call `MPI_Allreduce(&myFail,&sumFail,1,MPI_INT,MPI_SUM,worker.comm)` on one rank: it
returns once every other rank has contributed its flag. -/
def MPI_Allreduce (st : WorkerState) (ch : Channel) (myFail : Int)
    (k : WorkerState → Int → Channel → Step) : Step :=
  match ch.peers with
  | [] => Step.raised Fault.blocked st
  | others :: more =>
    k (emit st (Event.allreduce myFail (MPI_SUM myFail others))) (MPI_SUM myFail others)
      { ch with peers := more }

/-- The statement `if (worker.rank == 0 && logLevel > 2) cout << ...`. -/
def logRank0 (env : Env) (st : WorkerState) : WorkerState :=
  if env.rank = 0 ∧ env.logLevel > 2 then emit st Event.log else st

/-- A factory of the type registry (`Material::createMaterial(type)` and its siblings): a new
object when the registry of this rank knows the type name, otherwise `NULL`. -/
def createInstance (env : Env) (st : WorkerState) (kind : Kind) (type : String) :
    WorkerState × Option ObjId :=
  if env.registered st.modules kind type then
    ((newObject st (freshObject kind type)).1, some (newObject st (freshObject kind type)).2)
  else (st, none)

/-! ## Construction handlers -/

/-- The body shared by `case CMD_NEW_PIXELOP`, `CMD_NEW_RENDERER` and `CMD_NEW_CAMERA`: read
handle and type, create, `Assert`, bind. -/
def newAsserted (env : Env) (kind : Kind) (expr : String) (st : WorkerState) (ch : Channel) :
    Step :=
  get_handle st ch fun handle ch =>
  get_charPtr st ch fun type ch =>
  Assert (createInstance env (logRank0 env st) kind type).1 expr
    (createInstance env (logRank0 env st) kind type).2 fun o =>
  Step.next (assign (createInstance env (logRank0 env st) kind type).1 handle o) ch

/-- Handler `case ospray::CMD_NEW_PIXELOP`. -/
def CMD_NEW_PIXELOP (env : Env) (st : WorkerState) (ch : Channel) : Step :=
  newAsserted env Kind.pixelOp "pixelOp" st ch

/-- Handler `case ospray::CMD_NEW_RENDERER`. -/
def CMD_NEW_RENDERER (env : Env) (st : WorkerState) (ch : Channel) : Step :=
  newAsserted env Kind.renderer "renderer" st ch

/-- Handler `case ospray::CMD_NEW_CAMERA`. -/
def CMD_NEW_CAMERA (env : Env) (st : WorkerState) (ch : Channel) : Step :=
  newAsserted env Kind.camera "camera" st ch

/-- The body shared by `case CMD_NEW_VOLUME`, `CMD_NEW_TRANSFERFUNCTION` and
`CMD_NEW_GEOMETRY`: a factory that yields nothing raises the unknown-type error; otherwise
`refInc`, bind (and, for geometry only, a second log line that calls `toString`). -/
def newOrThrow (env : Env) (kind : Kind) (what : String) (logsAfter : Bool)
    (st : WorkerState) (ch : Channel) : Step :=
  get_handle st ch fun handle ch =>
  get_charPtr st ch fun type ch =>
  match createInstance env (logRank0 env st) kind type with
  | (st1, none) =>
    Step.raised (Fault.runtimeError ("unknown " ++ what ++ " type '" ++ type ++ "'")) st1
  | (st1, some o) =>
    if logsAfter ∧ env.rank = 0 ∧ env.logLevel > 2 then
      Step.next (emit (emit (assign (refInc st1 o) handle o) Event.log) (Event.toString o)) ch
    else Step.next (assign (refInc st1 o) handle o) ch

/-- Handler `case ospray::CMD_NEW_VOLUME`. -/
def CMD_NEW_VOLUME (env : Env) (st : WorkerState) (ch : Channel) : Step :=
  newOrThrow env Kind.volume "volume" false st ch

/-- Handler `case ospray::CMD_NEW_TRANSFERFUNCTION`. -/
def CMD_NEW_TRANSFERFUNCTION (env : Env) (st : WorkerState) (ch : Channel) : Step :=
  newOrThrow env Kind.transferFunction "transfer function" false st ch

/-- Handler `case ospray::CMD_NEW_GEOMETRY`. -/
def CMD_NEW_GEOMETRY (env : Env) (st : WorkerState) (ch : Channel) : Step :=
  newOrThrow env Kind.geometry "geometry" true st ch

/-- Outcome of the part of `CMD_NEW_MATERIAL` / `CMD_NEW_LIGHT` that precedes the vote. -/
inductive Local
  | created (st : WorkerState) (obj : Option ObjId)
  | stopped (f : Fault) (st : WorkerState)
  deriving DecidableEq, Repr

/-- Lines 211-221 (material) and 258-268 (light): ask the renderer bound to `rendererHandle`
first, taking a reference on what it creates, and fall back to the type registry when there
is no renderer or the renderer yields nothing. -/
def createLocal (env : Env) (kind : Kind) (override : String → String → Bool)
    (st : WorkerState) (rendererHandle : ObjectHandle) (type : String) : Local :=
  match lookup st rendererHandle with
  | none => Local.created (createInstance env st kind type).1 (createInstance env st kind type).2
  | some renderer =>
    match st.heap[renderer]? with
    | none => Local.stopped (Fault.useAfterFree "renderer->create") st
    | some x =>
      if ¬ x.alive then Local.stopped (Fault.useAfterFree "renderer->create") st
      else if ¬ x.kind.isA Kind.renderer then Local.stopped (Fault.badCast "renderer->create") st
      else if override x.typeName type then
        Local.created (refInc (newObject st (freshObject kind type)).1
          (newObject st (freshObject kind type)).2) (some (newObject st (freshObject kind type)).2)
      else
        Local.created (createInstance env st kind type).1 (createInstance env st kind type).2

/-- The flag `int myFail = (material == NULL)`. -/
def myFail (obj : Option ObjId) : Int :=
  if obj = none then 1 else 0

/-- The tail `if (worker.rank == 0) { if (logLevel > 2) cout << ... << obj->toString();
MPI_Send(&sumFail,...); }` shared by the accepting and the rejecting branch. -/
def reportRank0 (env : Env) (st : WorkerState) (ch : Channel) (obj : Option ObjId)
    (sumFail : Int) : Step :=
  if env.rank = 0 then
    if env.logLevel > 2 then
      deref st "->toString" obj fun o _ =>
        Step.next (emit (emit (emit st Event.log) (Event.toString o)) (Event.send sumFail)) ch
    else Step.next (emit st (Event.send sumFail)) ch
  else Step.next st ch

/-- Lines 226-246 (material) and 273-293 (light): what a rank does once it knows `sumFail`. -/
def afterVote (env : Env) (st : WorkerState) (ch : Channel) (handle : ObjectHandle)
    (obj : Option ObjId) (sumFail : Int) : Step :=
  if sumFail = 0 then
    deref st "->refInc" obj fun o _ =>
      reportRank0 env (assign (refInc st o) handle o) ch (some o) sumFail
  else
    match obj with
    | some o => reportRank0 env (refDec st o) ch (some o) sumFail
    | none => reportRank0 env st ch none sumFail

/-- Lines 223-246: compute the flag, join the sum-reduction, act on the sum. -/
def voteAndBind (env : Env) (st : WorkerState) (ch : Channel) (handle : ObjectHandle)
    (obj : Option ObjId) : Step :=
  MPI_Allreduce st ch (myFail obj) fun st sumFail ch => afterVote env st ch handle obj sumFail

/-- The body of `CMD_NEW_MATERIAL` / `CMD_NEW_LIGHT` once the three fields are decoded. -/
def newVoted (env : Env) (kind : Kind) (override : String → String → Bool)
    (st : WorkerState) (ch : Channel) (rendererHandle handle : ObjectHandle)
    (type : String) : Step :=
  match createLocal env kind override (logRank0 env st) rendererHandle type with
  | Local.stopped f st1 => Step.raised f st1
  | Local.created st1 obj => voteAndBind env st1 ch handle obj

/-- Handler `case ospray::CMD_NEW_MATERIAL`. -/
def CMD_NEW_MATERIAL (env : Env) (st : WorkerState) (ch : Channel) : Step :=
  get_handle st ch fun rendererHandle ch =>
  get_handle st ch fun handle ch =>
  get_charPtr st ch fun type ch =>
  newVoted env Kind.material env.rendererCreateMaterial st ch rendererHandle handle type

/-- Handler `case ospray::CMD_NEW_LIGHT`. -/
def CMD_NEW_LIGHT (env : Env) (st : WorkerState) (ch : Channel) : Step :=
  get_handle st ch fun rendererHandle ch =>
  get_handle st ch fun handle ch =>
  get_charPtr st ch fun type ch =>
  newVoted env Kind.light env.rendererCreateLight st ch rendererHandle handle type

/-! ## Frame buffer, render, model and mesh handlers -/

/-- Handler `case ospray::CMD_FRAMEBUFFER_CREATE`. -/
def CMD_FRAMEBUFFER_CREATE (_env : Env) (st : WorkerState) (ch : Channel) : Step :=
  get_handle st ch fun handle ch =>
  get_veci 2 st ch fun _size ch =>
  get_int32 st ch fun _mode ch =>
  get_int32 st ch fun channelFlags ch =>
  Step.next (assign (newObject st { freshObject Kind.frameBuffer "DistributedFrameBuffer" with
      flags := channelFlags }).1 handle st.heap.length) ch

/-- Handler `case ospray::CMD_FRAMEBUFFER_CLEAR`. -/
def CMD_FRAMEBUFFER_CLEAR (_env : Env) (st : WorkerState) (ch : Channel) : Step :=
  get_handle st ch fun handle ch =>
  get_int32 st ch fun channelFlags ch =>
  Assert st "fb" (lookup st handle) fun fb =>
  derefAs st Kind.frameBuffer "fb->clear" (some fb) fun fb _ =>
  Step.next (emit st (Event.clear fb channelFlags)) ch

/-- Handler `case ospray::CMD_RENDER_FRAME`. -/
def CMD_RENDER_FRAME (_env : Env) (st : WorkerState) (ch : Channel) : Step :=
  get_handle st ch fun fbHandle ch =>
  get_handle st ch fun rendererHandle ch =>
  get_int32 st ch fun channelFlags ch =>
  Assert st "renderer" (lookup st rendererHandle) fun renderer =>
  derefAs st Kind.renderer "renderer->renderFrame" (some renderer) fun renderer _ =>
  Step.next (emit st (Event.renderFrame renderer (lookup st fbHandle) channelFlags)) ch

/-- Handler `case ospray::CMD_FRAMEBUFFER_MAP`. -/
def CMD_FRAMEBUFFER_MAP (_env : Env) (st : WorkerState) (_ch : Channel) : Step :=
  Step.raised (Fault.fatal "should never get called on worker!?") st

/-- Handler `case ospray::CMD_NEW_MODEL`. -/
def CMD_NEW_MODEL (env : Env) (st : WorkerState) (ch : Channel) : Step :=
  get_handle st ch fun handle ch =>
  if env.logLevel > 2 then
    Step.next (emit (assign (newObject st (freshObject Kind.model "Model")).1 handle
      st.heap.length) Event.log) ch
  else
    Step.next (assign (newObject st (freshObject Kind.model "Model")).1 handle
      st.heap.length) ch

/-- Handler `case ospray::CMD_NEW_TRIANGLEMESH`. -/
def CMD_NEW_TRIANGLEMESH (_env : Env) (st : WorkerState) (ch : Channel) : Step :=
  get_handle st ch fun handle ch =>
  Step.next (assign (newObject st (freshObject Kind.triangleMesh "TriangleMesh")).1 handle
    st.heap.length) ch

/-- Handler `case ospray::CMD_NEW_TEXTURE2D`. -/
def CMD_NEW_TEXTURE2D (env : Env) (st : WorkerState) (ch : Channel) : Step :=
  get_handle st ch fun handle ch =>
  get_veci 2 st ch fun sz ch =>
  get_int32 st ch fun type ch =>
  get_int32 st ch fun flags ch =>
  get_size_t st ch fun size ch =>
  get_data size st ch fun _data ch =>
  if env.createTexture sz type (Int.lor flags env.OSP_DATA_SHARED_BUFFER) then
    Step.next (assign (newObject st { freshObject Kind.texture2D "Texture2D" with
      flags := Int.lor flags env.OSP_DATA_SHARED_BUFFER, format := type }).1 handle
      st.heap.length) ch
  else Step.raised (Fault.assertion "texture2D") st

/-- The statement `model->geometry.push_back(geom)`: the collection is a vector of `Ref`, so
the new entry holds a reference to the object. -/
def pushGeometry (st : WorkerState) (model geom : ObjId) : WorkerState :=
  bump (updObj st model fun x => { x with geometry := x.geometry ++ [geom] }) geom 1

/-- The statement `model->volume.push_back(volume)`. -/
def pushVolume (st : WorkerState) (model volume : ObjId) : WorkerState :=
  bump (updObj st model fun x => { x with volume := x.volume ++ [volume] }) volume 1

/-- The statements `it = std::find_if(begin, end, [&](g) { return geom == &*g; });
if (it != end) erase(it);` on `model->geometry`, a vector of references: the first entry that
is the object `geom` is erased and drops its reference; nothing happens when there is none. -/
def removeGeometry (st : WorkerState) (model geom : ObjId) (x : ManagedObject) : WorkerState :=
  match x.geometry.findIdx? (fun g => geom == g) with
  | some it =>
    bump (updObj st model fun y => { y with geometry := y.geometry.eraseIdx it }) geom (-1)
  | none => st

/-- The same statements on `model->volume`. -/
def removeVolume (st : WorkerState) (model geom : ObjId) (x : ManagedObject) : WorkerState :=
  match x.volume.findIdx? (fun g => geom == g) with
  | some it =>
    bump (updObj st model fun y => { y with volume := y.volume.eraseIdx it }) geom (-1)
  | none => st

/-- Handler `case ospray::CMD_ADD_GEOMETRY`. -/
def CMD_ADD_GEOMETRY (_env : Env) (st : WorkerState) (ch : Channel) : Step :=
  get_handle st ch fun modelHandle ch =>
  get_handle st ch fun geomHandle ch =>
  Assert st "model" (lookup st modelHandle) fun model =>
  Assert st "geom" (lookup st geomHandle) fun geom =>
  derefAs st Kind.model "model->geometry" (some model) fun model _ =>
  Step.next (pushGeometry st model geom) ch

/-- Handler `case ospray::CMD_REMOVE_GEOMETRY`. -/
def CMD_REMOVE_GEOMETRY (_env : Env) (st : WorkerState) (ch : Channel) : Step :=
  get_handle st ch fun modelHandle ch =>
  get_handle st ch fun geomHandle ch =>
  Assert st "model" (lookup st modelHandle) fun model =>
  Assert st "geom" (lookup st geomHandle) fun geom =>
  derefAs st Kind.model "model->geometry" (some model) fun model x =>
  Step.next (removeGeometry st model geom x) ch

/-- Handler `case ospray::CMD_REMOVE_VOLUME`. -/
def CMD_REMOVE_VOLUME (_env : Env) (st : WorkerState) (ch : Channel) : Step :=
  get_handle st ch fun modelHandle ch =>
  get_handle st ch fun geomHandle ch =>
  Assert st "model" (lookup st modelHandle) fun model =>
  Assert st "geom" (lookup st geomHandle) fun geom =>
  derefAs st Kind.model "model->volume" (some model) fun model x =>
  Step.next (removeVolume st model geom x) ch

/-- Handler `case ospray::CMD_ADD_VOLUME`. -/
def CMD_ADD_VOLUME (_env : Env) (st : WorkerState) (ch : Channel) : Step :=
  get_handle st ch fun modelHandle ch =>
  get_handle st ch fun volumeHandle ch =>
  Assert st "model" (lookup st modelHandle) fun model =>
  Assert st "volume" (lookup st volumeHandle) fun volume =>
  derefAs st Kind.model "model->volume" (some model) fun model _ =>
  Step.next (pushVolume st model volume) ch

/-- The calls `obj->commit(); if (dynamic_cast<Model*>(obj)) model->finalize();
MPI_Barrier(MPI_COMM_WORLD);` of the commit handler. -/
def commitAndBarrier (st : WorkerState) (o : ObjId) (x : ManagedObject) : WorkerState :=
  if x.kind = Kind.model then
    emit (emit (emit (updObj st o fun y => { y with commits := y.commits + 1 })
      (Event.commit o)) (Event.finalize o)) Event.barrier
  else
    emit (emit (updObj st o fun y => { y with commits := y.commits + 1 })
      (Event.commit o)) Event.barrier

/-- Handler `case ospray::CMD_COMMIT`. -/
def CMD_COMMIT (env : Env) (st : WorkerState) (ch : Channel) : Step :=
  get_handle st ch fun handle ch =>
  Assert st "obj" (lookup st handle) fun obj =>
  deref st "obj->commit" (some obj) fun obj x =>
  if env.logLevel > 2 then
    Step.next (commitAndBarrier (emit (emit st Event.log) (Event.toString obj)) obj x) ch
  else Step.next (commitAndBarrier st obj x) ch

/-- Handler `case ospray::CMD_RELEASE`. -/
def CMD_RELEASE (_env : Env) (st : WorkerState) (ch : Channel) : Step :=
  get_handle st ch fun handle ch =>
  Assert st "obj" (lookup st handle) fun _ =>
  Step.next (freeObject st handle) ch

/-! ## Bulk data -/

/-- Result of a block of statements that can stop. -/
inductive Run
  | done (st : WorkerState)
  | stopped (f : Fault) (st : WorkerState)
  deriving DecidableEq, Repr

/-- One pass through the body of the loop at lines 396-401:
`if (asHandle[i] != NULL_HANDLE) { asObjPtr[i] = asHandle[i].lookup(); asObjPtr[i]->refInc(); }`
on the array `data->data` of the object at address `data`. -/
def translateItem (env : Env) (st : WorkerState) (data : ObjId) (i : Nat) : Run :=
  match st.heap[data]? with
  | none => Run.stopped (Fault.useAfterFree "data->data") st
  | some d =>
    match d.slots[i]? with
    | some (Slot.word h) =>
      if h ≠ env.NULL_HANDLE then
        match lookup st h with
        | none => Run.stopped (Fault.nullDereference "asObjPtr[i]->refInc") st
        | some o =>
          match st.heap[o]? with
          | none => Run.stopped (Fault.useAfterFree "asObjPtr[i]->refInc") st
          | some x =>
            if x.alive then
              Run.done (refInc (updObj st data fun y =>
                { y with slots := y.slots.set i (Slot.ptr o) }) o)
            else Run.stopped (Fault.useAfterFree "asObjPtr[i]->refInc") st
      else Run.done st
    | _ => Run.stopped (Fault.undefinedBehaviour "asHandle[i] outside data->data") st

/-- The loop `for (int i=0;i<nitems;i++)` of lines 396-401, with `n` passes still to go and
the index at `i`. The index is a C `int`: incrementing it at `INT_MAX` is undefined. -/
def translateLoop (env : Env) (data : ObjId) : Nat → Nat → WorkerState → Run
  | 0, _, st => Run.done st
  | n + 1, i, st =>
    match translateItem env st data i with
    | Run.stopped f st1 => Run.stopped f st1
    | Run.done st1 =>
      if 2147483647 ≤ i then Run.stopped (Fault.undefinedBehaviour "i++ at INT_MAX") st1
      else translateLoop env data n (i + 1) st1

/-- Lines 380-382: `data = new Data(nitems,format,NULL,flags & ~OSP_DATA_SHARED_BUFFER);
handle.assign(data);`. The new array has `nitems` slots with no defined content yet. -/
def newDataBind (env : Env) (st : WorkerState) (handle : ObjectHandle) (nitems : Nat)
    (format flags : Int) : WorkerState :=
  assign (newObject st { freshObject Kind.data "Data" with
      nitems := nitems, format := format,
      flags := Int.land flags (Int.lnot env.OSP_DATA_SHARED_BUFFER) }).1 handle st.heap.length

/-- Lines 386-402: the payload is copied into `data->data`, and for `OSP_OBJECT` arrays the
handles in it are translated. -/
def fillData (env : Env) (st : WorkerState) (data : ObjId) (nitems : Nat) (format : Int)
    (words : List Int) : Run :=
  if format = env.OSP_OBJECT then
    translateLoop env data nitems 0
      (updObj st data fun y => { y with slots := words.map Slot.word })
  else Run.done (updObj st data fun y => { y with slots := words.map Slot.word })

/-- Handler `case ospray::CMD_NEW_DATA`. -/
def CMD_NEW_DATA (env : Env) (st : WorkerState) (ch : Channel) : Step :=
  get_handle st ch fun handle ch =>
  get_size_t st ch fun nitems ch =>
  get_int32 st ch fun format ch =>
  get_int32 st ch fun flags ch =>
  get_size_t (newDataBind env st handle nitems format flags) ch fun hasInitData ch =>
  if hasInitData ≠ 0 then
    get_data (nitems * env.sizeOf format % 18446744073709551616)
      (newDataBind env st handle nitems format flags) ch fun words ch =>
    match fillData env (newDataBind env st handle nitems format flags) st.heap.length nitems
        format words with
    | Run.done st2 => Step.next st2 ch
    | Run.stopped f st2 => Step.raised f st2
  else Step.next (newDataBind env st handle nitems format flags) ch

/-! ## Parameters and queries -/

/-- Modelled from the spec: `ManagedObject::findParam(name)`, the parameter stored under the
name, or `NULL`. -/
def findParam (x : ManagedObject) (name : String) : Option Param :=
  x.params.find? fun p => p.name == name

/-- Modelled from the spec: `findParam(name,1)->set(value)` (and `setParam`), which creates the
parameter when it is missing and stores the value with its type tag. -/
def setParam (st : WorkerState) (o : ObjId) (name : String) (type : Int) (v : ParamValue) :
    WorkerState :=
  updObj st o fun x =>
    { x with params :=
        if (findParam x name).isSome then
          x.params.map fun p => if p.name == name then { p with type := type, value := v } else p
        else x.params ++ [{ name := name, type := type, value := v }] }

/-- The body shared by the `CMD_SET_*` handlers of parameters, after the value was read:
`obj = handle.lookup(); Assert(obj); obj->findParam(name,1)->set(val);`. -/
def setOn (st : WorkerState) (ch : Channel) (handle : ObjectHandle) (name : String)
    (type : Int) (v : ParamValue) : Step :=
  Assert st "obj" (lookup st handle) fun obj =>
  deref st "obj->findParam" (some obj) fun obj _ =>
  Step.next (setParam st obj name type v) ch

/-- Handler `case ospray::CMD_SET_OBJECT`. -/
def CMD_SET_OBJECT (env : Env) (st : WorkerState) (ch : Channel) : Step :=
  get_handle st ch fun handle ch =>
  get_charPtr st ch fun name ch =>
  get_handle st ch fun val ch =>
  setOn st ch handle name env.OSP_OBJECT (ParamValue.obj (lookup st val))

/-- Handler `case ospray::CMD_SET_STRING`. -/
def CMD_SET_STRING (env : Env) (st : WorkerState) (ch : Channel) : Step :=
  get_handle st ch fun handle ch =>
  get_charPtr st ch fun name ch =>
  get_charPtr st ch fun val ch =>
  setOn st ch handle name env.OSP_STRING (ParamValue.str val)

/-- Handler `case ospray::CMD_SET_INT`. -/
def CMD_SET_INT (env : Env) (st : WorkerState) (ch : Channel) : Step :=
  get_handle st ch fun handle ch =>
  get_charPtr st ch fun name ch =>
  get_int32 st ch fun val ch =>
  setOn st ch handle name env.OSP_INT (ParamValue.int val)

/-- Handler `case ospray::CMD_SET_FLOAT`. -/
def CMD_SET_FLOAT (env : Env) (st : WorkerState) (ch : Channel) : Step :=
  get_handle st ch fun handle ch =>
  get_charPtr st ch fun name ch =>
  get_float st ch fun val ch =>
  setOn st ch handle name env.OSP_FLOAT (ParamValue.float val)

/-- Handler `case ospray::CMD_SET_VEC3F`. -/
def CMD_SET_VEC3F (env : Env) (st : WorkerState) (ch : Channel) : Step :=
  get_handle st ch fun handle ch =>
  get_charPtr st ch fun name ch =>
  get_vecf 3 st ch fun val ch =>
  setOn st ch handle name env.OSP_FLOAT3 (ParamValue.vecf val)

/-- Handler `case ospray::CMD_SET_VEC4F`. -/
def CMD_SET_VEC4F (env : Env) (st : WorkerState) (ch : Channel) : Step :=
  get_handle st ch fun handle ch =>
  get_charPtr st ch fun name ch =>
  get_vecf 4 st ch fun val ch =>
  setOn st ch handle name env.OSP_FLOAT4 (ParamValue.vecf val)

/-- Handler `case ospray::CMD_SET_VEC2F`. -/
def CMD_SET_VEC2F (env : Env) (st : WorkerState) (ch : Channel) : Step :=
  get_handle st ch fun handle ch =>
  get_charPtr st ch fun name ch =>
  get_vecf 2 st ch fun val ch =>
  setOn st ch handle name env.OSP_FLOAT2 (ParamValue.vecf val)

/-- Handler `case ospray::CMD_SET_VEC2I`. -/
def CMD_SET_VEC2I (env : Env) (st : WorkerState) (ch : Channel) : Step :=
  get_handle st ch fun handle ch =>
  get_charPtr st ch fun name ch =>
  get_veci 2 st ch fun val ch =>
  setOn st ch handle name env.OSP_INT2 (ParamValue.veci val)

/-- Handler `case ospray::CMD_SET_VEC3I`. -/
def CMD_SET_VEC3I (env : Env) (st : WorkerState) (ch : Channel) : Step :=
  get_handle st ch fun handle ch =>
  get_charPtr st ch fun name ch =>
  get_veci 3 st ch fun val ch =>
  setOn st ch handle name env.OSP_INT3 (ParamValue.veci val)

/-- Handler `case ospray::CMD_SAMPLE_VOLUME`. -/
def CMD_SAMPLE_VOLUME (env : Env) (st : WorkerState) (ch : Channel) : Step :=
  get_handle st ch fun volumeHandle ch =>
  Assert st "volume" (lookup st volumeHandle) fun volume =>
  get_size_t st ch fun count ch =>
  get_data (count * 12 % 18446744073709551616) st ch fun worldCoordinates ch =>
  derefAs st Kind.volume "volume->computeSamples" (some volume) fun _ x =>
  if env.computeSamples x.typeName worldCoordinates count then
    if env.rank = 0 then Step.next (emit st (Event.sendSamples count)) ch
    else Step.next st ch
  else Step.raised (Fault.assertion "*results") st

/-- Handler `case ospray::CMD_GET_TYPE`. -/
def CMD_GET_TYPE (env : Env) (st : WorkerState) (ch : Channel) : Step :=
  get_handle st ch fun handle ch =>
  get_charPtr st ch fun name ch =>
  if env.rank = 0 then
    Assert st "object" (lookup st handle) fun object =>
    deref st "object->" (some object) fun _ x =>
    if name.length = 0 then
      Step.next (emit (emit st (Event.sendRecord 1
        (some (ParamValue.int (env.managedObjectType x.kind))))) Event.flush) ch
    else
      match findParam x name with
      | some param =>
        Step.next (emit (emit st (Event.sendRecord 1 (some (ParamValue.int param.type))))
          Event.flush) ch
      | none => Step.next (emit (emit st (Event.sendRecord 0 none)) Event.flush) ch
  else Step.next st ch

/-- The flag `foundParameter = (param == NULL || param->type != type) ? false : true`. -/
def foundParameter (param : Option Param) (type : Int) : Bool :=
  match param with
  | none => false
  | some p => if p.type ≠ type then false else true

/-- The copy `strncpy(result.value,param->s,2048)`. -/
def strncpy2048 (v : ParamValue) : ParamValue :=
  match v with
  | ParamValue.str s => ParamValue.str (String.mk (s.data.take 2048))
  | other => other

/-- Handler `case ospray::CMD_GET_VALUE`. -/
def CMD_GET_VALUE (env : Env) (st : WorkerState) (ch : Channel) : Step :=
  get_handle st ch fun handle ch =>
  get_charPtr st ch fun name ch =>
  get_int32 st ch fun type ch =>
  if env.rank = 0 then
    Assert st "object" (lookup st handle) fun object =>
    deref st "object->findParam" (some object) fun _ x =>
    if type = env.OSP_STRING then
      match findParam x name with
      | some param =>
        if foundParameter (some param) type then
          Step.next (emit (emit st (Event.sendRecord 1 (some (strncpy2048 param.value))))
            Event.flush) ch
        else Step.next (emit (emit st (Event.sendRecord 0 none)) Event.flush) ch
      | none => Step.next (emit (emit st (Event.sendRecord 0 none)) Event.flush) ch
    else Step.raised (Fault.runtimeError "CMD_GET_VALUE not implemented for type") st
  else Step.next st ch

/-- Handler `case ospray::CMD_SET_MATERIAL`. -/
def CMD_SET_MATERIAL (_env : Env) (st : WorkerState) (ch : Channel) : Step :=
  get_handle st ch fun geoHandle ch =>
  get_handle st ch fun matHandle ch =>
  derefAs st Kind.geometry "geo->setMaterial" (lookup st geoHandle) fun geo _ =>
  Step.next (updObj st geo fun y => { y with material := lookup st matHandle }) ch

/-- Handler `case ospray::CMD_SET_PIXELOP`. -/
def CMD_SET_PIXELOP (env : Env) (st : WorkerState) (ch : Channel) : Step :=
  get_handle st ch fun fbHandle ch =>
  get_handle st ch fun poHandle ch =>
  Assert st "fb" (lookup st fbHandle) fun fb =>
  Assert st "po" (lookup st poHandle) fun po =>
  derefAs st Kind.pixelOp "po->createInstance" (some po) fun _ p =>
  derefAs st Kind.frameBuffer "fb->pixelOp" (some fb) fun fb _ =>
  if env.pixelOpCreateInstance p.typeName then
    Step.next (updObj st fb fun y => { y with hasPixelOp := true }) ch
  else Step.next (emit (updObj st fb fun y => { y with hasPixelOp := false }) Event.log) ch

/-! ## Region update -/

/-- The constant `const size_t bcBufferSize = 40*1024*1024;`. -/
def bcBufferSize : Nat := 40 * 1024 * 1024

/-- The declaration `static void *bcBuffer = alignedMalloc(bcBufferSize);`: the initialiser
of a function-local static runs the first time control passes through it. -/
def initBcBuffer (st : WorkerState) : WorkerState :=
  if st.bcBuffer then st
  else emit { st with bcBuffer := true } (Event.alignedMalloc bcBufferSize true)

/-- The statement `void *mem = size < bcBufferSize ? bcBuffer : alignedMalloc(size);`. -/
def selectMem (st : WorkerState) (size : Nat) : WorkerState :=
  if size < bcBufferSize then st else emit st (Event.alignedMalloc size false)

/-- Lines 633-635: `if (worker.rank == 0) MPI_Send(&sumFail,...);
if (size >= bcBufferSize) alignedFree(mem);`. -/
def finishRegion (env : Env) (st : WorkerState) (size : Nat) (sumFail : Int) : WorkerState :=
  if size ≥ bcBufferSize then
    emit (if env.rank = 0 then emit st (Event.send sumFail) else st) Event.alignedFree
  else (if env.rank = 0 then emit st (Event.send sumFail) else st)

/-- Lines 624-635 of `CMD_SET_REGION`, entered once the payload is in `mem`. -/
def regionBody (env : Env) (st : WorkerState) (ch : Channel) (volumeHandle : ObjectHandle)
    (index count : List Int) (size : Nat) (words : List Int) : Step :=
  Assert st "volume" (lookup st volumeHandle) fun volume =>
  derefAs st Kind.volume "volume->setRegion" (some volume) fun volume x =>
  MPI_Allreduce (emit st (Event.setRegion volume (env.setRegion x.typeName words index count)))
    ch (if env.setRegion x.typeName words index count = 0 then 1 else 0)
    fun st2 sumFail ch => Step.next (finishRegion env st2 size sumFail) ch

/-- Handler `case ospray::CMD_SET_REGION`. -/
def CMD_SET_REGION (env : Env) (st : WorkerState) (ch : Channel) : Step :=
  get_handle st ch fun volumeHandle ch =>
  get_veci 3 st ch fun index ch =>
  get_veci 3 st ch fun count ch =>
  get_size_t st ch fun size ch =>
  get_data size (selectMem (initBcBuffer st) size) ch fun words ch =>
  regionBody env
    (emit (selectMem (initBcBuffer st) size) (Event.getData size (decide (size < bcBufferSize))))
    ch volumeHandle index count size words

/-! ## Modules, API mode, termination -/

/-- Handler `case ospray::CMD_LOAD_MODULE`. -/
def CMD_LOAD_MODULE (env : Env) (st : WorkerState) (ch : Channel) : Step :=
  get_charPtr st ch fun name ch =>
  if env.getSymbol (st.modules ++ [name]) ("ospray_init_module_" ++ name) then
    Step.next (emit { st with modules := st.modules ++ [name] }
      (Event.loadLibrary ("ospray_module_" ++ name))) ch
  else
    Step.raised (Fault.runtimeError
      ("could not find module initializer " ++ "ospray_init_module_" ++ name))
      (emit st (Event.loadLibrary ("ospray_module_" ++ name)))

/-- Handler `case ospray::CMD_API_MODE`. -/
def CMD_API_MODE (env : Env) (st : WorkerState) (ch : Channel) : Step :=
  get_int32 st ch fun _newMode _ =>
  if env.currentApiMode = env.OSPD_MODE_MASTERED then
    Step.raised Fault.notImplemented (emit st Event.log)
  else Step.raised (Fault.assertion "device->currentApiMode == OSPD_MODE_MASTERED") st

/-- Handler `case ospray::CMD_FINALIZE`: `async::shutdown(); std::exit(0);`. -/
def CMD_FINALIZE (_env : Env) (st : WorkerState) (_ch : Channel) : Step :=
  Step.exited 0 (emit st Event.shutdown)

/-! ## The dispatch loop -/

/-- Every case label of the `switch`, in source order. -/
def allCmds : List Cmd :=
  [Cmd.NEW_PIXELOP, Cmd.NEW_RENDERER, Cmd.NEW_CAMERA, Cmd.NEW_VOLUME,
   Cmd.NEW_TRANSFERFUNCTION, Cmd.NEW_MATERIAL, Cmd.NEW_LIGHT, Cmd.NEW_GEOMETRY,
   Cmd.FRAMEBUFFER_CREATE, Cmd.FRAMEBUFFER_CLEAR, Cmd.RENDER_FRAME, Cmd.FRAMEBUFFER_MAP,
   Cmd.NEW_MODEL, Cmd.NEW_TRIANGLEMESH, Cmd.NEW_DATA, Cmd.NEW_TEXTURE2D, Cmd.ADD_GEOMETRY,
   Cmd.REMOVE_GEOMETRY, Cmd.REMOVE_VOLUME, Cmd.ADD_VOLUME, Cmd.COMMIT, Cmd.SET_OBJECT,
   Cmd.RELEASE, Cmd.SAMPLE_VOLUME, Cmd.GET_TYPE, Cmd.GET_VALUE, Cmd.SET_MATERIAL,
   Cmd.SET_PIXELOP, Cmd.SET_REGION, Cmd.SET_STRING, Cmd.SET_INT, Cmd.SET_FLOAT,
   Cmd.SET_VEC3F, Cmd.SET_VEC4F, Cmd.SET_VEC2F, Cmd.SET_VEC2I, Cmd.SET_VEC3I,
   Cmd.LOAD_MODULE, Cmd.API_MODE, Cmd.FINALIZE]

/-- The case label that `switch (command)` jumps to, if there is one. -/
def caseOf (env : Env) (command : Int) : Option Cmd :=
  allCmds.find? fun c => env.code c == command

/-- The body of each `case`. -/
def handler (env : Env) : Cmd → WorkerState → Channel → Step
  | Cmd.NEW_PIXELOP => CMD_NEW_PIXELOP env
  | Cmd.NEW_RENDERER => CMD_NEW_RENDERER env
  | Cmd.NEW_CAMERA => CMD_NEW_CAMERA env
  | Cmd.NEW_VOLUME => CMD_NEW_VOLUME env
  | Cmd.NEW_TRANSFERFUNCTION => CMD_NEW_TRANSFERFUNCTION env
  | Cmd.NEW_MATERIAL => CMD_NEW_MATERIAL env
  | Cmd.NEW_LIGHT => CMD_NEW_LIGHT env
  | Cmd.NEW_GEOMETRY => CMD_NEW_GEOMETRY env
  | Cmd.FRAMEBUFFER_CREATE => CMD_FRAMEBUFFER_CREATE env
  | Cmd.FRAMEBUFFER_CLEAR => CMD_FRAMEBUFFER_CLEAR env
  | Cmd.RENDER_FRAME => CMD_RENDER_FRAME env
  | Cmd.FRAMEBUFFER_MAP => CMD_FRAMEBUFFER_MAP env
  | Cmd.NEW_MODEL => CMD_NEW_MODEL env
  | Cmd.NEW_TRIANGLEMESH => CMD_NEW_TRIANGLEMESH env
  | Cmd.NEW_DATA => CMD_NEW_DATA env
  | Cmd.NEW_TEXTURE2D => CMD_NEW_TEXTURE2D env
  | Cmd.ADD_GEOMETRY => CMD_ADD_GEOMETRY env
  | Cmd.REMOVE_GEOMETRY => CMD_REMOVE_GEOMETRY env
  | Cmd.REMOVE_VOLUME => CMD_REMOVE_VOLUME env
  | Cmd.ADD_VOLUME => CMD_ADD_VOLUME env
  | Cmd.COMMIT => CMD_COMMIT env
  | Cmd.SET_OBJECT => CMD_SET_OBJECT env
  | Cmd.RELEASE => CMD_RELEASE env
  | Cmd.SAMPLE_VOLUME => CMD_SAMPLE_VOLUME env
  | Cmd.GET_TYPE => CMD_GET_TYPE env
  | Cmd.GET_VALUE => CMD_GET_VALUE env
  | Cmd.SET_MATERIAL => CMD_SET_MATERIAL env
  | Cmd.SET_PIXELOP => CMD_SET_PIXELOP env
  | Cmd.SET_REGION => CMD_SET_REGION env
  | Cmd.SET_STRING => CMD_SET_STRING env
  | Cmd.SET_INT => CMD_SET_INT env
  | Cmd.SET_FLOAT => CMD_SET_FLOAT env
  | Cmd.SET_VEC3F => CMD_SET_VEC3F env
  | Cmd.SET_VEC4F => CMD_SET_VEC4F env
  | Cmd.SET_VEC2F => CMD_SET_VEC2F env
  | Cmd.SET_VEC2I => CMD_SET_VEC2I env
  | Cmd.SET_VEC3I => CMD_SET_VEC3I env
  | Cmd.LOAD_MODULE => CMD_LOAD_MODULE env
  | Cmd.API_MODE => CMD_API_MODE env
  | Cmd.FINALIZE => CMD_FINALIZE env

/-- The statement `switch (command) { ... default: err << "unknown cmd tag " << command;
throw std::runtime_error(err.str()); }`. -/
def dispatch (env : Env) (st : WorkerState) (ch : Channel) (command : Int) : Step :=
  match caseOf env command with
  | some c => handler env c st ch
  | none => Step.raised (Fault.runtimeError ("unknown cmd tag " ++ toString command)) st

/-- The loop `try { while (1) { command = cmd.get_int32(); switch ... } } catch (e) { ...;
throw e; }`, unrolled at most `fuel` times. A handler that stops ends the loop with what it
raised (the `catch` block prints and throws again); a channel with no further opcode leaves
the rank waiting in `get_int32`. -/
def workerLoop (env : Env) : Nat → WorkerState → Channel → Step
  | 0, st, _ => Step.raised Fault.channel st
  | fuel + 1, st, ch =>
    get_int32 st ch fun command ch =>
      match dispatch env st ch command with
      | Step.next st1 ch1 => workerLoop env fuel st1 ch1
      | stop => stop

/-- The function `runWorker` on a finite command stream: every pass of the loop takes at
least the opcode from the stream, so `length + 1` passes always suffice. -/
def runWorker (env : Env) (st : WorkerState) (ch : Channel) : Step :=
  workerLoop env (ch.cmd.length + 1) st ch

/-! ## A worker group handling one collective creation -/

/-- One rank of the worker group: its environment and its state. -/
structure Rank where
  env : Env
  st : WorkerState

/-- State in which the local part of a creation ended. -/
def Local.st : Local → WorkerState
  | Local.created st _ => st
  | Local.stopped _ st => st

/-- The object the local part of a creation produced (`NULL` when it produced none). -/
def Local.obj : Local → Option ObjId
  | Local.created _ obj => obj
  | Local.stopped _ _ => none

/-- Whether the rank got as far as the sum-reduction. -/
def Local.reached : Local → Bool
  | Local.created _ _ => true
  | Local.stopped _ _ => false

/-- The local part of `CMD_NEW_MATERIAL` / `CMD_NEW_LIGHT` on rank `r`. -/
def localOf (kind : Kind) (sel : Env → String → String → Bool) (r : Rank)
    (rendererHandle : ObjectHandle) (type : String) : Local :=
  createLocal r.env kind (sel r.env) (logRank0 r.env r.st) rendererHandle type

/-- What rank `i` receives from the others in the sum-reduction: their flags when every rank
of the group joins the reduction, and nothing at all when some rank never gets there. -/
def peersOf (locals : List Local) (i : Nat) : List (List Int) :=
  if locals.all Local.reached then [(locals.eraseIdx i).map fun l => myFail l.obj] else []

/-- A group of ranks handling the same `CMD_NEW_MATERIAL` / `CMD_NEW_LIGHT` frame: every rank
runs the handler body on its own state, and the sum-reduction connects them. -/
def groupNewVoted (kind : Kind) (sel : Env → String → String → Bool) (ranks : List Rank)
    (rendererHandle handle : ObjectHandle) (type : String) : List Step :=
  ranks.mapIdx fun i r =>
    newVoted r.env kind (sel r.env) r.st
      { cmd := [], peers := peersOf (ranks.map fun q => localOf kind sel q rendererHandle type) i }
      rendererHandle handle type

/-- State in which a handler ended. -/
def Step.st : Step → WorkerState
  | Step.next st _ => st
  | Step.raised _ st => st
  | Step.exited _ st => st

/-- The handler bound `handle`: the registry it leaves is the registry it found plus a
binding of `handle`. -/
def bindsHandle (before : WorkerState) (handle : ObjectHandle) (s : Step) : Prop :=
  ∃ o, s.st.objectByHandle = (handle, o) :: before.objectByHandle

/-- Number of ranks whose local creation yielded nothing. -/
def failedRanks (locals : List Local) : Nat :=
  (locals.filter fun l => l.obj == none).length

/-- The value of an `MPI_Send(&sumFail,1,MPI_INT,0,0,mpi::app.comm)` action. -/
def sendOf : Event → Option Int
  | Event.send v => some v
  | _ => none

/-- Flag and sum of an `MPI_Allreduce` action. -/
def reductionOf : Event → Option (Int × Int)
  | Event.allreduce myFail sumFail => some (myFail, sumFail)
  | _ => none

/-- Values that the rank sent to the master with `MPI_Send`, in order. -/
def sends (st : WorkerState) : List Int :=
  st.trace.filterMap sendOf

/-- The sum-reductions the rank took part in, in order: the flag it brought, the sum it got. -/
def reductions (st : WorkerState) : List (Int × Int) :=
  st.trace.filterMap reductionOf

/-- Size and destination of an `alignedMalloc` action (`true`: the static scratch buffer). -/
def mallocOf : Event → Option (Nat × Bool)
  | Event.alignedMalloc bytes scratch => some (bytes, scratch)
  | _ => none

/-- Size and destination of a `cmd.get_data(size,mem)` action of the region update
(`true`: `mem` is the scratch buffer). -/
def getDataOf : Event → Option (Nat × Bool)
  | Event.getData bytes intoScratch => some (bytes, intoScratch)
  | _ => none

/-- The dynamic allocations the rank performed, in order. -/
def mallocs (st : WorkerState) : List (Nat × Bool) :=
  st.trace.filterMap mallocOf

/-- The region payloads the rank received, in order, with the buffer they went to. -/
def received (st : WorkerState) : List (Nat × Bool) :=
  st.trace.filterMap getDataOf

/-- The mutation commands whose handler checks its target with `Assert` or `assert`. -/
def assertingMutations : List Cmd :=
  [Cmd.SET_OBJECT, Cmd.SET_STRING, Cmd.SET_INT, Cmd.SET_FLOAT, Cmd.SET_VEC2F, Cmd.SET_VEC3F,
   Cmd.SET_VEC4F, Cmd.SET_VEC2I, Cmd.SET_VEC3I, Cmd.SET_PIXELOP, Cmd.ADD_GEOMETRY,
   Cmd.ADD_VOLUME, Cmd.REMOVE_GEOMETRY, Cmd.REMOVE_VOLUME]

/-- What the specification of NEW_DATA says an entry becomes: a non-null handle becomes the object it
denotes in the registry `reg`, the null handle (and a handle bound to nothing) stays. -/
def translatedSlot (env : Env) (reg : WorkerState) (w : Int) : Slot :=
  if w = env.NULL_HANDLE then Slot.word w
  else
    match lookup reg w with
    | some o => Slot.ptr o
    | none => Slot.word w

/-- Number of entries of `words` that hold a non-null handle denoting the object `o`. -/
def references (env : Env) (reg : WorkerState) (words : List Int) (o : ObjId) : Nat :=
  (words.filter fun w => decide (w ≠ env.NULL_HANDLE) && decide (lookup reg w = some o)).length

/-- A handle is bound when the registry maps it to a live object of the heap. -/
def Bound (st : WorkerState) (h : ObjectHandle) : Prop :=
  ∃ o x, lookup st h = some o ∧ st.heap[o]? = some x ∧ x.alive = true

/-- A handler that returns to the loop leaves at most `n` fields in the command stream. -/
def Step.cmdLe (r : Step) (n : Nat) : Prop :=
  match r with
  | Step.next _ ch => ch.cmd.length ≤ n
  | Step.raised _ _ => True
  | Step.exited _ _ => True

/-- The object of a `refInc()` call written in a handler. -/
def refIncOf : Event → Option ObjId
  | Event.refInc o => some o
  | _ => none

/-- The objects on which the handlers of the rank called `refInc()`, in order. -/
def refIncs (st : WorkerState) : List ObjId :=
  st.trace.filterMap refIncOf

/-- The three construction commands that raise an unknown-type error, each with the class
its factory creates and the word its error message uses. -/
def throwingConstructors : List (Cmd × Kind × String) :=
  [(Cmd.NEW_VOLUME, Kind.volume, "volume"),
   (Cmd.NEW_GEOMETRY, Kind.geometry, "geometry"),
   (Cmd.NEW_TRANSFERFUNCTION, Kind.transferFunction, "transfer function")]

/-- Size of a dedicated (not scratch) buffer obtained by an `alignedMalloc` action. -/
def dedicatedOf : Event → Option Nat
  | Event.alignedMalloc bytes false => some bytes
  | _ => none

/-- The dedicated buffers the rank allocated, in order. -/
def dedicated (st : WorkerState) : List Nat :=
  st.trace.filterMap dedicatedOf

/-- Whether an action is an `alignedFree(mem)`. -/
def isFree : Event → Bool
  | Event.alignedFree => true
  | _ => false

/-- Number of `alignedFree(mem)` calls of the rank. -/
def frees (st : WorkerState) : Nat :=
  (st.trace.filter isFree).length

/-! ## The Velvet material (`render/pathtracer/materials/Velvet.cpp`) -/

/-- The float literal `.4f`, as its IEEE-754 single precision bit pattern. -/
def float_0_4 : Nat := 0x3ECCCCCD

/-- The float literal `0.f`. -/
def float_0 : Nat := 0

/-- The float literal `.5f`. -/
def float_0_5 : Nat := 0x3F000000

/-- The float literal `.75f`. -/
def float_0_75 : Nat := 0x3F400000

/-- The float literal `.1f`. -/
def float_0_1 : Nat := 0x3DCCCCCD

/-- The value `10` converted to `float`. -/
def float_10 : Nat := 0x41200000

/-- The derived state of a Velvet material: the ISPC-side object, identified with the four
arguments `ispc::PathTracer_Velvet_create` was called with. -/
structure VelvetIE where
  reflectance : List Nat
  horizonScatteringColor : List Nat
  horizonScatteringFallOff : Nat
  backScattering : Nat
  deriving DecidableEq, Repr

/-- A `pathtracer::Velvet`: the parameters of the managed object and `ispcEquivalent`
(`none` is `NULL`). -/
structure Velvet where
  params : List Param
  ispcEquivalent : Option VelvetIE
  deriving DecidableEq, Repr

/-- Modelled from the spec: `getParam3f(name, valIfNotFound)`, the value of the parameter when
it exists and is a 3D float vector, the default otherwise. -/
def getParam3f (env : Env) (params : List Param) (name : String) (valIfNotFound : List Nat) :
    List Nat :=
  match params.find? fun p => p.name == name with
  | some p =>
    if p.type = env.OSP_FLOAT3 then
      match p.value with
      | ParamValue.vecf v => v
      | _ => valIfNotFound
    else valIfNotFound
  | none => valIfNotFound

/-- Modelled from the spec: `getParam1f(name, valIfNotFound)`, the value of the parameter when
it exists and is a float, the default otherwise. -/
def getParam1f (env : Env) (params : List Param) (name : String) (valIfNotFound : Nat) :
    Nat :=
  match params.find? fun p => p.name == name with
  | some p =>
    if p.type = env.OSP_FLOAT then
      match p.value with
      | ParamValue.float f => f
      | _ => valIfNotFound
    else valIfNotFound
  | none => valIfNotFound

/-- Lines 15-24 of `Velvet::commit`: read the four parameters with their defaults and create
the ISPC-side object from them. -/
def PathTracer_Velvet_create (env : Env) (params : List Param) : VelvetIE :=
  { reflectance := getParam3f env params "reflectance" [float_0_4, float_0, float_0],
    horizonScatteringColor :=
      getParam3f env params "horizonScatteringColor" [float_0_75, float_0_1, float_0_1],
    horizonScatteringFallOff := getParam1f env params "horizonScatteringFallOff" float_10,
    backScattering := getParam1f env params "backScattering" float_0_5 }

/-- The method `Velvet::commit`: `if (getIE() != NULL) return;` and then the creation of the
ISPC-side object. -/
def Velvet.commit (env : Env) (v : Velvet) : Velvet :=
  if v.ispcEquivalent ≠ none then v
  else { v with ispcEquivalent := some (PathTracer_Velvet_create env v.params) }

/-- Modelled from the spec: assignment of a parameter of the material, as `setParam` does it
for an object of the heap. -/
def Velvet.set (v : Velvet) (name : String) (type : Int) (value : ParamValue) : Velvet :=
  { v with params :=
      if (v.params.find? fun p => p.name == name).isSome then
        v.params.map fun p =>
          if p.name == name then { p with type := type, value := value } else p
      else v.params ++ [{ name := name, type := type, value := value }] }

/-- What the master can do to a material: assign a parameter, or commit. -/
inductive VelvetOp
  | set (name : String) (type : Int) (value : ParamValue)
  | commit
  deriving DecidableEq, Repr

/-- One operation on a Velvet material. -/
def Velvet.apply (env : Env) (v : Velvet) : VelvetOp → Velvet
  | VelvetOp.set name type value => v.set name type value
  | VelvetOp.commit => v.commit env

/-- A sequence of operations on a Velvet material, first to last. -/
def Velvet.run (env : Env) (v : Velvet) (ops : List VelvetOp) : Velvet :=
  ops.foldl (Velvet.apply env) v

/-- A Velvet material as its constructor leaves it: no parameter, no ISPC-side object. -/
def Velvet.fresh : Velvet :=
  { params := [], ispcEquivalent := none }

/-- Type tag and value stored under a parameter name, if the material has the parameter. -/
def stored (params : List Param) (name : String) : Option (Int × ParamValue) :=
  (params.find? fun p => p.name == name).map fun p => (p.type, p.value)

/-- Type tag and value of the last assignment to `name` in a sequence of operations. -/
def lastSet : List VelvetOp → String → Option (Int × ParamValue)
  | [], _ => none
  | VelvetOp.set n t value :: ops, name =>
    match lastSet ops name with
    | some x => some x
    | none => if n == name then some (t, value) else none
  | VelvetOp.commit :: ops, name => lastSet ops name

/-- The current content of the parameter `name` of a material that had the parameters
`params` and then received the operations `ops`: what the last assignment to the name gave
it, or what was stored before when there was no assignment. -/
def assigned (params : List Param) (ops : List VelvetOp) (name : String) :
    Option (Int × ParamValue) :=
  match lastSet ops name with
  | some x => some x
  | none => stored params name

/-- The 3D float vector that a parameter content stands for: its value when it is set with
the type tag `OSP_FLOAT3` to a float vector, otherwise the default. -/
def float3Or (env : Env) (content : Option (Int × ParamValue)) (dflt : List Nat) : List Nat :=
  match content with
  | some (t, ParamValue.vecf x) => if t = env.OSP_FLOAT3 then x else dflt
  | _ => dflt

/-- The float that a parameter content stands for: its value when it is set with the type
tag `OSP_FLOAT` to a float, otherwise the default. -/
def float1Or (env : Env) (content : Option (Int × ParamValue)) (dflt : Nat) : Nat :=
  match content with
  | some (t, ParamValue.float x) => if t = env.OSP_FLOAT then x else dflt
  | _ => dflt

/-! ## The outcome of an operation on the rank itself -/

/-- Whether the creation of lines 211-221 (material) or 258-268 (light) for the frame
`rendererHandle, handle, type` left the rank without an object (`material == NULL`). -/
def creationFailed (env : Env) (kind : Kind) (override : String → String → Bool)
    (st : WorkerState) : List Token → Bool
  | Token.handle rendererHandle :: Token.handle _ :: Token.charPtr type :: _ =>
    decide ((createLocal env kind override (logRank0 env st) rendererHandle type).obj = none)
  | _ => false

/-- Whether `volume->setRegion(mem, index, count)` of line 627 returned 0 for the frame
`volumeHandle, index, count, size, payload`. -/
def regionFailed (env : Env) (st : WorkerState) : List Token → Bool
  | Token.handle volumeHandle :: Token.veci index :: Token.veci count :: Token.size_t _ ::
      Token.data _ words :: _ =>
    match lookup st volumeHandle with
    | some volume =>
      match st.heap[volume]? with
      | some x => decide (env.setRegion x.typeName words index count = 0)
      | none => false
    | none => false
  | _ => false

/-- Whether the operation of a voted command failed on this rank itself, before any vote:
the creation yielded no object, or the region update reported no success. -/
def failedLocally (env : Env) (c : Cmd) (st : WorkerState) (ch : Channel) : Bool :=
  match c with
  | Cmd.NEW_MATERIAL => creationFailed env Kind.material env.rendererCreateMaterial st ch.cmd
  | Cmd.NEW_LIGHT => creationFailed env Kind.light env.rendererCreateLight st ch.cmd
  | Cmd.SET_REGION => regionFailed env st ch.cmd
  | _ => false

/-! ## The scratch buffer in the state -/

/-- What the allocations of the region update depend on and add to: whether the static
scratch buffer exists, and the allocations made so far. -/
def buffers (st : WorkerState) : Bool × List (Nat × Bool) :=
  (st.bcBuffer, mallocs st)

/-- How often the rank has allocated the scratch buffer. -/
def scratchMallocs (st : WorkerState) : Nat :=
  ((mallocs st).filter fun m => m.2).length

/-- The allocations of the scratch buffer that the rank has made, plus the one that is
still to come as long as the buffer does not exist. -/
def scratchDue (st : WorkerState) : Nat :=
  scratchMallocs st + (if st.bcBuffer then 0 else 1)

/-- From the state `st` to the state `s` the scratch buffer was not allocated a second time:
if it existed it still exists and was not allocated again, and if it did not exist it was
allocated at most once, namely when it came into existence. -/
def keepsScratch (st s : WorkerState) : Prop :=
  (st.bcBuffer = true → s.bcBuffer = true) ∧ scratchDue s = scratchDue st

/-! ## The typed fields of a frame -/

/-- The kinds of field that the readers `cmd.get_*` take from the command stream; vectors
carry their number of components and raw blobs their length in bytes. -/
inductive FieldType
  | int32
  | size_t
  | handle
  | charPtr
  | float
  | vecf (n : Nat)
  | veci (n : Nat)
  | data (bytes : Nat)
  deriving DecidableEq, Repr

/-- The reader that accepts a field. -/
def Token.type : Token → FieldType
  | Token.int32 _ => FieldType.int32
  | Token.size_t _ => FieldType.size_t
  | Token.handle _ => FieldType.handle
  | Token.charPtr _ => FieldType.charPtr
  | Token.float _ => FieldType.float
  | Token.vecf v => FieldType.vecf v.length
  | Token.veci v => FieldType.veci v.length
  | Token.data n _ => FieldType.data n

/-- The payload of a NEW_DATA frame, lines 384-386: `if (hasInitData) { cmd.get_data(nitems *
sizeOf(format), data->data); ... }`, as the fields `nitems`, `format` and `hasInitData` of
the frame say. -/
def newDataPayload (sizeOf : Int → Nat) : List Token → List FieldType
  | Token.handle _ :: Token.size_t nitems :: Token.int32 format :: Token.int32 _ ::
      Token.size_t hasInitData :: _ =>
    if hasInitData ≠ 0 then
      [FieldType.data (nitems * sizeOf format % 18446744073709551616)]
    else []
  | _ => []

/-- The payload of a NEW_TEXTURE2D frame: `cmd.get_data(size, data)` for the field `size`. -/
def texturePayload : List Token → List FieldType
  | Token.handle _ :: Token.veci _ :: Token.int32 _ :: Token.int32 _ :: Token.size_t size ::
      _ => [FieldType.data size]
  | _ => []

/-- The payload of a SET_REGION frame: `cmd.get_data(size, mem)` for the field `size`. -/
def regionPayload : List Token → List FieldType
  | Token.handle _ :: Token.veci _ :: Token.veci _ :: Token.size_t size :: _ =>
    [FieldType.data size]
  | _ => []

/-- The payload of a SAMPLE_VOLUME frame: `cmd.get_data(count * sizeof(vec3f), ...)` for
the field `count`. -/
def samplePayload : List Token → List FieldType
  | Token.handle _ :: Token.size_t count :: _ =>
    [FieldType.data (count * 12 % 18446744073709551616)]
  | _ => []

/-- The field schema of each opcode: the readers that its `case` calls, in the order of the
source text, as a function of the opcode and of the frame that follows it. -/
def schema (sizeOf : Int → Nat) : Cmd → List Token → List FieldType
  | Cmd.NEW_PIXELOP, _ => [FieldType.handle, FieldType.charPtr]
  | Cmd.NEW_RENDERER, _ => [FieldType.handle, FieldType.charPtr]
  | Cmd.NEW_CAMERA, _ => [FieldType.handle, FieldType.charPtr]
  | Cmd.NEW_VOLUME, _ => [FieldType.handle, FieldType.charPtr]
  | Cmd.NEW_TRANSFERFUNCTION, _ => [FieldType.handle, FieldType.charPtr]
  | Cmd.NEW_MATERIAL, _ => [FieldType.handle, FieldType.handle, FieldType.charPtr]
  | Cmd.NEW_LIGHT, _ => [FieldType.handle, FieldType.handle, FieldType.charPtr]
  | Cmd.NEW_GEOMETRY, _ => [FieldType.handle, FieldType.charPtr]
  | Cmd.FRAMEBUFFER_CREATE, _ =>
    [FieldType.handle, FieldType.veci 2, FieldType.int32, FieldType.int32]
  | Cmd.FRAMEBUFFER_CLEAR, _ => [FieldType.handle, FieldType.int32]
  | Cmd.RENDER_FRAME, _ => [FieldType.handle, FieldType.handle, FieldType.int32]
  | Cmd.FRAMEBUFFER_MAP, _ => []
  | Cmd.NEW_MODEL, _ => [FieldType.handle]
  | Cmd.NEW_TRIANGLEMESH, _ => [FieldType.handle]
  | Cmd.NEW_DATA, frame =>
    [FieldType.handle, FieldType.size_t, FieldType.int32, FieldType.int32, FieldType.size_t]
      ++ newDataPayload sizeOf frame
  | Cmd.NEW_TEXTURE2D, frame =>
    [FieldType.handle, FieldType.veci 2, FieldType.int32, FieldType.int32, FieldType.size_t]
      ++ texturePayload frame
  | Cmd.ADD_GEOMETRY, _ => [FieldType.handle, FieldType.handle]
  | Cmd.REMOVE_GEOMETRY, _ => [FieldType.handle, FieldType.handle]
  | Cmd.REMOVE_VOLUME, _ => [FieldType.handle, FieldType.handle]
  | Cmd.ADD_VOLUME, _ => [FieldType.handle, FieldType.handle]
  | Cmd.COMMIT, _ => [FieldType.handle]
  | Cmd.SET_OBJECT, _ => [FieldType.handle, FieldType.charPtr, FieldType.handle]
  | Cmd.RELEASE, _ => [FieldType.handle]
  | Cmd.SAMPLE_VOLUME, frame => [FieldType.handle, FieldType.size_t] ++ samplePayload frame
  | Cmd.GET_TYPE, _ => [FieldType.handle, FieldType.charPtr]
  | Cmd.GET_VALUE, _ => [FieldType.handle, FieldType.charPtr, FieldType.int32]
  | Cmd.SET_MATERIAL, _ => [FieldType.handle, FieldType.handle]
  | Cmd.SET_PIXELOP, _ => [FieldType.handle, FieldType.handle]
  | Cmd.SET_REGION, frame =>
    [FieldType.handle, FieldType.veci 3, FieldType.veci 3, FieldType.size_t]
      ++ regionPayload frame
  | Cmd.SET_STRING, _ => [FieldType.handle, FieldType.charPtr, FieldType.charPtr]
  | Cmd.SET_INT, _ => [FieldType.handle, FieldType.charPtr, FieldType.int32]
  | Cmd.SET_FLOAT, _ => [FieldType.handle, FieldType.charPtr, FieldType.float]
  | Cmd.SET_VEC3F, _ => [FieldType.handle, FieldType.charPtr, FieldType.vecf 3]
  | Cmd.SET_VEC4F, _ => [FieldType.handle, FieldType.charPtr, FieldType.vecf 4]
  | Cmd.SET_VEC2F, _ => [FieldType.handle, FieldType.charPtr, FieldType.vecf 2]
  | Cmd.SET_VEC2I, _ => [FieldType.handle, FieldType.charPtr, FieldType.veci 2]
  | Cmd.SET_VEC3I, _ => [FieldType.handle, FieldType.charPtr, FieldType.veci 3]
  | Cmd.LOAD_MODULE, _ => [FieldType.charPtr]
  | Cmd.API_MODE, _ => [FieldType.int32]
  | Cmd.FINALIZE, _ => []

/-- A handler that returns to the loop has taken from the stream `cmd` some fields `pre`
with the property `Q`, and nothing else. -/
def Step.reads (r : Step) (cmd : List Token) (Q : List Token → Prop) : Prop :=
  match r with
  | Step.next _ ch => ∃ pre, cmd = pre ++ ch.cmd ∧ Q pre
  | Step.raised _ _ => True
  | Step.exited _ _ => True

/-- Where a rank stands in the command stream once it is back in the loop: the fields it has
not decoded yet (`none` for a rank that stopped). -/
def Step.position : Step → Option (List Token)
  | Step.next _ ch => some ch.cmd
  | _ => none

/-- The first `n` passes of the loop `while (1) { command = cmd.get_int32(); switch ... }`:
the state and the channel with which the rank enters pass `n + 1`. -/
def passes (env : Env) : Nat → WorkerState → Channel → Step
  | 0, st, ch => Step.next st ch
  | n + 1, st, ch =>
    get_int32 st ch fun command ch =>
      match dispatch env st ch command with
      | Step.next st1 ch1 => passes env n st1 ch1
      | stop => stop

/-! ## Commit, barrier and render in the trace -/

/-- The actions that the commit barrier orders: `obj->commit()`, `model->finalize()`,
`MPI_Barrier(MPI_COMM_WORLD)` and `renderer->renderFrame(...)`. -/
def isSync : Event → Bool
  | Event.commit _ => true
  | Event.finalize _ => true
  | Event.barrier => true
  | Event.renderFrame _ _ _ => true
  | _ => false

/-- The commits, finalizes, barriers and renders of a rank, in program order. -/
def syncs (st : WorkerState) : List Event :=
  st.trace.filter isSync

/-- What one completed command leaves among these actions: a COMMIT leaves the commit of an
object, for a model its finalize, and one barrier; a RENDER_FRAME leaves one render. -/
def isBlock : List Event → Bool
  | [Event.commit _, Event.barrier] => true
  | [Event.commit o, Event.finalize m, Event.barrier] => o == m
  | [Event.renderFrame _ _ _] => true
  | _ => false

/-- Between the states `st` and `s` the rank has completed at most one command that commits
or renders: its commits, barriers and renders have grown by nothing or by one block. -/
def blockSince (st s : WorkerState) : Prop :=
  ∃ b : List Event, (b = [] ∨ isBlock b = true) ∧ syncs s = syncs st ++ b

/-- Between the states `st` and `s` the commits, barriers and renders of the rank have grown
by whole blocks only: every commit since `st` has been followed by its barrier (after the
finalize of a model) before anything else was committed or rendered. -/
def blocksSince (st s : WorkerState) : Prop :=
  ∃ blocks : List (List Event), (∀ b ∈ blocks, isBlock b = true) ∧
    syncs s = syncs st ++ blocks.flatten

/-! ## Concrete inputs used to exercise the definitions -/

/-- A worker that has not created anything yet. -/
def emptyState : WorkerState :=
  { heap := [], objectByHandle := [], bcBuffer := false, modules := [], trace := [] }

/-- An environment with the enum values of the OSPRay headers of that release, for the rank
`rank` at log level `logLevel`; `knows` says whether the type registries of the rank resolve
the type names they are asked for, `overrides` whether its renderers intercept creation. -/
def sampleEnv (rank : Nat) (logLevel : Int) (knows overrides : Bool) : Env :=
  { rank := rank, logLevel := logLevel,
    code := fun c => (allCmds.indexOf c : Int),
    NULL_HANDLE := 0, OSP_OBJECT := 1000, OSP_STRING := 1500, OSP_INT := 4000,
    OSP_FLOAT := 6000, OSP_FLOAT2 := 6001, OSP_FLOAT3 := 6002, OSP_FLOAT4 := 6003,
    OSP_INT2 := 4001, OSP_INT3 := 4002, OSP_DATA_SHARED_BUFFER := 1,
    OSPD_MODE_MASTERED := 0, sizeOf := fun _ => 8,
    registered := fun _ _ _ => knows,
    rendererCreateMaterial := fun _ _ => overrides,
    rendererCreateLight := fun _ _ => overrides,
    setRegion := fun _ _ _ _ => if knows then 1 else 0,
    pixelOpCreateInstance := fun _ => true,
    getSymbol := fun _ _ => knows,
    currentApiMode := 0,
    createTexture := fun _ _ _ => true,
    computeSamples := fun _ _ _ => true,
    managedObjectType := fun _ => 1000 }

/-- Three ranks of which the middle one cannot resolve the requested type. -/
def threeRanks : List Rank :=
  [{ env := sampleEnv 0 0 true false, st := emptyState },
   { env := sampleEnv 1 0 false false, st := emptyState },
   { env := sampleEnv 2 0 true false, st := emptyState }]

/-- The frame of a NEW_MATERIAL command for handle 7, no renderer, on a rank whose two peers
both created the material. -/
def sampleMaterialChannel : Channel :=
  { cmd := [Token.handle 0, Token.handle 7, Token.charPtr "OBJMaterial"], peers := [[0, 0]] }

/-- State of rank 0 after it accepted the material of `sampleMaterialChannel`. -/
def sampleAccepted : WorkerState :=
  { heap := [{ freshObject Kind.material "OBJMaterial" with refCount := 2 }],
    objectByHandle := [(7, 0)], bcBuffer := false, modules := [],
    trace := [Event.allreduce 0 0, Event.refInc 0, Event.send 0] }

/-- Two ranks without a renderer; only rank 0 can resolve the requested type. -/
def twoRanks : List Rank :=
  [{ env := sampleEnv 0 0 true false, st := emptyState },
   { env := sampleEnv 1 0 false false, st := emptyState }]

/-- A worker whose handle 3 is bound to a renderer. -/
def rendererState : WorkerState :=
  { heap := [{ freshObject Kind.renderer "scivis" with refCount := 1 }],
    objectByHandle := [(3, 0)], bcBuffer := false, modules := [], trace := [] }

/-- Two ranks with a renderer that intercepts the creation on rank 0 only; rank 1 cannot
create the object at all. -/
def twoRanksOverride : List Rank :=
  [{ env := sampleEnv 0 0 false true, st := rendererState },
   { env := sampleEnv 1 0 false false, st := rendererState }]

/-- Reference count, liveness and trace with which a handler ended: what the release of a
rejected object can be read from. -/
def countsAndTrace (s : Step) : List (Int × Bool) × List Event :=
  (s.st.heap.map fun x => (x.refCount, x.alive), s.st.trace)

/-- A worker whose handle 5 is bound to a volume and whose scratch buffer exists already
(it has handled a region update before). -/
def volumeState : WorkerState :=
  { heap := [{ freshObject Kind.volume "block_bricked_volume" with refCount := 2 }],
    objectByHandle := [(5, 0)], bcBuffer := true, modules := [], trace := [] }

/-- A SET_REGION frame for the volume of `volumeState` with a payload of `size` bytes. -/
def regionChannel (size : Nat) : Channel :=
  { cmd := [Token.handle 5, Token.veci [0, 0, 0], Token.veci [1, 1, 1], Token.size_t size,
      Token.data size []],
    peers := [[]] }

/-- A GET_VALUE frame that asks the object at handle 5 for the parameter `voxelRange` as a
value of the data type `type`. -/
def getValueChannel (type : Int) : Channel :=
  { cmd := [Token.handle 5, Token.charPtr "voxelRange", Token.int32 type], peers := [] }

/-- A SET_MATERIAL frame whose geometry handle 8 is bound to nothing in `volumeState`. -/
def setMaterialChannel : Channel :=
  { cmd := [Token.handle 8, Token.handle 5], peers := [] }

/-- The command stream NEW_MODEL(1), NEW_TRIANGLEMESH(2), ADD_GEOMETRY(1, 2), COMMIT(1). -/
def scenarioChannel : Channel :=
  { cmd := [Token.int32 ((sampleEnv 0 0 true false).code Cmd.NEW_MODEL), Token.handle 1,
      Token.int32 ((sampleEnv 0 0 true false).code Cmd.NEW_TRIANGLEMESH), Token.handle 2,
      Token.int32 ((sampleEnv 0 0 true false).code Cmd.ADD_GEOMETRY), Token.handle 1,
      Token.handle 2,
      Token.int32 ((sampleEnv 0 0 true false).code Cmd.COMMIT), Token.handle 1],
    peers := [] }

/-- A worker whose handle 1 is bound to a model with the geometry collection `coll` and
whose handles 2, 3 are bound to two meshes. -/
def modelState (coll : List ObjId) : WorkerState :=
  { heap := [{ freshObject Kind.model "Model" with refCount := 1, geometry := coll },
      { freshObject Kind.triangleMesh "TriangleMesh" with refCount := 3 },
      { freshObject Kind.triangleMesh "TriangleMesh" with refCount := 3 }],
    objectByHandle := [(1, 0), (2, 1), (3, 2)], bcBuffer := false, modules := [], trace := [] }

/-- The frame fields `model handle 1, geometry handle g`. -/
def pairChannel (g : ObjectHandle) : Channel :=
  { cmd := [Token.handle 1, Token.handle g], peers := [] }

/-- A NEW_DATA frame for handle 9: three `OSP_OBJECT` entries, sent with the shared-buffer
flag set, holding the handle 2 twice and the null handle once. -/
def dataChannel : Channel :=
  { cmd := [Token.handle 9, Token.size_t 3, Token.int32 1000, Token.int32 1, Token.size_t 1,
      Token.data 24 [2, 0, 2]],
    peers := [] }

/-- A NEW_VOLUME frame for handle 4 and the type name `type`. -/
def newVolumeChannel (type : String) : Channel :=
  { cmd := [Token.handle 4, Token.charPtr type], peers := [] }

/-- The command stream NEW_MODEL(1), FINALIZE, NEW_MODEL(2). -/
def finalizeChannel : Channel :=
  { cmd := [Token.int32 ((sampleEnv 0 0 true false).code Cmd.NEW_MODEL), Token.handle 1,
      Token.int32 ((sampleEnv 0 0 true false).code Cmd.FINALIZE),
      Token.int32 ((sampleEnv 0 0 true false).code Cmd.NEW_MODEL), Token.handle 2],
    peers := [] }

/-- Two ranks without a renderer, rank 0 logging at level 3; rank 0 cannot resolve the
requested type, rank 1 can. -/
def twoRanksLogging : List Rank :=
  [{ env := sampleEnv 0 3 false false, st := emptyState },
   { env := sampleEnv 1 3 true false, st := emptyState }]

/-- Two ranks with a renderer bound to handle 3, rank 0 logging at level 3; the renderer of
rank 0 creates the object, rank 1 cannot create it. -/
def twoRanksOverrideLogging : List Rank :=
  [{ env := sampleEnv 0 3 false true, st := rendererState },
   { env := sampleEnv 1 3 false false, st := rendererState }]

/-- How a handler ended, for reading off a fault: `none` when it returned or exited. -/
def Step.fault : Step → Option Fault
  | Step.raised f _ => some f
  | _ => none

/-- The command stream GET_TYPE(5, ""), GET_VALUE(5, "voxelRange", OSP_STRING),
NEW_DATA(9, three items of format 1000, no initial data), COMMIT(5). -/
def queryChannel : Channel :=
  { cmd := [Token.int32 ((sampleEnv 0 0 true false).code Cmd.GET_TYPE), Token.handle 5,
      Token.charPtr "",
      Token.int32 ((sampleEnv 0 0 true false).code Cmd.GET_VALUE), Token.handle 5,
      Token.charPtr "voxelRange", Token.int32 1500,
      Token.int32 ((sampleEnv 0 0 true false).code Cmd.NEW_DATA), Token.handle 9,
      Token.size_t 3, Token.int32 1000, Token.int32 0, Token.size_t 0,
      Token.int32 ((sampleEnv 0 0 true false).code Cmd.COMMIT), Token.handle 5],
    peers := [] }

/-- The command stream NEW_RENDERER(3, "scivis"), NEW_MODEL(1), COMMIT(1), COMMIT(3),
RENDER_FRAME(frame buffer 0, renderer 3, flags 0). -/
def renderChannel : Channel :=
  { cmd := [Token.int32 ((sampleEnv 0 0 true false).code Cmd.NEW_RENDERER), Token.handle 3,
      Token.charPtr "scivis",
      Token.int32 ((sampleEnv 0 0 true false).code Cmd.NEW_MODEL), Token.handle 1,
      Token.int32 ((sampleEnv 0 0 true false).code Cmd.COMMIT), Token.handle 1,
      Token.int32 ((sampleEnv 0 0 true false).code Cmd.COMMIT), Token.handle 3,
      Token.int32 ((sampleEnv 0 0 true false).code Cmd.RENDER_FRAME), Token.handle 0,
      Token.handle 3, Token.int32 0],
    peers := [] }

/-- A NEW_DATA frame for handle 9 with `2^31` entries of format `OSP_OBJECT` (1000), all of
them the null handle, sent with initial data: `2^31 * 8` payload bytes. -/
def bigDataChannel : Channel :=
  { cmd := [Token.handle 9, Token.size_t 2147483648, Token.int32 1000, Token.int32 0,
      Token.size_t 1, Token.data 17179869184 (List.replicate 2147483648 0)],
    peers := [] }

/-- A worker whose handle 5 is bound to a volume and that has not handled a region update
yet: its scratch buffer does not exist. -/
def freshVolumeState : WorkerState :=
  { volumeState with bcBuffer := false }

/-- The command stream SET_REGION(5, 100 bytes), NEW_MODEL(1), SET_REGION(5, 200 bytes),
SET_REGION(5, 41943040 bytes), with every other rank reporting success. -/
def regionStream : Channel :=
  { cmd := [Token.int32 ((sampleEnv 0 0 true false).code Cmd.SET_REGION), Token.handle 5,
      Token.veci [0, 0, 0], Token.veci [1, 1, 1], Token.size_t 100, Token.data 100 [],
      Token.int32 ((sampleEnv 0 0 true false).code Cmd.NEW_MODEL), Token.handle 1,
      Token.int32 ((sampleEnv 0 0 true false).code Cmd.SET_REGION), Token.handle 5,
      Token.veci [0, 0, 0], Token.veci [1, 1, 1], Token.size_t 200, Token.data 200 [],
      Token.int32 ((sampleEnv 0 0 true false).code Cmd.SET_REGION), Token.handle 5,
      Token.veci [0, 0, 0], Token.veci [1, 1, 1], Token.size_t 41943040,
      Token.data 41943040 []],
    peers := [[], [], []] }

/-! ## Basic facts about the state operations -/

@[simp] theorem emit_heap (st : WorkerState) (e : Event) : (emit st e).heap = st.heap := rfl

@[simp] theorem emit_objectByHandle (st : WorkerState) (e : Event) :
    (emit st e).objectByHandle = st.objectByHandle := rfl

@[simp] theorem emit_trace (st : WorkerState) (e : Event) :
    (emit st e).trace = st.trace ++ [e] := rfl

@[simp] theorem emit_bcBuffer (st : WorkerState) (e : Event) :
    (emit st e).bcBuffer = st.bcBuffer := rfl

@[simp] theorem updObj_objectByHandle (st : WorkerState) (o : ObjId)
    (f : ManagedObject → ManagedObject) :
    (updObj st o f).objectByHandle = st.objectByHandle := rfl

@[simp] theorem updObj_trace (st : WorkerState) (o : ObjId)
    (f : ManagedObject → ManagedObject) : (updObj st o f).trace = st.trace := rfl

@[simp] theorem updObj_heap (st : WorkerState) (o : ObjId)
    (f : ManagedObject → ManagedObject) : (updObj st o f).heap = st.heap.modify f o := rfl

@[simp] theorem bump_objectByHandle (st : WorkerState) (o : ObjId) (d : Int) :
    (bump st o d).objectByHandle = st.objectByHandle := rfl

@[simp] theorem bump_trace (st : WorkerState) (o : ObjId) (d : Int) :
    (bump st o d).trace = st.trace := rfl

@[simp] theorem refInc_objectByHandle (st : WorkerState) (o : ObjId) :
    (refInc st o).objectByHandle = st.objectByHandle := rfl

@[simp] theorem refDec_objectByHandle (st : WorkerState) (o : ObjId) :
    (refDec st o).objectByHandle = st.objectByHandle := rfl

@[simp] theorem refInc_trace (st : WorkerState) (o : ObjId) :
    (refInc st o).trace = st.trace ++ [Event.refInc o] := rfl

@[simp] theorem refDec_trace (st : WorkerState) (o : ObjId) :
    (refDec st o).trace = st.trace ++ [Event.refDec o] := rfl

@[simp] theorem assign_objectByHandle (st : WorkerState) (h : ObjectHandle) (o : ObjId) :
    (assign st h o).objectByHandle = (h, o) :: st.objectByHandle := rfl

@[simp] theorem assign_trace (st : WorkerState) (h : ObjectHandle) (o : ObjId) :
    (assign st h o).trace = st.trace := rfl

@[simp] theorem lookup_emit (st : WorkerState) (e : Event) (h : ObjectHandle) :
    lookup (emit st e) h = lookup st h := rfl

@[simp] theorem logRank0_objectByHandle (env : Env) (st : WorkerState) :
    (logRank0 env st).objectByHandle = st.objectByHandle := by
  unfold logRank0; split <;> rfl

@[simp] theorem logRank0_heap (env : Env) (st : WorkerState) :
    (logRank0 env st).heap = st.heap := by
  unfold logRank0; split <;> rfl

theorem createInstance_objectByHandle (env : Env) (st : WorkerState) (kind : Kind)
    (type : String) : (createInstance env st kind type).1.objectByHandle = st.objectByHandle := by
  unfold createInstance; split <;> rfl

/-- What a factory returns is a live object of the heap. -/
theorem createInstance_alive (env : Env) (st : WorkerState) (kind : Kind) (type : String)
    (o : ObjId) (h : (createInstance env st kind type).2 = some o) :
    ∃ x, (createInstance env st kind type).1.heap[o]? = some x ∧ x.alive = true := by
  unfold createInstance at h ⊢
  split at h
  · rename_i hr
    simp only [hr, if_true, newObject] at h ⊢
    cases h
    exact ⟨freshObject kind type, by simp, rfl⟩
  · cases h

/-- The object at the address whose count is changed. -/
theorem bump_heap_self (st : WorkerState) (o : ObjId) (d : Int) (x : ManagedObject)
    (hx : st.heap[o]? = some x) :
    (bump st o d).heap[o]? =
      some { x with
        refCount := x.refCount + d,
        alive := if x.refCount + d = 0 ∧ d < 0 then false else x.alive } := by
  simp only [bump, updObj_heap, List.getElem?_modify_eq, hx]
  rfl

/-- Objects at other addresses are not touched by a change of count. -/
theorem bump_heap_other (st : WorkerState) (o p : ObjId) (d : Int) (hne : o ≠ p) :
    (bump st o d).heap[p]? = st.heap[p]? := by
  simp [bump, updObj_heap, List.getElem?_modify, if_neg hne]

/-- Taking a reference keeps a live object alive. -/
theorem bump_one_alive (st : WorkerState) (o : ObjId) (x : ManagedObject)
    (hx : st.heap[o]? = some x) (ha : x.alive = true) :
    ∃ y, (bump st o 1).heap[o]? = some y ∧ y.alive = true := by
  rw [bump_heap_self st o 1 x hx]
  exact ⟨_, rfl, by simpa using ha⟩

/-- The local part of a creation leaves the registry alone, and the object it returns, if
any, is a live object of the heap. -/
theorem createLocal_created (env : Env) (kind : Kind) (ov : String → String → Bool)
    (st : WorkerState) (rh : ObjectHandle) (type : String) (st1 : WorkerState)
    (obj : Option ObjId) (h : createLocal env kind ov st rh type = Local.created st1 obj) :
    st1.objectByHandle = st.objectByHandle ∧
      ∀ o, obj = some o → ∃ x, st1.heap[o]? = some x ∧ x.alive = true := by
  unfold createLocal at h
  split at h
  · cases h
    exact ⟨createInstance_objectByHandle env st kind type,
      fun o ho => createInstance_alive env st kind type o ho⟩
  · split at h
    · cases h
    · split at h
      · cases h
      · split at h
        · cases h
        · split at h
          · cases h
            refine ⟨rfl, ?_⟩
            intro o ho
            cases ho
            have := bump_one_alive (newObject st (freshObject kind type)).1 st.heap.length
              (freshObject kind type) (by simp [newObject]) rfl
            simpa [refInc, newObject] using this
          · cases h
            exact ⟨createInstance_objectByHandle env st kind type,
              fun o ho => createInstance_alive env st kind type o ho⟩

/-! ## The collective vote -/

theorem wrapInt32_of_range (x : Int) (h0 : 0 ≤ x) (h1 : x < 2147483648) : wrapInt32 x = x := by
  unfold wrapInt32; omega

theorem myFail_nonneg (obj : Option ObjId) : 0 ≤ myFail obj ∧ myFail obj ≤ 1 := by
  unfold myFail; split <;> omega

theorem failedRanks_cons (l : Local) (ls : List Local) :
    (failedRanks (l :: ls) : Int) = myFail l.obj + failedRanks ls := by
  unfold failedRanks myFail
  cases h : l.obj <;> simp [List.filter_cons, h]
  omega

theorem failedRanks_le (ls : List Local) : failedRanks ls ≤ ls.length := by
  unfold failedRanks; exact List.length_filter_le _ _

/-- The flag of one rank plus the flags of all the others is the number of failed ranks. -/
theorem flag_add_others (ls : List Local) (i : Nat) (l : Local) (hi : ls[i]? = some l) :
    myFail l.obj + ((ls.eraseIdx i).map fun q => myFail q.obj).sum = failedRanks ls := by
  induction ls generalizing i with
  | nil => simp at hi
  | cons a as ih =>
    cases i with
    | zero =>
      simp only [List.getElem?_cons_zero, Option.some.injEq] at hi
      subst hi
      simp only [List.eraseIdx_cons_zero, failedRanks_cons]
      congr 1
      clear ih
      induction as with
      | nil => simp [failedRanks]
      | cons b bs ihb => simp only [List.map_cons, List.sum_cons, failedRanks_cons, ihb]
    | succ j =>
      simp only [List.getElem?_cons_succ] at hi
      have := ih j hi
      simp only [List.eraseIdx_cons_succ, List.map_cons, List.sum_cons, failedRanks_cons]
      omega

/-- The sum-reduction of a group of fewer than `2^31` ranks returns the number of ranks whose
flag is set. -/
theorem MPI_SUM_group (ls : List Local) (i : Nat) (l : Local) (hi : ls[i]? = some l)
    (hN : ls.length < 2147483648) :
    MPI_SUM (myFail l.obj) ((ls.eraseIdx i).map fun q => myFail q.obj) = failedRanks ls := by
  unfold MPI_SUM
  rw [flag_add_others ls i l hi]
  apply wrapInt32_of_range
  · omega
  · have := failedRanks_le ls; omega

theorem failedRanks_eq_zero (ls : List Local) :
    failedRanks ls = 0 ↔ ∀ l ∈ ls, l.obj ≠ none := by
  unfold failedRanks
  simp [List.filter_eq_nil_iff]

theorem reportRank0_objectByHandle (env : Env) (st : WorkerState) (ch : Channel)
    (obj : Option ObjId) (sumFail : Int) :
    (reportRank0 env st ch obj sumFail).st.objectByHandle = st.objectByHandle := by
  unfold reportRank0 deref
  repeat' split
  all_goals rfl

/-- A rank that knows the sum binds the handle exactly when the sum is zero, provided that a
zero sum comes with a live local object (as it does when the sum is the true one). -/
theorem afterVote_binds (env : Env) (st0 st : WorkerState) (ch : Channel)
    (handle : ObjectHandle) (obj : Option ObjId) (sumFail : Int)
    (hreg : st.objectByHandle = st0.objectByHandle)
    (hobj : sumFail = 0 → ∃ o x, obj = some o ∧ st.heap[o]? = some x ∧ x.alive = true) :
    bindsHandle st0 handle (afterVote env st ch handle obj sumFail) ↔ sumFail = 0 := by
  unfold bindsHandle afterVote
  by_cases hs : sumFail = 0
  · obtain ⟨o, x, rfl, hx, ha⟩ := hobj hs
    simp only [hs, if_true, deref, hx, ha, reportRank0_objectByHandle, assign_objectByHandle,
      refInc_objectByHandle, hreg, iff_true]
    exact ⟨o, rfl⟩
  · simp only [hs, if_false, iff_false]
    rintro ⟨o, ho⟩
    have hlen := congrArg List.length ho
    cases obj with
    | none =>
      rw [reportRank0_objectByHandle, hreg] at hlen
      simp at hlen
    | some m =>
      rw [reportRank0_objectByHandle, refDec_objectByHandle, hreg] at hlen
      simp at hlen

theorem createLocal_stopped (env : Env) (kind : Kind) (ov : String → String → Bool)
    (st : WorkerState) (rh : ObjectHandle) (type : String) (f : Fault) (st1 : WorkerState)
    (h : createLocal env kind ov st rh type = Local.stopped f st1) : st1 = st := by
  unfold createLocal at h
  repeat' split at h
  all_goals first | (cases h; done) | (cases h; rfl)

/-- A rank that does not join a completed reduction binds nothing. -/
theorem newVoted_no_peers (env : Env) (kind : Kind) (ov : String → String → Bool)
    (st : WorkerState) (rh handle : ObjectHandle) (type : String) :
    ¬ bindsHandle st handle (newVoted env kind ov st { cmd := [], peers := [] } rh handle type) := by
  unfold newVoted bindsHandle
  rintro ⟨o, ho⟩
  have hlen := congrArg List.length ho
  cases hl : createLocal env kind ov (logRank0 env st) rh type with
  | stopped f st1 =>
    have := createLocal_stopped env kind ov _ rh type f st1 hl
    subst this
    simp [hl, Step.st] at hlen
  | created st1 obj =>
    have := (createLocal_created env kind ov _ rh type st1 obj hl).1
    simp [hl, voteAndBind, MPI_Allreduce, Step.st, this] at hlen

/-- A rank that joins a completed reduction goes on with the sum it receives. -/
theorem newVoted_voted (env : Env) (kind : Kind) (ov : String → String → Bool)
    (st : WorkerState) (rh handle : ObjectHandle) (type : String) (others : List Int)
    (st1 : WorkerState) (obj : Option ObjId)
    (hl : createLocal env kind ov (logRank0 env st) rh type = Local.created st1 obj) :
    newVoted env kind ov st { cmd := [], peers := [others] } rh handle type =
      afterVote env (emit st1 (Event.allreduce (myFail obj) (MPI_SUM (myFail obj) others)))
        { cmd := [], peers := [] } handle obj (MPI_SUM (myFail obj) others) := by
  simp only [newVoted, hl, voteAndBind, MPI_Allreduce]

/-- In a group where every rank joins the reduction, rank `i` ends in the state described by
`afterVote` with the number of failed ranks as the sum, and binds exactly when it is zero. -/
theorem group_rank_voted (kind : Kind) (sel : Env → String → String → Bool)
    (ranks : List Rank) (rh handle : ObjectHandle) (type : String)
    (hmax : ranks.length < 2147483648)
    (hreach : ∀ r ∈ ranks, (localOf kind sel r rh type).reached = true)
    (i : Nat) (r : Rank) (hi : ranks[i]? = some r) :
    (groupNewVoted kind sel ranks rh handle type)[i]? =
        some (afterVote r.env
          (emit (localOf kind sel r rh type).st
            (Event.allreduce (myFail (localOf kind sel r rh type).obj)
              (failedRanks (ranks.map fun q => localOf kind sel q rh type))))
          { cmd := [], peers := [] } handle (localOf kind sel r rh type).obj
          (failedRanks (ranks.map fun q => localOf kind sel q rh type))) ∧
      (bindsHandle r.st handle (afterVote r.env
          (emit (localOf kind sel r rh type).st
            (Event.allreduce (myFail (localOf kind sel r rh type).obj)
              (failedRanks (ranks.map fun q => localOf kind sel q rh type))))
          { cmd := [], peers := [] } handle (localOf kind sel r rh type).obj
          (failedRanks (ranks.map fun q => localOf kind sel q rh type))) ↔
        failedRanks (ranks.map fun q => localOf kind sel q rh type) = 0) := by
  have hmem : r ∈ ranks := List.getElem?_mem hi
  have hall : (ranks.map fun q => localOf kind sel q rh type).all Local.reached = true := by
    simp only [List.all_eq_true, List.mem_map]
    rintro l ⟨q, hq, rfl⟩
    exact hreach q hq
  have hli : (ranks.map fun q => localOf kind sel q rh type)[i]? =
      some (localOf kind sel r rh type) := by
    simp [List.getElem?_map, hi]
  have hsum := MPI_SUM_group _ i _ hli (by simpa using hmax)
  cases hl : localOf kind sel r rh type with
  | stopped f st1 =>
    have := hreach r hmem
    simp [hl, Local.reached] at this
  | created st1 obj =>
    rw [hl] at hsum
    have hl2 : createLocal r.env kind (sel r.env) (logRank0 r.env r.st) rh type =
        Local.created st1 obj := hl
    have hc := createLocal_created _ _ _ _ _ _ _ _ hl2
    have e1 : (Local.created st1 obj).st = st1 := rfl
    have e2 : (Local.created st1 obj).obj = obj := rfl
    rw [e2] at hsum
    rw [e1, e2]
    constructor
    · simp only [groupNewVoted, List.getElem?_mapIdx, hi, Option.map_some', peersOf, hall,
        if_true]
      rw [newVoted_voted _ _ _ _ _ _ _ _ st1 obj hl2, hsum]
    · refine (afterVote_binds _ r.st _ _ _ _ _ ?_ ?_).trans Int.ofNat_eq_zero
      · simp [hc.1]
      · intro hz
        have hz0 : failedRanks (ranks.map fun q => localOf kind sel q rh type) = 0 := by
          exact_mod_cast hz
        have := (failedRanks_eq_zero _).1 hz0 (localOf kind sel r rh type)
          (List.getElem?_mem hli)
        rw [hl, e2] at this
        obtain ⟨o, ho⟩ := Option.ne_none_iff_exists'.1 this
        obtain ⟨x, hx, ha⟩ := hc.2 o ho
        exact ⟨o, x, ho, by simpa using hx, ha⟩

/-- C1: a worker group handling one NEW_MATERIAL or NEW_LIGHT command (`groupNewVoted` at
the kind and override of the command) takes one decision. Either every rank binds the handle
or no rank does. When every rank joins the sum-reduction, the sum each rank acts on is the
number of ranks whose local creation yielded nothing, that number is zero exactly when every
rank created the object, and each rank binds the handle exactly when the sum is zero. -/
theorem collective_creation_converges (kind : Kind) (sel : Env → String → String → Bool)
    (ranks : List Rank) (rendererHandle handle : ObjectHandle) (type : String)
    (hN : 1 ≤ ranks.length) (hmax : ranks.length < 2147483648) :
    ((∀ (i : Nat) (r : Rank) (s : Step), ranks[i]? = some r →
        (groupNewVoted kind sel ranks rendererHandle handle type)[i]? = some s →
        bindsHandle r.st handle s) ∨
      (∀ (i : Nat) (r : Rank) (s : Step), ranks[i]? = some r →
        (groupNewVoted kind sel ranks rendererHandle handle type)[i]? = some s →
        ¬ bindsHandle r.st handle s)) ∧
    ((∀ r ∈ ranks, (localOf kind sel r rendererHandle type).reached = true) →
      (failedRanks (ranks.map fun q => localOf kind sel q rendererHandle type) = 0 ↔
        ∀ r ∈ ranks, (localOf kind sel r rendererHandle type).obj ≠ none) ∧
      ∀ (i : Nat) (r : Rank), ranks[i]? = some r →
        (groupNewVoted kind sel ranks rendererHandle handle type)[i]? =
          some (afterVote r.env
            (emit (localOf kind sel r rendererHandle type).st
              (Event.allreduce (myFail (localOf kind sel r rendererHandle type).obj)
                (failedRanks (ranks.map fun q => localOf kind sel q rendererHandle type))))
            { cmd := [], peers := [] } handle (localOf kind sel r rendererHandle type).obj
            (failedRanks (ranks.map fun q => localOf kind sel q rendererHandle type))) ∧
        (bindsHandle r.st handle (afterVote r.env
            (emit (localOf kind sel r rendererHandle type).st
              (Event.allreduce (myFail (localOf kind sel r rendererHandle type).obj)
                (failedRanks (ranks.map fun q => localOf kind sel q rendererHandle type))))
            { cmd := [], peers := [] } handle (localOf kind sel r rendererHandle type).obj
            (failedRanks (ranks.map fun q => localOf kind sel q rendererHandle type))) ↔
          failedRanks (ranks.map fun q => localOf kind sel q rendererHandle type) = 0)) := by
  have _ := hN
  refine ⟨?_, fun hreach => ⟨?_, fun i r hi =>
    group_rank_voted kind sel ranks rendererHandle handle type hmax hreach i r hi⟩⟩
  · by_cases hreach : ∀ r ∈ ranks, (localOf kind sel r rendererHandle type).reached = true
    · by_cases hz : failedRanks (ranks.map fun q => localOf kind sel q rendererHandle type) = 0
      · left
        intro i r s hi hs
        obtain ⟨h1, h2⟩ :=
          group_rank_voted kind sel ranks rendererHandle handle type hmax hreach i r hi
        rw [h1] at hs
        cases hs
        exact h2.2 hz
      · right
        intro i r s hi hs
        obtain ⟨h1, h2⟩ :=
          group_rank_voted kind sel ranks rendererHandle handle type hmax hreach i r hi
        rw [h1] at hs
        cases hs
        exact fun hb => hz (h2.1 hb)
    · right
      intro i r s hi hs
      have hall : (ranks.map fun q => localOf kind sel q rendererHandle type).all
          Local.reached = false := by
        rw [Bool.eq_false_iff]
        intro hcon
        apply hreach
        intro q hq
        simp only [List.all_eq_true, List.mem_map] at hcon
        exact hcon _ ⟨q, hq, rfl⟩
      simp only [groupNewVoted, List.getElem?_mapIdx, hi, Option.map_some', peersOf, hall,
        Option.some.injEq] at hs
      subst hs
      exact newVoted_no_peers _ _ _ _ _ _ _
  · rw [failedRanks_eq_zero]
    simp [List.mem_map]

/-- C1 applied to three ranks of which one cannot create the material. -/
theorem collective_creation_converges_witness :
    (1 ≤ threeRanks.length ∧ threeRanks.length < 2147483648) ∧
    ((∀ (i : Nat) (r : Rank) (s : Step), threeRanks[i]? = some r →
        (groupNewVoted Kind.material (fun e => e.rendererCreateMaterial) threeRanks 0 7
          "OBJMaterial")[i]? = some s → bindsHandle r.st 7 s) ∨
      (∀ (i : Nat) (r : Rank) (s : Step), threeRanks[i]? = some r →
        (groupNewVoted Kind.material (fun e => e.rendererCreateMaterial) threeRanks 0 7
          "OBJMaterial")[i]? = some s → ¬ bindsHandle r.st 7 s)) :=
  ⟨⟨by decide, by decide⟩,
    (collective_creation_converges Kind.material (fun e => e.rendererCreateMaterial) threeRanks
      0 7 "OBJMaterial" (by decide) (by decide)).1⟩

/-- With one of three ranks failing, the sum is one on every rank and no registry changes. -/
theorem one_of_three_fails_none_binds :
    (groupNewVoted Kind.material (fun e => e.rendererCreateMaterial) threeRanks 0 7
      "OBJMaterial").map (fun s => (s.st.objectByHandle, s.st.trace)) =
      [([], [Event.allreduce 0 1, Event.refDec 0, Event.send 1]),
       ([], [Event.allreduce 1 1]),
       ([], [Event.allreduce 0 1, Event.refDec 0])] := by
  decide

/-! ## Responses to the master -/

@[simp] theorem sends_emit (st : WorkerState) (e : Event) :
    sends (emit st e) = sends st ++ (sendOf e).toList := by
  cases h : sendOf e <;> simp [sends, List.filterMap_append, h]

@[simp] theorem reductions_emit (st : WorkerState) (e : Event) :
    reductions (emit st e) = reductions st ++ (reductionOf e).toList := by
  cases h : reductionOf e <;> simp [reductions, List.filterMap_append, h]

theorem sends_congr {st1 st : WorkerState} (h : st1.trace = st.trace) : sends st1 = sends st := by
  unfold sends; rw [h]

theorem reductions_congr {st1 st : WorkerState} (h : st1.trace = st.trace) :
    reductions st1 = reductions st := by
  unfold reductions; rw [h]

@[simp] theorem sends_bump (st : WorkerState) (o : ObjId) (d : Int) :
    sends (bump st o d) = sends st := sends_congr rfl

@[simp] theorem reductions_bump (st : WorkerState) (o : ObjId) (d : Int) :
    reductions (bump st o d) = reductions st := reductions_congr rfl

@[simp] theorem sends_assign (st : WorkerState) (h : ObjectHandle) (o : ObjId) :
    sends (assign st h o) = sends st := sends_congr rfl

@[simp] theorem reductions_assign (st : WorkerState) (h : ObjectHandle) (o : ObjId) :
    reductions (assign st h o) = reductions st := reductions_congr rfl

@[simp] theorem sends_refInc (st : WorkerState) (o : ObjId) :
    sends (refInc st o) = sends st := by simp [refInc, sendOf]

@[simp] theorem reductions_refInc (st : WorkerState) (o : ObjId) :
    reductions (refInc st o) = reductions st := by simp [refInc, reductionOf]

@[simp] theorem sends_refDec (st : WorkerState) (o : ObjId) :
    sends (refDec st o) = sends st := by simp [refDec, sendOf]

@[simp] theorem reductions_refDec (st : WorkerState) (o : ObjId) :
    reductions (refDec st o) = reductions st := by simp [refDec, reductionOf]

@[simp] theorem sends_logRank0 (env : Env) (st : WorkerState) :
    sends (logRank0 env st) = sends st := by
  unfold logRank0; split <;> simp [sendOf]

@[simp] theorem reductions_logRank0 (env : Env) (st : WorkerState) :
    reductions (logRank0 env st) = reductions st := by
  unfold logRank0; split <;> simp [reductionOf]

@[simp] theorem sends_newObject (st : WorkerState) (x : ManagedObject) :
    sends (newObject st x).1 = sends st := sends_congr rfl

@[simp] theorem reductions_newObject (st : WorkerState) (x : ManagedObject) :
    reductions (newObject st x).1 = reductions st := reductions_congr rfl

@[simp] theorem sends_createInstance (env : Env) (st : WorkerState) (k : Kind) (t : String) :
    sends (createInstance env st k t).1 = sends st := by
  unfold createInstance; split <;> exact sends_congr rfl

@[simp] theorem reductions_createInstance (env : Env) (st : WorkerState) (k : Kind)
    (t : String) : reductions (createInstance env st k t).1 = reductions st := by
  unfold createInstance; split <;> exact reductions_congr rfl

/-- The local part of a creation sends nothing and joins no reduction. -/
theorem createLocal_quiet (env : Env) (kind : Kind) (ov : String → String → Bool)
    (st : WorkerState) (rh : ObjectHandle) (type : String) (st1 : WorkerState)
    (obj : Option ObjId) (h : createLocal env kind ov st rh type = Local.created st1 obj) :
    sends st1 = sends st ∧ reductions st1 = reductions st := by
  unfold createLocal at h
  repeat' split at h
  all_goals first
    | (cases h; done)
    | (cases h; exact ⟨by simp, by simp⟩)

/-- A sum of flags that are zero or one is not negative and at most the number of flags. -/
theorem flags_sum_range (fs : List Int) (h : ∀ f ∈ fs, f = 0 ∨ f = 1) :
    0 ≤ fs.sum ∧ fs.sum ≤ fs.length ∧ (fs.sum = 0 ↔ ∀ f ∈ fs, f = 0) := by
  induction fs with
  | nil => simp
  | cons a as ih =>
    have ha := h a (List.mem_cons_self _ _)
    obtain ⟨h0, h1, h2⟩ := ih fun f hf => h f (List.mem_cons_of_mem _ hf)
    simp only [List.sum_cons, List.length_cons, List.mem_cons, forall_eq_or_imp]
    refine ⟨by omega, by push_cast; omega, ?_⟩
    constructor
    · intro hs
      have hs0 : as.sum = 0 := by omega
      exact ⟨by omega, h2.1 hs0⟩
    · rintro ⟨rfl, hall⟩
      have := h2.2 hall
      omega

/-- The sum-reduction over a group of fewer than `2^31` ranks is zero exactly when no rank
has set its flag. -/
theorem MPI_SUM_eq_zero (flag : Int) (others : List Int) (hf : flag = 0 ∨ flag = 1)
    (ho : ∀ f ∈ others, f = 0 ∨ f = 1) (hN : others.length + 1 < 2147483648) :
    MPI_SUM flag others = 0 ↔ flag = 0 ∧ ∀ f ∈ others, f = 0 := by
  obtain ⟨h0, h1, h2⟩ := flags_sum_range others ho
  unfold MPI_SUM
  rw [wrapInt32_of_range _ (by omega) (by omega)]
  constructor
  · intro hs
    have : others.sum = 0 := by omega
    exact ⟨by omega, h2.1 this⟩
  · rintro ⟨rfl, hall⟩
    have := h2.2 hall
    omega

theorem reportRank0_next (env : Env) (st : WorkerState) (ch : Channel) (obj : Option ObjId)
    (sumFail : Int) (st' : WorkerState) (ch' : Channel)
    (h : reportRank0 env st ch obj sumFail = Step.next st' ch') :
    ch' = ch ∧ sends st' = sends st ++ (if env.rank = 0 then [sumFail] else []) ∧
      reductions st' = reductions st := by
  unfold reportRank0 deref at h
  repeat' split at h
  all_goals first
    | (cases h; done)
    | (cases h; simp_all [sendOf, reductionOf])

theorem afterVote_next (env : Env) (st : WorkerState) (ch : Channel) (handle : ObjectHandle)
    (obj : Option ObjId) (sumFail : Int) (st' : WorkerState) (ch' : Channel)
    (h : afterVote env st ch handle obj sumFail = Step.next st' ch') :
    ch' = ch ∧ sends st' = sends st ++ (if env.rank = 0 then [sumFail] else []) ∧
      reductions st' = reductions st := by
  unfold afterVote deref at h
  repeat' split at h
  all_goals first
    | exact (by simpa using reportRank0_next _ _ _ _ _ _ _ h)
    | cases h

@[simp] theorem sends_initBcBuffer (st : WorkerState) :
    sends (initBcBuffer st) = sends st := by
  unfold initBcBuffer; split
  · rfl
  · rw [sends_emit]; simp [sendOf]; exact sends_congr rfl

@[simp] theorem reductions_initBcBuffer (st : WorkerState) :
    reductions (initBcBuffer st) = reductions st := by
  unfold initBcBuffer; split
  · rfl
  · rw [reductions_emit]; simp [reductionOf]; exact reductions_congr rfl

@[simp] theorem sends_selectMem (st : WorkerState) (size : Nat) :
    sends (selectMem st size) = sends st := by
  unfold selectMem; split <;> simp [sendOf]

@[simp] theorem reductions_selectMem (st : WorkerState) (size : Nat) :
    reductions (selectMem st size) = reductions st := by
  unfold selectMem; split <;> simp [reductionOf]

/-! ### Inversion of the field readers -/

theorem get_handle_inv (st : WorkerState) (ch : Channel) (k : ObjectHandle → Channel → Step)
    (r : Step) (h : get_handle st ch k = r) :
    r = Step.raised Fault.channel st ∨
      ∃ v rest, ch.cmd = Token.handle v :: rest ∧ k v { ch with cmd := rest } = r := by
  unfold get_handle at h
  split at h
  · rename_i v rest hc; exact Or.inr ⟨v, rest, hc, h⟩
  · exact Or.inl h.symm

theorem get_int32_inv (st : WorkerState) (ch : Channel) (k : Int → Channel → Step)
    (r : Step) (h : get_int32 st ch k = r) :
    r = Step.raised Fault.channel st ∨
      ∃ v rest, ch.cmd = Token.int32 v :: rest ∧ k v { ch with cmd := rest } = r := by
  unfold get_int32 at h
  split at h
  · rename_i v rest hc; exact Or.inr ⟨v, rest, hc, h⟩
  · exact Or.inl h.symm

theorem get_size_t_inv (st : WorkerState) (ch : Channel) (k : Nat → Channel → Step)
    (r : Step) (h : get_size_t st ch k = r) :
    r = Step.raised Fault.channel st ∨
      ∃ v rest, ch.cmd = Token.size_t v :: rest ∧ k v { ch with cmd := rest } = r := by
  unfold get_size_t at h
  split at h
  · rename_i v rest hc; exact Or.inr ⟨v, rest, hc, h⟩
  · exact Or.inl h.symm

theorem get_charPtr_inv (st : WorkerState) (ch : Channel) (k : String → Channel → Step)
    (r : Step) (h : get_charPtr st ch k = r) :
    r = Step.raised Fault.channel st ∨
      ∃ v rest, ch.cmd = Token.charPtr v :: rest ∧ k v { ch with cmd := rest } = r := by
  unfold get_charPtr at h
  split at h
  · rename_i v rest hc; exact Or.inr ⟨v, rest, hc, h⟩
  · exact Or.inl h.symm

theorem get_float_inv (st : WorkerState) (ch : Channel) (k : Nat → Channel → Step)
    (r : Step) (h : get_float st ch k = r) :
    r = Step.raised Fault.channel st ∨
      ∃ v rest, ch.cmd = Token.float v :: rest ∧ k v { ch with cmd := rest } = r := by
  unfold get_float at h
  split at h
  · rename_i v rest hc; exact Or.inr ⟨v, rest, hc, h⟩
  · exact Or.inl h.symm

theorem get_vecf_inv (n : Nat) (st : WorkerState) (ch : Channel)
    (k : List Nat → Channel → Step) (r : Step) (h : get_vecf n st ch k = r) :
    r = Step.raised Fault.channel st ∨
      ∃ v rest, ch.cmd = Token.vecf v :: rest ∧ v.length = n ∧
        k v { ch with cmd := rest } = r := by
  unfold get_vecf at h
  split at h
  · rename_i v rest hc
    split at h
    · rename_i hl; exact Or.inr ⟨v, rest, hc, hl, h⟩
    · exact Or.inl h.symm
  · exact Or.inl h.symm

theorem get_veci_inv (n : Nat) (st : WorkerState) (ch : Channel)
    (k : List Int → Channel → Step) (r : Step) (h : get_veci n st ch k = r) :
    r = Step.raised Fault.channel st ∨
      ∃ v rest, ch.cmd = Token.veci v :: rest ∧ v.length = n ∧
        k v { ch with cmd := rest } = r := by
  unfold get_veci at h
  split at h
  · rename_i v rest hc
    split at h
    · rename_i hl; exact Or.inr ⟨v, rest, hc, hl, h⟩
    · exact Or.inl h.symm
  · exact Or.inl h.symm

theorem get_data_inv (bytes : Nat) (st : WorkerState) (ch : Channel)
    (k : List Int → Channel → Step) (r : Step) (h : get_data bytes st ch k = r) :
    r = Step.raised Fault.channel st ∨
      ∃ words rest, ch.cmd = Token.data bytes words :: rest ∧
        k words { ch with cmd := rest } = r := by
  unfold get_data at h
  split at h
  · rename_i m words rest hc
    split at h
    · rename_i hl; subst hl; exact Or.inr ⟨words, rest, hc, h⟩
    · exact Or.inl h.symm
  · exact Or.inl h.symm

/-! ## Release of a rejected object -/

/-- C3, at the failing input: two ranks handle NEW_MATERIAL with no renderer bound, rank 0
creates the material from the type registry and rank 1 cannot. The creation is rejected
(sum 1). On rank 0 the handler applies no `refInc` and one `refDec` to the new object: its
count goes from 0 to -1 and the object is never destroyed. -/
theorem rejected_registry_object_count_negative :
    (groupNewVoted Kind.material (fun e => e.rendererCreateMaterial) twoRanks 0 7
      "OBJMaterial").map countsAndTrace =
      [([(-1, true)], [Event.allreduce 0 1, Event.refDec 0, Event.send 1]),
       ([], [Event.allreduce 1 1])] := by
  decide

/-- The sibling path: when the renderer bound to handle 3 creates the material, the handler
takes a reference first, so the `refDec` of the rejecting branch brings the count of the new
object (address 1) from 1 back to 0 and destroys it. -/
theorem rejected_override_object_released :
    (groupNewVoted Kind.material (fun e => e.rendererCreateMaterial) twoRanksOverride 3 7
      "OBJMaterial").map countsAndTrace =
      [([(1, true), (0, false)],
        [Event.refInc 1, Event.allreduce 0 1, Event.refDec 1, Event.send 1]),
       ([(1, true)], [Event.allreduce 1 1])] := by
  decide

theorem reportRank0_heap (env : Env) (st : WorkerState) (ch : Channel)
    (obj : Option ObjId) (sumFail : Int) :
    (reportRank0 env st ch obj sumFail).st.heap = st.heap := by
  unfold reportRank0 deref
  repeat' split
  all_goals rfl

/-- On every rank and in every state: an object that the type registry created (no renderer
is bound to the renderer handle) and that the group rejects ends with the count -1, still
allocated. -/
theorem rejected_registry_object_general (env : Env) (kind : Kind)
    (ov : String → String → Bool) (st : WorkerState) (ch : Channel)
    (rendererHandle handle : ObjectHandle) (type : String) (sumFail : Int)
    (hrh : lookup st rendererHandle = none)
    (hreg : env.registered st.modules kind type = true) (hs : sumFail ≠ 0) :
    createLocal env kind ov st rendererHandle type =
        Local.created { st with heap := st.heap ++ [freshObject kind type] }
          (some st.heap.length) ∧
      (afterVote env { st with heap := st.heap ++ [freshObject kind type] } ch handle
        (some st.heap.length) sumFail).st.heap[st.heap.length]? =
        some { freshObject kind type with refCount := -1 } := by
  constructor
  · simp [createLocal, hrh, createInstance, hreg, newObject]
  · simp only [afterVote, hs, if_false, reportRank0_heap, refDec, emit_heap]
    rw [bump_heap_self _ _ _ (freshObject kind type) (by simp)]
    simp [freshObject]

/-! ## Buffers of the region update -/

/-- C4, counterexample: a payload of exactly `40*1024*1024` bytes is not received into the
scratch buffer. The handler allocates a dedicated buffer of that size, receives into it and
frees it at the end. -/
theorem region_at_threshold_allocates :
    (CMD_SET_REGION (sampleEnv 0 0 true false) volumeState (regionChannel 41943040)).st.trace =
      [Event.alignedMalloc 41943040 false, Event.getData 41943040 false,
       Event.setRegion 0 1, Event.allreduce 0 0, Event.send 0, Event.alignedFree] := by
  decide

/-- One byte less goes to the scratch buffer, without any allocation. -/
theorem region_below_threshold_uses_scratch :
    (CMD_SET_REGION (sampleEnv 0 0 true false) volumeState (regionChannel 41943039)).st.trace =
      [Event.getData 41943039 true, Event.setRegion 0 1, Event.allreduce 0 0,
       Event.send 0] := by
  decide

@[simp] theorem mallocs_emit (st : WorkerState) (e : Event) :
    mallocs (emit st e) = mallocs st ++ (mallocOf e).toList := by
  cases h : mallocOf e <;> simp [mallocs, List.filterMap_append, h]

@[simp] theorem received_emit (st : WorkerState) (e : Event) :
    received (emit st e) = received st ++ (getDataOf e).toList := by
  cases h : getDataOf e <;> simp [received, List.filterMap_append, h]

/-- After the payload is received, the region update neither allocates nor receives. -/
theorem regionBody_quiet (env : Env) (st : WorkerState) (ch : Channel)
    (volumeHandle : ObjectHandle) (index count : List Int) (size : Nat) (words : List Int) :
    mallocs (regionBody env st ch volumeHandle index count size words).st = mallocs st ∧
      received (regionBody env st ch volumeHandle index count size words).st = received st := by
  unfold regionBody
  cases hv : lookup st volumeHandle with
  | none => simp [Assert, Step.st]
  | some v =>
    simp only [Assert, derefAs, deref]
    cases hx : st.heap[v]? with
    | none => simp [Step.st]
    | some x =>
      simp only []
      by_cases ha : x.alive = true
      · by_cases hk : x.kind.isA Kind.volume = true
        · simp only [ha, hk, if_true, MPI_Allreduce]
          cases hp : ch.peers with
          | nil => simp [Step.st, mallocOf, getDataOf]
          | cons others more =>
            simp only [Step.st, finishRegion]
            split <;> split <;> simp [mallocOf, getDataOf]
        · simp [ha, hk, Step.st]
      · simp [ha, Step.st]

/-! ## Unknown opcodes -/

theorem caseOf_eq_none (env : Env) (command : Int) (h : ∀ c : Cmd, env.code c ≠ command) :
    caseOf env command = none := by
  unfold caseOf
  rw [List.find?_eq_none]
  intro c _
  simpa using h c

/-- C5: when the next opcode is not the value of any case label, the loop ends at once with
the error "unknown cmd tag " followed by the decimal tag. The state with which it ends is
the state before the opcode was read, so no binding and no object has changed, and what
follows the tag in the stream is never looked at. -/
theorem unknown_tag_is_fatal (env : Env) (st : WorkerState) (ch : Channel) (command : Int)
    (rest : List Token) (fuel : Nat)
    (hcmd : ch.cmd = Token.int32 command :: rest)
    (hunknown : ∀ c : Cmd, env.code c ≠ command) :
    workerLoop env (fuel + 1) st ch =
        Step.raised (Fault.runtimeError ("unknown cmd tag " ++ toString command)) st ∧
      runWorker env st ch =
        Step.raised (Fault.runtimeError ("unknown cmd tag " ++ toString command)) st := by
  have h1 : ∀ n, workerLoop env (n + 1) st ch =
      Step.raised (Fault.runtimeError ("unknown cmd tag " ++ toString command)) st := by
    intro n
    simp only [workerLoop, get_int32, hcmd, dispatch, caseOf_eq_none env command hunknown]
  exact ⟨h1 fuel, h1 _⟩

/-- C5 applied to the tag 9999, followed by a FINALIZE that is never reached. -/
theorem unknown_tag_is_fatal_witness :
    ((({ cmd := [Token.int32 9999, Token.int32 39], peers := [] } : Channel)).cmd =
        Token.int32 9999 :: [Token.int32 39] ∧
      ∀ c : Cmd, (sampleEnv 0 0 true false).code c ≠ 9999) ∧
    (workerLoop (sampleEnv 0 0 true false) (0 + 1) volumeState
        { cmd := [Token.int32 9999, Token.int32 39], peers := [] } =
        Step.raised (Fault.runtimeError ("unknown cmd tag " ++ toString (9999 : Int)))
          volumeState ∧
      runWorker (sampleEnv 0 0 true false) volumeState
        { cmd := [Token.int32 9999, Token.int32 39], peers := [] } =
        Step.raised (Fault.runtimeError ("unknown cmd tag " ++ toString (9999 : Int)))
          volumeState) :=
  ⟨⟨rfl, by intro c; cases c <;> decide⟩,
    unknown_tag_is_fatal (sampleEnv 0 0 true false) volumeState
      { cmd := [Token.int32 9999, Token.int32 39], peers := [] } 9999 [Token.int32 39] 0 rfl
      (by intro c; cases c <;> decide)⟩

/-- The message for the tags 9999 and -3, written out. -/
theorem unknown_tag_message :
    "unknown cmd tag " ++ toString (9999 : Int) = "unknown cmd tag 9999" ∧
      "unknown cmd tag " ++ toString (-3 : Int) = "unknown cmd tag -3" := by
  decide

/-! ## Queries -/

/-- C6, counterexample: the object at handle 5 has no parameter `voxelRange`, and the master
asks for it as an `OSP_INT` (4000). Rank 0 sends no record; it raises a runtime error. -/
theorem get_value_other_type_raises :
    CMD_GET_VALUE (sampleEnv 0 0 true false) volumeState (getValueChannel 4000) =
      Step.raised (Fault.runtimeError "CMD_GET_VALUE not implemented for type")
        volumeState := by
  decide

/-- The same query for an `OSP_STRING` (1500) is answered with a record whose flag is 0. -/
theorem get_value_string_not_found :
    CMD_GET_VALUE (sampleEnv 0 0 true false) volumeState (getValueChannel 1500) =
      Step.next (emit (emit volumeState (Event.sendRecord 0 none)) Event.flush)
        { cmd := [], peers := [] } := by
  decide

/-- C6 as amended: a GET_VALUE for a live bound object and a parameter that is missing or
has another type than the requested one. On a rank other than 0 the handler returns without
sending and without error, whatever the requested type. On rank 0, when the requested type
is `OSP_STRING`, the handler sends a record with success flag 0 and returns without error;
for every other requested type it sends nothing and raises the runtime error
"CMD_GET_VALUE not implemented for type". -/
theorem get_value_not_found (env : Env) (st : WorkerState) (ch : Channel)
    (handle : ObjectHandle) (name : String) (type : Int) (rest : List Token) (o : ObjId)
    (x : ManagedObject)
    (hcmd : ch.cmd = Token.handle handle :: Token.charPtr name :: Token.int32 type :: rest)
    (hbound : lookup st handle = some o) (hx : st.heap[o]? = some x) (ha : x.alive = true)
    (hmiss : findParam x name = none ∨ ∃ p, findParam x name = some p ∧ p.type ≠ type) :
    (env.rank ≠ 0 → CMD_GET_VALUE env st ch = Step.next st { ch with cmd := rest }) ∧
    (env.rank = 0 → type = env.OSP_STRING →
      CMD_GET_VALUE env st ch =
        Step.next (emit (emit st (Event.sendRecord 0 none)) Event.flush)
          { ch with cmd := rest }) ∧
    (env.rank = 0 → type ≠ env.OSP_STRING →
      CMD_GET_VALUE env st ch =
        Step.raised (Fault.runtimeError "CMD_GET_VALUE not implemented for type") st) := by
  refine ⟨fun hr => ?_, fun hr ht => ?_, fun hr ht => ?_⟩
  · simp [CMD_GET_VALUE, get_handle, get_charPtr, get_int32, hcmd, hr]
  · rcases hmiss with hn | ⟨p, hp, hne⟩
    · simp [CMD_GET_VALUE, get_handle, get_charPtr, get_int32, hcmd, hr, Assert, deref,
        hbound, hx, ha, ht, hn]
    · subst ht
      simp [CMD_GET_VALUE, get_handle, get_charPtr, get_int32, hcmd, hr, Assert, deref,
        hbound, hx, ha, hp, foundParameter, hne]
  · simp [CMD_GET_VALUE, get_handle, get_charPtr, get_int32, hcmd, hr, Assert, deref,
      hbound, hx, ha, ht]

/-- C6 as amended, applied to the two queries above. -/
theorem get_value_not_found_witness :
    ((getValueChannel 1500).cmd =
        Token.handle 5 :: Token.charPtr "voxelRange" :: Token.int32 1500 :: [] ∧
      lookup volumeState 5 = some 0 ∧
      volumeState.heap[0]? =
        some { freshObject Kind.volume "block_bricked_volume" with refCount := 2 } ∧
      ({ freshObject Kind.volume "block_bricked_volume" with refCount := 2 } :
        ManagedObject).alive = true ∧
      findParam { freshObject Kind.volume "block_bricked_volume" with refCount := 2 }
        "voxelRange" = none) ∧
    ((sampleEnv 0 0 true false).rank = 0 → (1500 : Int) = (sampleEnv 0 0 true false).OSP_STRING →
      CMD_GET_VALUE (sampleEnv 0 0 true false) volumeState (getValueChannel 1500) =
        Step.next (emit (emit volumeState (Event.sendRecord 0 none)) Event.flush)
          { getValueChannel 1500 with cmd := [] }) :=
  ⟨⟨rfl, rfl, rfl, rfl, rfl⟩,
    (get_value_not_found (sampleEnv 0 0 true false) volumeState (getValueChannel 1500) 5
      "voxelRange" 1500 [] 0 { freshObject Kind.volume "block_bricked_volume" with refCount := 2 }
      rfl rfl rfl rfl (Or.inl rfl)).2.1⟩

/-! ## Mutation of an unbound target -/

/-- C7, at the failing input: a SET_MATERIAL whose geometry handle is not bound. No assertion
is evaluated; the handler calls `setMaterial` through the null pointer. -/
theorem set_material_unbound_target_no_assertion :
    CMD_SET_MATERIAL (sampleEnv 0 0 true false) volumeState setMaterialChannel =
      Step.raised (Fault.nullDereference "geo->setMaterial") volumeState := by
  decide

/-- In every state: when the geometry handle of a SET_MATERIAL is not bound, the handler
ends in a null dereference, not in a failed assertion. -/
theorem set_material_unbound_target_general (env : Env) (st : WorkerState) (ch : Channel)
    (geoHandle matHandle : ObjectHandle) (rest : List Token)
    (hcmd : ch.cmd = Token.handle geoHandle :: Token.handle matHandle :: rest)
    (hunbound : lookup st geoHandle = none) :
    CMD_SET_MATERIAL env st ch = Step.raised (Fault.nullDereference "geo->setMaterial") st := by
  simp [CMD_SET_MATERIAL, get_handle, hcmd, derefAs, deref, hunbound]

/-- The other fourteen mutation commands do stop at the assertion: when the target handle
(the first field of the frame) is not bound, the handler ends in a failed assertion with the
state untouched, unless the frame itself is cut short. -/
theorem mutation_unbound_target_asserts (env : Env) (st : WorkerState) (ch : Channel)
    (c : Cmd) (target : ObjectHandle) (rest : List Token)
    (hc : c ∈ assertingMutations)
    (hcmd : ch.cmd = Token.handle target :: rest)
    (hunbound : lookup st target = none) :
    handler env c st ch = Step.raised Fault.channel st ∨
      ∃ e, handler env c st ch = Step.raised (Fault.assertion e) st := by
  simp only [assertingMutations, List.mem_cons, List.mem_singleton, List.not_mem_nil,
    or_false] at hc
  rcases hc with rfl | rfl | rfl | rfl | rfl | rfl | rfl | rfl | rfl | rfl | rfl | rfl | rfl | rfl
  all_goals
    simp only [handler, CMD_SET_OBJECT, CMD_SET_STRING, CMD_SET_INT, CMD_SET_FLOAT,
      CMD_SET_VEC2F, CMD_SET_VEC3F, CMD_SET_VEC4F, CMD_SET_VEC2I, CMD_SET_VEC3I,
      CMD_SET_PIXELOP, CMD_ADD_GEOMETRY, CMD_ADD_VOLUME, CMD_REMOVE_GEOMETRY,
      CMD_REMOVE_VOLUME, get_handle, get_charPtr, get_int32, get_float, get_vecf, get_veci,
      hcmd, setOn, Assert, hunbound]
    repeat' split
    all_goals simp

/-! ## Models and their collections -/

theorem modify_append_length {α : Type} (l r : List α) (a : α) (f : α → α) :
    (l ++ a :: r).modify f l.length = l ++ f a :: r := by
  induction l with
  | nil => simp
  | cons b bs ih => simp [ih]

theorem lookup_assign (st : WorkerState) (h h' : ObjectHandle) (o : ObjId) :
    lookup (assign st h o) h' = if h' = h then some o else lookup st h' := by
  simp only [lookup, assign_objectByHandle, List.lookup_cons]
  by_cases hh : h' = h
  · simp [hh]
  · have hb : (h' == h) = false := by simpa using hh
    simp [hb, hh]

/-- Distinct case labels have distinct values, so the `switch` reaches the case of an opcode
when it reads the value of that opcode. -/
theorem caseOf_code (env : Env) (hinj : Function.Injective env.code) (c : Cmd) :
    caseOf env (env.code c) = some c := by
  have hfind : ∀ l : List Cmd, c ∈ l →
      l.find? (fun d => env.code d == env.code c) = some c := by
    intro l
    induction l with
    | nil => intro h; cases h
    | cons b bs ih =>
      intro h
      by_cases hb : b = c
      · subst hb; simp [List.find?_cons]
      · have hne : (env.code b == env.code c) = false := by
          simpa [hinj.eq_iff] using hb
        rw [List.find?_cons, hne]
        exact ih (by simpa [Ne.symm hb] using h)
  exact hfind allCmds (by cases c <;> decide)

/-- One pass of the loop over a command whose handler returns. -/
theorem workerLoop_step (env : Env) (hinj : Function.Injective env.code) (c : Cmd)
    (st st1 : WorkerState) (ch ch1 : Channel) (rest : List Token) (n : Nat)
    (hcmd : ch.cmd = Token.int32 (env.code c) :: rest)
    (hrun : handler env c st { ch with cmd := rest } = Step.next st1 ch1) :
    workerLoop env (n + 1) st ch = workerLoop env n st1 ch1 := by
  simp only [workerLoop, get_int32, hcmd, dispatch, caseOf_code env hinj, hrun]

theorem new_model_step (env : Env) (st : WorkerState) (ch : Channel) (m : ObjectHandle)
    (rest : List Token) (hcmd : ch.cmd = Token.handle m :: rest) :
    ∃ st1, CMD_NEW_MODEL env st ch = Step.next st1 { ch with cmd := rest } ∧
      st1.heap = st.heap ++ [{ freshObject Kind.model "Model" with refCount := 1 }] ∧
      st1.objectByHandle = (m, st.heap.length) :: st.objectByHandle := by
  have hheap : (assign (newObject st (freshObject Kind.model "Model")).1 m st.heap.length).heap =
      st.heap ++ [{ freshObject Kind.model "Model" with refCount := 1 }] := by
    simp only [assign, bump, updObj, newObject]
    rw [modify_append_length]
    simp [freshObject]
  simp only [CMD_NEW_MODEL, get_handle, hcmd]
  split
  · exact ⟨_, rfl, by simpa using hheap, rfl⟩
  · exact ⟨_, rfl, hheap, rfl⟩

theorem new_trianglemesh_step (env : Env) (st : WorkerState) (ch : Channel) (g : ObjectHandle)
    (rest : List Token) (hcmd : ch.cmd = Token.handle g :: rest) :
    ∃ st1, CMD_NEW_TRIANGLEMESH env st ch = Step.next st1 { ch with cmd := rest } ∧
      st1.heap = st.heap ++
        [{ freshObject Kind.triangleMesh "TriangleMesh" with refCount := 1 }] ∧
      st1.objectByHandle = (g, st.heap.length) :: st.objectByHandle := by
  have hheap : (assign (newObject st (freshObject Kind.triangleMesh "TriangleMesh")).1 g
      st.heap.length).heap =
      st.heap ++ [{ freshObject Kind.triangleMesh "TriangleMesh" with refCount := 1 }] := by
    simp only [assign, bump, updObj, newObject]
    rw [modify_append_length]
    simp [freshObject]
  simp only [CMD_NEW_TRIANGLEMESH, get_handle, hcmd]
  exact ⟨_, rfl, hheap, rfl⟩

/-- ADD_GEOMETRY on a live model appends the object bound to the geometry handle. -/
theorem add_geometry_step (env : Env) (st : WorkerState) (ch : Channel)
    (m g : ObjectHandle) (rest : List Token) (om og : ObjId) (x : ManagedObject)
    (hcmd : ch.cmd = Token.handle m :: Token.handle g :: rest)
    (hm : lookup st m = some om) (hg : lookup st g = some og)
    (hx : st.heap[om]? = some x) (ha : x.alive = true) (hk : x.kind = Kind.model) :
    CMD_ADD_GEOMETRY env st ch = Step.next (pushGeometry st om og) { ch with cmd := rest } := by
  simp [CMD_ADD_GEOMETRY, get_handle, hcmd, Assert, hm, hg, derefAs, deref, hx, ha, hk,
    Kind.isA]

/-- ADD_VOLUME on a live model appends the object bound to the volume handle. -/
theorem add_volume_step (env : Env) (st : WorkerState) (ch : Channel)
    (m v : ObjectHandle) (rest : List Token) (om ov : ObjId) (x : ManagedObject)
    (hcmd : ch.cmd = Token.handle m :: Token.handle v :: rest)
    (hm : lookup st m = some om) (hv : lookup st v = some ov)
    (hx : st.heap[om]? = some x) (ha : x.alive = true) (hk : x.kind = Kind.model) :
    CMD_ADD_VOLUME env st ch = Step.next (pushVolume st om ov) { ch with cmd := rest } := by
  simp [CMD_ADD_VOLUME, get_handle, hcmd, Assert, hm, hv, derefAs, deref, hx, ha, hk,
    Kind.isA]

/-- The collections of the model after `push_back`: one entry more at the end of the one
that was pushed to, the other one as before. -/
theorem pushGeometry_collection (st : WorkerState) (om og : ObjId) (x : ManagedObject)
    (hx : st.heap[om]? = some x) :
    ∃ y, (pushGeometry st om og).heap[om]? = some y ∧ y.geometry = x.geometry ++ [og] ∧
      y.volume = x.volume ∧ y.alive = x.alive ∧ y.kind = x.kind := by
  unfold pushGeometry
  by_cases h : og = om
  · subst h
    have h1 : (updObj st og fun x => { x with geometry := x.geometry ++ [og] }).heap[og]? =
        some { x with geometry := x.geometry ++ [og] } := by
      simp [List.getElem?_modify_eq, hx]
    rw [bump_heap_self _ _ _ _ h1]
    exact ⟨_, rfl, rfl, rfl, by simp, rfl⟩
  · rw [bump_heap_other _ _ _ _ h]
    exact ⟨{ x with geometry := x.geometry ++ [og] }, by simp [List.getElem?_modify_eq, hx],
      rfl, rfl, rfl, rfl⟩

theorem pushVolume_collection (st : WorkerState) (om ov : ObjId) (x : ManagedObject)
    (hx : st.heap[om]? = some x) :
    ∃ y, (pushVolume st om ov).heap[om]? = some y ∧ y.volume = x.volume ++ [ov] ∧
      y.geometry = x.geometry ∧ y.alive = x.alive ∧ y.kind = x.kind := by
  unfold pushVolume
  by_cases h : ov = om
  · subst h
    have h1 : (updObj st ov fun x => { x with volume := x.volume ++ [ov] }).heap[ov]? =
        some { x with volume := x.volume ++ [ov] } := by
      simp [List.getElem?_modify_eq, hx]
    rw [bump_heap_self _ _ _ _ h1]
    exact ⟨_, rfl, rfl, rfl, by simp, rfl⟩
  · rw [bump_heap_other _ _ _ _ h]
    exact ⟨{ x with volume := x.volume ++ [ov] }, by simp [List.getElem?_modify_eq, hx],
      rfl, rfl, rfl, rfl⟩

theorem modify_append_length_succ {α : Type} (l r : List α) (a b : α) (f : α → α) :
    (l ++ a :: b :: r).modify f (l.length + 1) = l ++ a :: f b :: r := by
  induction l with
  | nil => simp
  | cons c cs ih => simp [ih]

theorem getElem?_append_length {α : Type} (l r : List α) (a : α) :
    (l ++ a :: r)[l.length]? = some a := by
  induction l with
  | nil => simp
  | cons c cs ih => simpa using ih

theorem getElem?_append_length_succ {α : Type} (l r : List α) (a b : α) :
    (l ++ a :: b :: r)[l.length + 1]? = some b := by
  induction l with
  | nil => simp
  | cons c cs ih => simpa using ih

/-- COMMIT on a live object commits it and leaves the registry alone. -/
theorem commit_step (env : Env) (st : WorkerState) (ch : Channel) (h : ObjectHandle)
    (rest : List Token) (o : ObjId) (x : ManagedObject)
    (hcmd : ch.cmd = Token.handle h :: rest) (hb : lookup st h = some o)
    (hx : st.heap[o]? = some x) (ha : x.alive = true) :
    ∃ st1, CMD_COMMIT env st ch = Step.next st1 { ch with cmd := rest } ∧
      st1.heap = st.heap.modify (fun y => { y with commits := y.commits + 1 }) o ∧
      st1.objectByHandle = st.objectByHandle := by
  simp only [CMD_COMMIT, get_handle, hcmd, Assert, hb, deref, hx, ha, if_true]
  unfold commitAndBarrier
  split <;> split <;> exact ⟨_, rfl, rfl, rfl⟩

/-- The scenario of C9 from an arbitrary state: the four commands run, and the heap ends with
the committed model, whose only geometry is the mesh, followed by the mesh. -/
theorem model_mesh_scenario (env : Env) (hinj : Function.Injective env.code)
    (st : WorkerState) (ch : Channel) (m g : ObjectHandle) (rest : List Token) (n : Nat)
    (hne : m ≠ g)
    (hcmd : ch.cmd = Token.int32 (env.code Cmd.NEW_MODEL) :: Token.handle m ::
      Token.int32 (env.code Cmd.NEW_TRIANGLEMESH) :: Token.handle g ::
      Token.int32 (env.code Cmd.ADD_GEOMETRY) :: Token.handle m :: Token.handle g ::
      Token.int32 (env.code Cmd.COMMIT) :: Token.handle m :: rest) :
    ∃ st4, workerLoop env (n + 4) st ch = workerLoop env n st4 { ch with cmd := rest } ∧
      st4.objectByHandle = (g, st.heap.length + 1) :: (m, st.heap.length) :: st.objectByHandle ∧
      st4.heap = st.heap ++
        [{ freshObject Kind.model "Model" with
            refCount := 1, geometry := [st.heap.length + 1], commits := 1 },
         { freshObject Kind.triangleMesh "TriangleMesh" with refCount := 2 }] := by
  obtain ⟨st1, r1, h1, b1⟩ := new_model_step env st
    { ch with cmd := Token.handle m ::
      Token.int32 (env.code Cmd.NEW_TRIANGLEMESH) :: Token.handle g ::
      Token.int32 (env.code Cmd.ADD_GEOMETRY) :: Token.handle m :: Token.handle g ::
      Token.int32 (env.code Cmd.COMMIT) :: Token.handle m :: rest } m _ rfl
  have l1 := workerLoop_step env hinj Cmd.NEW_MODEL st st1 ch _ _ (n + 3) hcmd r1
  obtain ⟨st2, r2, h2, b2⟩ := new_trianglemesh_step env st1
    { ch with cmd := Token.handle g ::
      Token.int32 (env.code Cmd.ADD_GEOMETRY) :: Token.handle m :: Token.handle g ::
      Token.int32 (env.code Cmd.COMMIT) :: Token.handle m :: rest } g _ rfl
  have l2 := workerLoop_step env hinj Cmd.NEW_TRIANGLEMESH st1 st2
    { ch with cmd := Token.int32 (env.code Cmd.NEW_TRIANGLEMESH) :: Token.handle g ::
      Token.int32 (env.code Cmd.ADD_GEOMETRY) :: Token.handle m :: Token.handle g ::
      Token.int32 (env.code Cmd.COMMIT) :: Token.handle m :: rest } _ _ (n + 2) rfl r2
  have hlen1 : st1.heap.length = st.heap.length + 1 := by simp [h1]
  have hb : (m == g) = false := by simpa using hne
  have hm2 : lookup st2 m = some st.heap.length := by
    simp [lookup, b2, b1, List.lookup_cons, hb]
  have hg2 : lookup st2 g = some (st.heap.length + 1) := by
    simp [lookup, b2, List.lookup_cons, hlen1]
  have hx2 : st2.heap[st.heap.length]? =
      some { freshObject Kind.model "Model" with refCount := 1 } := by
    rw [h2, h1, List.append_assoc, List.singleton_append]
    exact getElem?_append_length _ _ _
  have r3 := add_geometry_step env st2
    { ch with cmd := Token.handle m :: Token.handle g ::
      Token.int32 (env.code Cmd.COMMIT) :: Token.handle m :: rest } m g _ _ _ _ rfl hm2 hg2 hx2
    rfl rfl
  have l3 := workerLoop_step env hinj Cmd.ADD_GEOMETRY st2 _
    { ch with cmd := Token.int32 (env.code Cmd.ADD_GEOMETRY) :: Token.handle m ::
      Token.handle g :: Token.int32 (env.code Cmd.COMMIT) :: Token.handle m :: rest }
    _ _ (n + 1) rfl r3
  have h3 : (pushGeometry st2 st.heap.length (st.heap.length + 1)).heap = st.heap ++
      [{ freshObject Kind.model "Model" with refCount := 1, geometry := [st.heap.length + 1] },
       { freshObject Kind.triangleMesh "TriangleMesh" with refCount := 2 }] := by
    simp only [pushGeometry, bump, updObj, h2, h1, List.append_assoc, List.singleton_append]
    rw [modify_append_length, modify_append_length_succ]
    simp [freshObject]
  have hm3 : lookup (pushGeometry st2 st.heap.length (st.heap.length + 1)) m =
      some st.heap.length := hm2
  obtain ⟨st4, r4, h4, b4⟩ := commit_step env
    (pushGeometry st2 st.heap.length (st.heap.length + 1))
    { ch with cmd := Token.handle m :: rest } m rest st.heap.length
    { freshObject Kind.model "Model" with refCount := 1, geometry := [st.heap.length + 1] }
    rfl hm3 (by rw [h3]; exact getElem?_append_length _ _ _) rfl
  have l4 := workerLoop_step env hinj Cmd.COMMIT _ st4
    { ch with cmd := Token.int32 (env.code Cmd.COMMIT) :: Token.handle m :: rest }
    _ _ n rfl r4
  refine ⟨st4, ?_, ?_, ?_⟩
  · rw [l1, l2, l3, l4]
  · rw [b4]
    show st2.objectByHandle = _
    rw [b2, b1, hlen1]
  · rw [h4, h3, modify_append_length]
    rfl

/-- C9: from every state, for distinct handles `m` and `g`, the four commands
NEW_MODEL(m), NEW_TRIANGLEMESH(g), ADD_GEOMETRY(m, g), COMMIT(m) run to completion and leave
`m` bound to a committed model whose geometry collection is exactly the one mesh bound to
`g`. In general ADD_GEOMETRY and ADD_VOLUME on a live model append the object bound to the
second handle at the end of the collection and leave the earlier entries and the other
collection as they were. -/
theorem add_geometry_appends_once (env : Env) (hinj : Function.Injective env.code)
    (st : WorkerState) (ch : Channel) (m g : ObjectHandle) (rest : List Token) (n : Nat)
    (hne : m ≠ g)
    (hcmd : ch.cmd = Token.int32 (env.code Cmd.NEW_MODEL) :: Token.handle m ::
      Token.int32 (env.code Cmd.NEW_TRIANGLEMESH) :: Token.handle g ::
      Token.int32 (env.code Cmd.ADD_GEOMETRY) :: Token.handle m :: Token.handle g ::
      Token.int32 (env.code Cmd.COMMIT) :: Token.handle m :: rest) :
    (∃ st4 model mesh,
      workerLoop env (n + 4) st ch = workerLoop env n st4 { ch with cmd := rest } ∧
      lookup st4 m = some st.heap.length ∧ lookup st4 g = some (st.heap.length + 1) ∧
      st4.heap[st.heap.length]? = some model ∧ model.kind = Kind.model ∧
      model.commits = 1 ∧ model.geometry = [st.heap.length + 1] ∧
      st4.heap[st.heap.length + 1]? = some mesh ∧ mesh.kind = Kind.triangleMesh) ∧
    (∀ (s : WorkerState) (c : Channel) (a b : ObjectHandle) (r : List Token) (om ob : ObjId)
      (x : ManagedObject), c.cmd = Token.handle a :: Token.handle b :: r →
      lookup s a = some om → lookup s b = some ob → s.heap[om]? = some x →
      x.alive = true → x.kind = Kind.model →
      (∃ s1 y, CMD_ADD_GEOMETRY env s c = Step.next s1 { c with cmd := r } ∧
        s1.heap[om]? = some y ∧ y.geometry = x.geometry ++ [ob] ∧ y.volume = x.volume) ∧
      (∃ s1 y, CMD_ADD_VOLUME env s c = Step.next s1 { c with cmd := r } ∧
        s1.heap[om]? = some y ∧ y.volume = x.volume ++ [ob] ∧ y.geometry = x.geometry)) := by
  constructor
  · obtain ⟨st4, hrun, hreg, hheap⟩ := model_mesh_scenario env hinj st ch m g rest n hne hcmd
    have hb : (m == g) = false := by simpa using hne
    refine ⟨st4,
      { freshObject Kind.model "Model" with
          refCount := 1, geometry := [st.heap.length + 1], commits := 1 },
      { freshObject Kind.triangleMesh "TriangleMesh" with refCount := 2 },
      hrun, ?_, ?_, ?_, rfl, rfl, rfl, ?_, rfl⟩
    · simp [lookup, hreg, List.lookup_cons, hb]
    · simp [lookup, hreg, List.lookup_cons]
    · rw [hheap]; exact getElem?_append_length _ _ _
    · rw [hheap]; exact getElem?_append_length_succ _ _ _ _
  · intro s c a b r om ob x hc ha hb hx hal hk
    constructor
    · obtain ⟨y, hy, h1, h2, _, _⟩ := pushGeometry_collection s om ob x hx
      exact ⟨_, y, add_geometry_step env s c a b r om ob x hc ha hb hx hal hk, hy, h1, h2⟩
    · obtain ⟨y, hy, h1, h2, _, _⟩ := pushVolume_collection s om ob x hx
      exact ⟨_, y, add_volume_step env s c a b r om ob x hc ha hb hx hal hk, hy, h1, h2⟩

theorem sampleEnv_code_injective (rank : Nat) (logLevel : Int) (knows overrides : Bool) :
    Function.Injective (sampleEnv rank logLevel knows overrides).code := by
  intro a b h
  have h2 : allCmds.indexOf a = allCmds.indexOf b := by
    simpa [sampleEnv] using h
  exact (List.indexOf_inj (by cases a <;> decide) (by cases b <;> decide)).1 h2

/-- C9 applied to the handles 1 and 2 on a worker that has created nothing yet. -/
theorem add_geometry_appends_once_witness :
    (Function.Injective (sampleEnv 0 0 true false).code ∧ (1 : ObjectHandle) ≠ 2 ∧
      scenarioChannel.cmd =
        Token.int32 ((sampleEnv 0 0 true false).code Cmd.NEW_MODEL) :: Token.handle 1 ::
        Token.int32 ((sampleEnv 0 0 true false).code Cmd.NEW_TRIANGLEMESH) :: Token.handle 2 ::
        Token.int32 ((sampleEnv 0 0 true false).code Cmd.ADD_GEOMETRY) :: Token.handle 1 ::
        Token.handle 2 ::
        Token.int32 ((sampleEnv 0 0 true false).code Cmd.COMMIT) :: Token.handle 1 :: []) ∧
    (∃ st4 model mesh,
      workerLoop (sampleEnv 0 0 true false) (0 + 4) emptyState scenarioChannel =
        workerLoop (sampleEnv 0 0 true false) 0 st4 { scenarioChannel with cmd := [] } ∧
      lookup st4 1 = some emptyState.heap.length ∧
      lookup st4 2 = some (emptyState.heap.length + 1) ∧
      st4.heap[emptyState.heap.length]? = some model ∧ model.kind = Kind.model ∧
      model.commits = 1 ∧ model.geometry = [emptyState.heap.length + 1] ∧
      st4.heap[emptyState.heap.length + 1]? = some mesh ∧ mesh.kind = Kind.triangleMesh) :=
  ⟨⟨sampleEnv_code_injective 0 0 true false, by decide, rfl⟩,
    (add_geometry_appends_once (sampleEnv 0 0 true false)
      (sampleEnv_code_injective 0 0 true false) emptyState scenarioChannel 1 2 [] 0
      (by decide) rfl).1⟩

/-- The same scenario evaluated: after the four commands the worker waits for the next
opcode, with the model at address 0 holding the mesh at address 1 once. -/
theorem scenario_evaluated :
    runWorker (sampleEnv 0 0 true false) emptyState scenarioChannel =
      Step.raised Fault.channel
        { heap := [{ freshObject Kind.model "Model" with
                      refCount := 1, geometry := [1], commits := 1 },
                   { freshObject Kind.triangleMesh "TriangleMesh" with refCount := 2 }],
          objectByHandle := [(2, 1), (1, 0)], bcBuffer := false, modules := [],
          trace := [Event.commit 0, Event.finalize 0, Event.barrier] } := by
  decide

/-! ## Removal by identity -/

/-- Erasing at the position `find_if` returns erases the first occurrence. -/
theorem eraseIdx_of_findIdx (l : List ObjId) (a : ObjId) (i : Nat)
    (h : l.findIdx? (fun g => a == g) = some i) : l.eraseIdx i = l.erase a := by
  induction l generalizing i with
  | nil => simp at h
  | cons b bs ih =>
    rw [List.findIdx?_cons] at h
    by_cases hab : a = b
    · subst hab
      simp at h
      subst h
      simp
    · have hb : (a == b) = false := by simpa using hab
      rw [hb, List.findIdx?_succ] at h
      simp only [Bool.false_eq_true, if_false, Option.map_eq_some'] at h
      obtain ⟨j, hj, rfl⟩ := h
      have hba : (b == a) = false := by simpa using Ne.symm hab
      simp [List.erase_cons, hba, ih j hj]

/-- `find_if` returns `end` only when the object is not in the collection. -/
theorem not_mem_of_findIdx_none (l : List ObjId) (a : ObjId)
    (h : l.findIdx? (fun g => a == g) = none) : a ∉ l := by
  rw [List.findIdx?_eq_none_iff] at h
  intro hmem
  have := h a hmem
  simp at this

/-- The model after the removal of `og` from its geometry collection. -/
theorem removeGeometry_collection (st : WorkerState) (om og : ObjId) (x : ManagedObject)
    (hx : st.heap[om]? = some x) :
    ∃ y, (removeGeometry st om og x).heap[om]? = some y ∧
      y.geometry = x.geometry.erase og ∧ y.volume = x.volume := by
  unfold removeGeometry
  cases hf : x.geometry.findIdx? (fun g => og == g) with
  | none =>
    exact ⟨x, hx, (List.erase_of_not_mem (not_mem_of_findIdx_none _ _ hf)).symm, rfl⟩
  | some it =>
    have he := eraseIdx_of_findIdx _ _ _ hf
    have h1 : (updObj st om fun y => { y with geometry := y.geometry.eraseIdx it }).heap[om]? =
        some { x with geometry := x.geometry.eraseIdx it } := by
      simp [List.getElem?_modify_eq, hx]
    by_cases h : og = om
    · subst h
      simp only []
      rw [bump_heap_self _ _ _ _ h1]
      exact ⟨_, rfl, he, rfl⟩
    · simp only []
      rw [bump_heap_other _ _ _ _ h]
      exact ⟨_, h1, he, rfl⟩

/-- The model after the removal of `ov` from its volume collection. -/
theorem removeVolume_collection (st : WorkerState) (om ov : ObjId) (x : ManagedObject)
    (hx : st.heap[om]? = some x) :
    ∃ y, (removeVolume st om ov x).heap[om]? = some y ∧
      y.volume = x.volume.erase ov ∧ y.geometry = x.geometry := by
  unfold removeVolume
  cases hf : x.volume.findIdx? (fun g => ov == g) with
  | none =>
    exact ⟨x, hx, (List.erase_of_not_mem (not_mem_of_findIdx_none _ _ hf)).symm, rfl⟩
  | some it =>
    have he := eraseIdx_of_findIdx _ _ _ hf
    have h1 : (updObj st om fun y => { y with volume := y.volume.eraseIdx it }).heap[om]? =
        some { x with volume := x.volume.eraseIdx it } := by
      simp [List.getElem?_modify_eq, hx]
    by_cases h : ov = om
    · subst h
      simp only []
      rw [bump_heap_self _ _ _ _ h1]
      exact ⟨_, rfl, he, rfl⟩
    · simp only []
      rw [bump_heap_other _ _ _ _ h]
      exact ⟨_, h1, he, rfl⟩

theorem remove_geometry_step (env : Env) (st : WorkerState) (ch : Channel)
    (m g : ObjectHandle) (rest : List Token) (om og : ObjId) (x : ManagedObject)
    (hcmd : ch.cmd = Token.handle m :: Token.handle g :: rest)
    (hm : lookup st m = some om) (hg : lookup st g = some og)
    (hx : st.heap[om]? = some x) (ha : x.alive = true) (hk : x.kind = Kind.model) :
    CMD_REMOVE_GEOMETRY env st ch =
      Step.next (removeGeometry st om og x) { ch with cmd := rest } := by
  simp [CMD_REMOVE_GEOMETRY, get_handle, hcmd, Assert, hm, hg, derefAs, deref, hx, ha, hk,
    Kind.isA]

theorem remove_volume_step (env : Env) (st : WorkerState) (ch : Channel)
    (m g : ObjectHandle) (rest : List Token) (om og : ObjId) (x : ManagedObject)
    (hcmd : ch.cmd = Token.handle m :: Token.handle g :: rest)
    (hm : lookup st m = some om) (hg : lookup st g = some og)
    (hx : st.heap[om]? = some x) (ha : x.alive = true) (hk : x.kind = Kind.model) :
    CMD_REMOVE_VOLUME env st ch =
      Step.next (removeVolume st om og x) { ch with cmd := rest } := by
  simp [CMD_REMOVE_VOLUME, get_handle, hcmd, Assert, hm, hg, derefAs, deref, hx, ha, hk,
    Kind.isA]

/-- What erasing the first occurrence means, spelled out. -/
theorem erase_first_occurrence (l : List ObjId) (a : ObjId) :
    (a ∉ l → l.erase a = l) ∧
      (a ∈ l → ∃ pre post, l = pre ++ a :: post ∧ a ∉ pre ∧ l.erase a = pre ++ post ∧
        (l.erase a).length + 1 = l.length) := by
  refine ⟨List.erase_of_not_mem, fun h => ?_⟩
  obtain ⟨pre, post, h1, h2, h3⟩ := List.exists_erase_eq h
  refine ⟨pre, post, h2, h1, h3, ?_⟩
  rw [h3, h2]
  simp
  omega

/-- C10: on a live model bound to `m`, with `g` bound to the object `og`:
REMOVE_GEOMETRY(m, g) returns; if `og` is not in the geometry collection the collection is
unchanged, and otherwise exactly the first entry that is `og` is gone, all other entries keep
their order and the length drops by one; the volume collection is untouched. When `og` is not
in the collection, ADD_GEOMETRY(m, g) followed by REMOVE_GEOMETRY(m, g) gives back the
original collection. REMOVE_VOLUME and ADD_VOLUME behave the same way on the volume
collection. -/
theorem remove_by_identity (env : Env) (st : WorkerState) (ch : Channel)
    (m g : ObjectHandle) (rest : List Token) (om og : ObjId) (x : ManagedObject)
    (hcmd : ch.cmd = Token.handle m :: Token.handle g :: rest)
    (hm : lookup st m = some om) (hg : lookup st g = some og)
    (hx : st.heap[om]? = some x) (ha : x.alive = true) (hk : x.kind = Kind.model) :
    (∃ st1 y, CMD_REMOVE_GEOMETRY env st ch = Step.next st1 { ch with cmd := rest } ∧
      st1.heap[om]? = some y ∧ y.volume = x.volume ∧
      (og ∉ x.geometry → y.geometry = x.geometry) ∧
      (og ∈ x.geometry → ∃ pre post, x.geometry = pre ++ og :: post ∧ og ∉ pre ∧
        y.geometry = pre ++ post ∧ y.geometry.length + 1 = x.geometry.length)) ∧
    (∃ st1 y, CMD_REMOVE_VOLUME env st ch = Step.next st1 { ch with cmd := rest } ∧
      st1.heap[om]? = some y ∧ y.geometry = x.geometry ∧
      (og ∉ x.volume → y.volume = x.volume) ∧
      (og ∈ x.volume → ∃ pre post, x.volume = pre ++ og :: post ∧ og ∉ pre ∧
        y.volume = pre ++ post ∧ y.volume.length + 1 = x.volume.length)) ∧
    (og ∉ x.geometry → ∀ rest2 : List Token, ∃ st1 st2 y,
      CMD_ADD_GEOMETRY env st ch = Step.next st1 { ch with cmd := rest } ∧
      CMD_REMOVE_GEOMETRY env st1 { ch with cmd := Token.handle m :: Token.handle g :: rest2 } =
        Step.next st2 { ch with cmd := rest2 } ∧
      st2.heap[om]? = some y ∧ y.geometry = x.geometry ∧ y.volume = x.volume) ∧
    (og ∉ x.volume → ∀ rest2 : List Token, ∃ st1 st2 y,
      CMD_ADD_VOLUME env st ch = Step.next st1 { ch with cmd := rest } ∧
      CMD_REMOVE_VOLUME env st1 { ch with cmd := Token.handle m :: Token.handle g :: rest2 } =
        Step.next st2 { ch with cmd := rest2 } ∧
      st2.heap[om]? = some y ∧ y.volume = x.volume ∧ y.geometry = x.geometry) := by
  refine ⟨?_, ?_, ?_, ?_⟩
  · obtain ⟨y, hy, h1, h2⟩ := removeGeometry_collection st om og x hx
    obtain ⟨e1, e2⟩ := erase_first_occurrence x.geometry og
    refine ⟨_, y, remove_geometry_step env st ch m g rest om og x hcmd hm hg hx ha hk, hy, h2,
      ?_, ?_⟩
    · intro hn; rw [h1]; exact e1 hn
    · intro hmem; rw [h1]; exact e2 hmem
  · obtain ⟨y, hy, h1, h2⟩ := removeVolume_collection st om og x hx
    obtain ⟨e1, e2⟩ := erase_first_occurrence x.volume og
    refine ⟨_, y, remove_volume_step env st ch m g rest om og x hcmd hm hg hx ha hk, hy, h2,
      ?_, ?_⟩
    · intro hn; rw [h1]; exact e1 hn
    · intro hmem; rw [h1]; exact e2 hmem
  · intro hn rest2
    obtain ⟨y1, hy1, g1, v1, a1, k1⟩ := pushGeometry_collection st om og x hx
    obtain ⟨y, hy, h1, h2⟩ := removeGeometry_collection (pushGeometry st om og) om og y1 hy1
    refine ⟨_, _, y, add_geometry_step env st ch m g rest om og x hcmd hm hg hx ha hk,
      remove_geometry_step env (pushGeometry st om og)
        { ch with cmd := Token.handle m :: Token.handle g :: rest2 } m g rest2 om og y1 rfl
        hm hg hy1 (a1.trans ha) (k1.trans hk), hy, ?_, h2.trans v1⟩
    rw [h1, g1, List.erase_append_right _ hn]
    simp
  · intro hn rest2
    obtain ⟨y1, hy1, g1, v1, a1, k1⟩ := pushVolume_collection st om og x hx
    obtain ⟨y, hy, h1, h2⟩ := removeVolume_collection (pushVolume st om og) om og y1 hy1
    refine ⟨_, _, y, add_volume_step env st ch m g rest om og x hcmd hm hg hx ha hk,
      remove_volume_step env (pushVolume st om og)
        { ch with cmd := Token.handle m :: Token.handle g :: rest2 } m g rest2 om og y1 rfl
        hm hg hy1 (a1.trans ha) (k1.trans hk), hy, ?_, h2.trans v1⟩
    rw [h1, g1, List.erase_append_right _ hn]
    simp

/-- C10 applied to a model whose collection is [mesh 1, mesh 2, mesh 1], removing mesh 1. -/
theorem remove_by_identity_witness :
    ((pairChannel 2).cmd = Token.handle 1 :: Token.handle 2 :: [] ∧
      lookup (modelState [1, 2, 1]) 1 = some 0 ∧ lookup (modelState [1, 2, 1]) 2 = some 1 ∧
      (modelState [1, 2, 1]).heap[0]? =
        some { freshObject Kind.model "Model" with refCount := 1, geometry := [1, 2, 1] } ∧
      ({ freshObject Kind.model "Model" with refCount := 1, geometry := [1, 2, 1] } :
        ManagedObject).alive = true ∧
      ({ freshObject Kind.model "Model" with refCount := 1, geometry := [1, 2, 1] } :
        ManagedObject).kind = Kind.model) ∧
    (∃ st1 y, CMD_REMOVE_GEOMETRY (sampleEnv 0 0 true false) (modelState [1, 2, 1])
        (pairChannel 2) = Step.next st1 { pairChannel 2 with cmd := [] } ∧
      st1.heap[0]? = some y ∧
      y.volume = ({ freshObject Kind.model "Model" with
        refCount := 1, geometry := [1, 2, 1] } : ManagedObject).volume ∧
      ((1 : ObjId) ∉ ({ freshObject Kind.model "Model" with
          refCount := 1, geometry := [1, 2, 1] } : ManagedObject).geometry →
        y.geometry = ({ freshObject Kind.model "Model" with
          refCount := 1, geometry := [1, 2, 1] } : ManagedObject).geometry) ∧
      ((1 : ObjId) ∈ ({ freshObject Kind.model "Model" with
          refCount := 1, geometry := [1, 2, 1] } : ManagedObject).geometry →
        ∃ pre post, ({ freshObject Kind.model "Model" with
            refCount := 1, geometry := [1, 2, 1] } : ManagedObject).geometry =
            pre ++ 1 :: post ∧ (1 : ObjId) ∉ pre ∧
          y.geometry = pre ++ post ∧
          y.geometry.length + 1 = ({ freshObject Kind.model "Model" with
            refCount := 1, geometry := [1, 2, 1] } : ManagedObject).geometry.length)) :=
  ⟨⟨rfl, rfl, rfl, rfl, rfl, rfl⟩,
    (remove_by_identity (sampleEnv 0 0 true false) (modelState [1, 2, 1]) (pairChannel 2)
      1 2 [] 0 1 { freshObject Kind.model "Model" with refCount := 1, geometry := [1, 2, 1] }
      rfl rfl rfl rfl rfl rfl).1⟩

/-- The removal evaluated: of the entries [1, 2, 1] the first 1 goes, [2, 1] stays, and the
mesh loses the reference the erased entry held. -/
theorem remove_geometry_evaluated :
    (CMD_REMOVE_GEOMETRY (sampleEnv 0 0 true false) (modelState [1, 2, 1])
      (pairChannel 2)).st.heap.map (fun x => (x.geometry, x.refCount)) =
      [([2, 1], 1), ([], 2), ([], 3)] := by
  decide

/-! ## Translation of handles in data arrays -/

theorem refCountOf_bump (st : WorkerState) (o p : ObjId) (d : Int) (x : ManagedObject)
    (hx : st.heap[o]? = some x) :
    refCountOf (bump st o d) p = refCountOf st p + (if p = o then d else 0) := by
  unfold refCountOf
  by_cases h : p = o
  · subst h
    rw [bump_heap_self st p d x hx, hx]
    simp
  · rw [bump_heap_other st o p d (Ne.symm h)]
    simp [h]

/-- An update of the slots of one object changes no reference count. -/
theorem refCountOf_setSlots (st : WorkerState) (data p : ObjId) (f : List Slot → List Slot) :
    refCountOf (updObj st data fun y => { y with slots := f y.slots }) p = refCountOf st p := by
  unfold refCountOf
  simp only [updObj_heap, List.getElem?_modify]
  cases st.heap[p]? with
  | none => rfl
  | some x => by_cases h : data = p <;> simp [h]

/-- The object at `p` after the slots of the object at `data` were updated. -/
theorem setSlots_get (st : WorkerState) (data p : ObjId) (f : List Slot → List Slot)
    (x : ManagedObject) (hx : st.heap[p]? = some x) :
    (updObj st data fun y => { y with slots := f y.slots }).heap[p]? =
      some (if data = p then { x with slots := f x.slots } else x) := by
  simp only [updObj_heap, List.getElem?_modify, hx]
  by_cases h : data = p <;> simp [h]

theorem set_append_length {α : Type} (l r : List α) (a v : α) :
    (l ++ a :: r).set l.length v = l ++ v :: r := by
  induction l with
  | nil => simp
  | cons c cs ih => simp [ih]

theorem references_append (env : Env) (reg : WorkerState) (pre : List Int) (w : Int)
    (o : ObjId) :
    references env reg (pre ++ [w]) o =
      references env reg pre o +
        (if w ≠ env.NULL_HANDLE ∧ lookup reg w = some o then 1 else 0) := by
  unfold references
  rw [List.filter_append, List.length_append]
  by_cases h : w ≠ env.NULL_HANDLE ∧ lookup reg w = some o
  · have : (decide (w ≠ env.NULL_HANDLE) && decide (lookup reg w = some o)) = true := by
      simpa using h
    simp [List.filter_cons, this, h]
  · have : (decide (w ≠ env.NULL_HANDLE) && decide (lookup reg w = some o)) = false := by
      simpa using h
    simp [List.filter_cons, this, h]

/-- The state after one pass of the translation loop over a non-null handle. -/
theorem translateItem_handle (env : Env) (st : WorkerState) (data i : Nat) (w : Int)
    (d x : ManagedObject) (o : ObjId)
    (hd : st.heap[data]? = some d) (hs : d.slots[i]? = some (Slot.word w))
    (hw : w ≠ env.NULL_HANDLE) (hl : lookup st w = some o) (hx : st.heap[o]? = some x)
    (ha : x.alive = true) :
    translateItem env st data i =
      Run.done (refInc (updObj st data fun y =>
        { y with slots := y.slots.set i (Slot.ptr o) }) o) := by
  simp [translateItem, hd, hs, hw, hl, hx, ha]

/-- The state after one pass of the translation loop over the null handle. -/
theorem translateItem_null (env : Env) (st : WorkerState) (data i : Nat) (w : Int)
    (d : ManagedObject) (hd : st.heap[data]? = some d)
    (hs : d.slots[i]? = some (Slot.word w)) (hw : w = env.NULL_HANDLE) :
    translateItem env st data i = Run.done st := by
  simp [translateItem, hd, hs, hw]

/-- What one translated entry changes: slot `i` of the array, and the count of the object
that the handle denotes; everything else stays, and no live object dies. -/
theorem translate_step_state (st : WorkerState) (data i : Nat) (o : ObjId)
    (d x : ManagedObject) (hd : st.heap[data]? = some d) (hx : st.heap[o]? = some x) :
    (refInc (updObj st data fun y =>
        { y with slots := y.slots.set i (Slot.ptr o) }) o).objectByHandle =
        st.objectByHandle ∧
      (∃ d1, (refInc (updObj st data fun y =>
          { y with slots := y.slots.set i (Slot.ptr o) }) o).heap[data]? = some d1 ∧
        d1.slots = d.slots.set i (Slot.ptr o) ∧ d1.flags = d.flags) ∧
      (∀ p, refCountOf (refInc (updObj st data fun y =>
          { y with slots := y.slots.set i (Slot.ptr o) }) o) p =
        refCountOf st p + (if p = o then 1 else 0)) ∧
      (∀ (p : Nat) (y : ManagedObject), st.heap[p]? = some y → y.alive = true →
        ∃ z : ManagedObject, (refInc (updObj st data fun y =>
          { y with slots := y.slots.set i (Slot.ptr o) }) o).heap[p]? = some z ∧
          z.alive = true) := by
  have hget : ∀ (p : Nat) (y : ManagedObject), st.heap[p]? = some y →
      ∃ z : ManagedObject, (refInc (updObj st data fun y =>
          { y with slots := y.slots.set i (Slot.ptr o) }) o).heap[p]? = some z ∧
        z.alive = y.alive ∧ z.flags = y.flags ∧
        z.slots = (if data = p then y.slots.set i (Slot.ptr o) else y.slots) := by
    intro p y hy
    have h1 := setSlots_get st data p (fun sl => sl.set i (Slot.ptr o)) y hy
    by_cases hpo : o = p
    · subst hpo
      refine ⟨_, bump_heap_self _ _ 1 _ h1, ?_, ?_, ?_⟩
      · by_cases hdp : data = o <;> simp [hdp]
      · by_cases hdp : data = o <;> simp [hdp]
      · by_cases hdp : data = o <;> simp [hdp]
    · refine ⟨_, (bump_heap_other _ o p 1 hpo).trans h1, ?_, ?_, ?_⟩
      · by_cases hdp : data = p <;> simp [hdp]
      · by_cases hdp : data = p <;> simp [hdp]
      · by_cases hdp : data = p <;> simp [hdp]
  refine ⟨rfl, ?_, ?_, ?_⟩
  · obtain ⟨z, hz, _, hf, hsl⟩ := hget data d hd
    exact ⟨z, hz, by simpa using hsl, hf⟩
  · intro p
    have hb := refCountOf_bump (updObj st data fun y =>
      { y with slots := y.slots.set i (Slot.ptr o) }) o p 1 _
      (setSlots_get st data o (fun sl => sl.set i (Slot.ptr o)) x hx)
    have hs := refCountOf_setSlots st data p (fun sl => sl.set i (Slot.ptr o))
    show refCountOf (bump _ o 1) p = _
    rw [← hs]
    exact hb
  · intro p y hy hal
    obtain ⟨z, hz, ha, _, _⟩ := hget p y hy
    exact ⟨z, hz, ha.trans hal⟩

theorem lookup_congr {st1 st : WorkerState} (h : st1.objectByHandle = st.objectByHandle)
    (w : ObjectHandle) : lookup st1 w = lookup st w := by
  unfold lookup; rw [h]

/-- The translation loop, entered with the entries `pre` done and `post` to go: it runs to
the end, every entry is translated as `translatedSlot` says, and every count has risen by
the number of entries that reference the object. -/
theorem translateLoop_spec (env : Env) (reg : WorkerState) (data : ObjId) (flags0 : Int)
    (post : List Int) :
    ∀ (pre : List Int) (st : WorkerState),
      (pre ++ post).length < 2147483648 →
      (∀ w ∈ post, w ≠ env.NULL_HANDLE → Bound reg w) →
      st.objectByHandle = reg.objectByHandle →
      (∃ d, st.heap[data]? = some d ∧
        d.slots = pre.map (translatedSlot env reg) ++ post.map Slot.word ∧ d.flags = flags0) →
      (∀ o, refCountOf st o = refCountOf reg o + references env reg pre o) →
      (∀ (o : Nat) (x : ManagedObject), reg.heap[o]? = some x → x.alive = true →
        ∃ y : ManagedObject, st.heap[o]? = some y ∧ y.alive = true) →
      ∃ st', translateLoop env data post.length pre.length st = Run.done st' ∧
        st'.objectByHandle = reg.objectByHandle ∧
        (∃ d, st'.heap[data]? = some d ∧
          d.slots = (pre ++ post).map (translatedSlot env reg) ∧ d.flags = flags0) ∧
        (∀ o, refCountOf st' o = refCountOf reg o + references env reg (pre ++ post) o) := by
  induction post with
  | nil =>
    intro pre st _ _ hreg hd hrc _
    exact ⟨st, rfl, hreg, by simpa using hd, by simpa using hrc⟩
  | cons w post ih =>
    intro pre st hlen hbound hreg hd hrc hlive
    obtain ⟨d, hdget, hslots, hflags⟩ := hd
    have hslot : d.slots[pre.length]? = some (Slot.word w) := by
      rw [hslots]
      have := getElem?_append_length (pre.map (translatedSlot env reg))
        (post.map Slot.word) (Slot.word w)
      simpa using this
    have hidx : ¬ (2147483647 ≤ pre.length) := by
      simp only [List.length_append, List.length_cons] at hlen
      omega
    have hlen' : (pre ++ [w] ++ post).length < 2147483648 := by simpa using hlen
    have hbound' : ∀ v ∈ post, v ≠ env.NULL_HANDLE → Bound reg v :=
      fun v hv => hbound v (List.mem_cons_of_mem _ hv)
    have hgoal : ∀ st1, translateItem env st data pre.length = Run.done st1 →
        (∃ st', translateLoop env data post.length (pre ++ [w]).length st1 = Run.done st' ∧
          st'.objectByHandle = reg.objectByHandle ∧
          (∃ d, st'.heap[data]? = some d ∧
            d.slots = (pre ++ [w] ++ post).map (translatedSlot env reg) ∧ d.flags = flags0) ∧
          (∀ o, refCountOf st' o =
            refCountOf reg o + references env reg (pre ++ [w] ++ post) o)) →
        ∃ st', translateLoop env data (w :: post).length pre.length st = Run.done st' ∧
          st'.objectByHandle = reg.objectByHandle ∧
          (∃ d, st'.heap[data]? = some d ∧
            d.slots = (pre ++ w :: post).map (translatedSlot env reg) ∧ d.flags = flags0) ∧
          (∀ o, refCountOf st' o =
            refCountOf reg o + references env reg (pre ++ w :: post) o) := by
      intro st1 hitem hrest
      obtain ⟨st', h1, h2, h3, h4⟩ := hrest
      refine ⟨st', ?_, h2, by simpa using h3, by simpa using h4⟩
      simp only [List.length_cons, translateLoop, hitem, hidx, if_false]
      simpa using h1
    by_cases hw : w = env.NULL_HANDLE
    · apply hgoal st (translateItem_null env st data pre.length w d hdget hslot hw)
      apply ih (pre ++ [w]) st hlen' hbound' hreg
      · refine ⟨d, hdget, ?_, hflags⟩
        rw [hslots]
        simp [translatedSlot, hw]
      · intro o
        rw [references_append, hrc o]
        simp [hw]
      · exact hlive
    · obtain ⟨o, x, hlo, hxo, hxa⟩ := hbound w (List.mem_cons_self _ _) hw
      obtain ⟨y, hy, hya⟩ := hlive o x hxo hxa
      have hlst : lookup st w = some o := (lookup_congr hreg w).trans hlo
      obtain ⟨s1, s2, s3, s4⟩ := translate_step_state st data pre.length o d y hdget hy
      apply hgoal _ (translateItem_handle env st data pre.length w d y o hdget hslot hw hlst
        hy hya)
      apply ih (pre ++ [w]) _ hlen' hbound' (s1.trans hreg)
      · obtain ⟨d1, hd1, hsl1, hf1⟩ := s2
        refine ⟨d1, hd1, ?_, hf1.trans hflags⟩
        rw [hsl1, hslots]
        have := set_append_length (pre.map (translatedSlot env reg)) (post.map Slot.word)
          (Slot.word w) (Slot.ptr o)
        simp only [List.length_map] at this
        rw [List.map_cons, this]
        simp [translatedSlot, hw, hlo]
      · intro p
        rw [s3 p, hrc p, references_append]
        by_cases hpo : p = o
        · subst hpo
          simp [hw, hlo]
          omega
        · have : ¬ (lookup reg w = some p) := by
            rw [hlo]; intro hc; exact hpo (Option.some.inj hc).symm
          simp [hpo, this]
      · intro p z hz hza
        obtain ⟨y1, hy1, hy1a⟩ := hlive p z hz hza
        exact s4 p y1 hy1 hy1a

/-- The state right after `data = new Data(...); handle.assign(data);`: one more object at the
end of the heap, referenced once by the registry, and one more binding. -/
theorem newDataBind_state (env : Env) (st : WorkerState) (handle : ObjectHandle)
    (nitems : Nat) (format flags : Int) :
    (newDataBind env st handle nitems format flags).heap = st.heap ++
        [{ freshObject Kind.data "Data" with
            nitems := nitems, format := format, refCount := 1,
            flags := Int.land flags (Int.lnot env.OSP_DATA_SHARED_BUFFER) }] ∧
      (newDataBind env st handle nitems format flags).objectByHandle =
        (handle, st.heap.length) :: st.objectByHandle ∧
      (newDataBind env st handle nitems format flags).trace = st.trace := by
  refine ⟨?_, rfl, rfl⟩
  simp only [newDataBind, assign, bump, updObj, newObject]
  rw [modify_append_length]
  simp [freshObject]

/-- Binding the new array changes the count of no object that existed before. -/
theorem newDataBind_refCount (env : Env) (st : WorkerState) (handle : ObjectHandle)
    (nitems : Nat) (format flags : Int) (o : ObjId) (ho : o ≠ st.heap.length) :
    refCountOf (newDataBind env st handle nitems format flags) o = refCountOf st o := by
  unfold refCountOf
  rw [(newDataBind_state env st handle nitems format flags).1]
  rcases Nat.lt_or_gt_of_ne ho with h | h
  · rw [List.getElem?_append_left h]
  · have h1 : st.heap[o]? = none := List.getElem?_eq_none (by omega)
    have h2 : (st.heap ++ [{ freshObject Kind.data "Data" with
            nitems := nitems, format := format, refCount := 1,
            flags := Int.land flags (Int.lnot env.OSP_DATA_SHARED_BUFFER) }])[o]? = none :=
      List.getElem?_eq_none (by simp; omega)
    rw [h1, h2]

/-- A handle that was bound before the array was created is bound afterwards. -/
theorem bound_newDataBind (env : Env) (st : WorkerState) (handle : ObjectHandle)
    (nitems : Nat) (format flags : Int) (w : ObjectHandle) (h : Bound st w) :
    Bound (newDataBind env st handle nitems format flags) w := by
  obtain ⟨hheap, hreg, _⟩ := newDataBind_state env st handle nitems format flags
  obtain ⟨o, x, hl, hx, ha⟩ := h
  unfold Bound
  by_cases hw : w = handle
  · refine ⟨st.heap.length, { freshObject Kind.data "Data" with
        nitems := nitems, format := format, refCount := 1,
        flags := Int.land flags (Int.lnot env.OSP_DATA_SHARED_BUFFER) }, ?_, ?_, rfl⟩
    · simp [lookup, hreg, List.lookup_cons, hw]
    · rw [hheap]; exact getElem?_append_length _ _ _
  · have hb : (w == handle) = false := by simpa using hw
    refine ⟨o, x, ?_, ?_, ha⟩
    · simpa [lookup, hreg, List.lookup_cons, hb] using hl
    · rw [hheap]
      have hlt : o < st.heap.length := by
        by_contra hge
        have : st.heap[o]? = none := List.getElem?_eq_none (Nat.le_of_not_lt hge)
        rw [this] at hx
        cases hx
      rw [List.getElem?_append_left hlt]
      exact hx

/-- The payload of an `OSP_OBJECT` array is translated entry by entry. -/
theorem fillData_objects (env : Env) (st : WorkerState) (handle : ObjectHandle)
    (nitems : Nat) (flags : Int) (words : List Int)
    (hlen : words.length = nitems) (hmax : nitems < 2147483648)
    (hbound : ∀ w ∈ words, w ≠ env.NULL_HANDLE → Bound st w) :
    ∃ st2 d, fillData env (newDataBind env st handle nitems env.OSP_OBJECT flags)
        st.heap.length nitems env.OSP_OBJECT words = Run.done st2 ∧
      st2.objectByHandle = (handle, st.heap.length) :: st.objectByHandle ∧
      st2.heap[st.heap.length]? = some d ∧
      d.slots = words.map
        (translatedSlot env (newDataBind env st handle nitems env.OSP_OBJECT flags)) ∧
      d.flags = Int.land flags (Int.lnot env.OSP_DATA_SHARED_BUFFER) ∧
      ∀ o, refCountOf st2 o =
        refCountOf (newDataBind env st handle nitems env.OSP_OBJECT flags) o +
          references env (newDataBind env st handle nitems env.OSP_OBJECT flags) words o := by
  subst hlen
  obtain ⟨hheap, hreg, _⟩ := newDataBind_state env st handle words.length env.OSP_OBJECT flags
  have hd1 : (newDataBind env st handle words.length env.OSP_OBJECT
      flags).heap[st.heap.length]? =
      some { freshObject Kind.data "Data" with
        nitems := words.length, format := env.OSP_OBJECT, refCount := 1,
        flags := Int.land flags (Int.lnot env.OSP_DATA_SHARED_BUFFER) } := by
    rw [hheap]; exact getElem?_append_length _ _ _
  have hspec := translateLoop_spec env
    (newDataBind env st handle words.length env.OSP_OBJECT flags) st.heap.length
    (Int.land flags (Int.lnot env.OSP_DATA_SHARED_BUFFER)) words []
    (updObj (newDataBind env st handle words.length env.OSP_OBJECT flags) st.heap.length
      fun y =>
      { y with slots := (fun _ => words.map Slot.word) y.slots })
    (by simpa using hmax)
    (fun w hw hne => bound_newDataBind env st handle words.length env.OSP_OBJECT flags w
      (hbound w hw hne))
    rfl
    ⟨_, setSlots_get _ _ _ (fun _ => words.map Slot.word) _ hd1, by simp, by simp⟩
    (fun o => (refCountOf_setSlots _ _ o (fun _ => words.map Slot.word)).trans
      (by simp [references]))
    (fun o x hx ha => ⟨_, setSlots_get _ _ _ (fun _ => words.map Slot.word) x hx, by
      by_cases h : st.heap.length = o <;> simp [h, ha]⟩)
  obtain ⟨st2, hrun, hreg2, ⟨d, hd, hsl, hfl⟩, hrc⟩ := hspec
  refine ⟨st2, d, ?_, hreg2.trans hreg, hd, by simpa using hsl, hfl, by simpa using hrc⟩
  simp only [fillData, if_true]
  simpa using hrun

/-- No bit of the mask survives `flags & ~mask`. -/
theorem land_lnot_clears (flags mask : Int) (k : Nat) (h : Int.testBit mask k = true) :
    Int.testBit (Int.land flags (Int.lnot mask)) k = false := by
  rw [Int.testBit_land, Int.testBit_lnot, h]
  simp

/-- Within the range of the loop index: a NEW_DATA frame with initial data, at most `INT_MAX`
entries (the loop index is a C `int`) and every non-null entry bound. The state `newDataBind ..` in which the handles are
looked up is the state before the command plus the new, empty array bound to its handle.
For `OSP_OBJECT` arrays the handler returns, every entry holds what `translatedSlot` says
(the null handle stays, a non-null handle becomes the object it denotes), each count has
risen by the number of entries that reference the object, and no bit of
`OSP_DATA_SHARED_BUFFER` is set in the flags of the array. For any other element type the
payload is stored as received, and without initial data nothing is received: in both cases
no count changes and the trace of the rank stays as it was. -/
theorem new_data_translates_once (env : Env) (st : WorkerState) (ch : Channel)
    (handle : ObjectHandle) (nitems : Nat) (format flags : Int) (hasInitData : Nat)
    (words : List Int) (rest : List Token)
    (hcmd : ch.cmd = Token.handle handle :: Token.size_t nitems :: Token.int32 format ::
      Token.int32 flags :: Token.size_t hasInitData ::
      Token.data (nitems * env.sizeOf format % 18446744073709551616) words :: rest)
    (hinit : hasInitData ≠ 0) (hlen : words.length = nitems) (hmax : nitems < 2147483648)
    (hbound : ∀ w ∈ words, w ≠ env.NULL_HANDLE → Bound st w) :
    (format = env.OSP_OBJECT → ∃ st2 d,
      CMD_NEW_DATA env st ch = Step.next st2 { ch with cmd := rest } ∧
      lookup st2 handle = some st.heap.length ∧ st2.heap[st.heap.length]? = some d ∧
      d.slots = words.map
        (translatedSlot env (newDataBind env st handle nitems format flags)) ∧
      (∀ k, Int.testBit env.OSP_DATA_SHARED_BUFFER k = true → Int.testBit d.flags k = false) ∧
      ∀ o, refCountOf st2 o =
        refCountOf (newDataBind env st handle nitems format flags) o +
          references env (newDataBind env st handle nitems format flags) words o) ∧
    (format ≠ env.OSP_OBJECT → ∃ st2 d,
      CMD_NEW_DATA env st ch = Step.next st2 { ch with cmd := rest } ∧
      st2.heap[st.heap.length]? = some d ∧ d.slots = words.map Slot.word ∧
      (∀ k, Int.testBit env.OSP_DATA_SHARED_BUFFER k = true → Int.testBit d.flags k = false) ∧
      (∀ o, refCountOf st2 o =
        refCountOf (newDataBind env st handle nitems format flags) o) ∧
      st2.trace = st.trace) ∧
    (∀ rest2 : List Token,
      CMD_NEW_DATA env st
          { cmd := Token.handle handle :: Token.size_t nitems :: Token.int32 format ::
              Token.int32 flags :: Token.size_t 0 :: rest2,
            peers := ch.peers } =
        Step.next (newDataBind env st handle nitems format flags) { ch with cmd := rest2 }) ∧
    ((∀ o, o ≠ st.heap.length →
        refCountOf (newDataBind env st handle nitems format flags) o = refCountOf st o) ∧
      (∀ w, w ≠ handle →
        lookup (newDataBind env st handle nitems format flags) w = lookup st w) ∧
      (newDataBind env st handle nitems format flags).trace = st.trace ∧
      ∃ d1, (newDataBind env st handle nitems format flags).heap[st.heap.length]? = some d1 ∧
        d1.slots = [] ∧ d1.refCount = 1) := by
  obtain ⟨hheap, hreg, htrace⟩ := newDataBind_state env st handle nitems format flags
  have hd1 : (newDataBind env st handle nitems format flags).heap[st.heap.length]? =
      some { freshObject Kind.data "Data" with
        nitems := nitems, format := format, refCount := 1,
        flags := Int.land flags (Int.lnot env.OSP_DATA_SHARED_BUFFER) } := by
    rw [hheap]; exact getElem?_append_length _ _ _
  refine ⟨?_, ?_, ?_, ?_⟩
  · intro hfmt
    subst hfmt
    obtain ⟨st2, d, hrun, hreg2, hd, hsl, hfl, hrc⟩ :=
      fillData_objects env st handle nitems flags words hlen hmax hbound
    refine ⟨st2, d, ?_, ?_, hd, hsl, ?_, hrc⟩
    · simp [CMD_NEW_DATA, get_handle, get_size_t, get_int32, get_data, hcmd, hinit, hrun]
    · simp [lookup, hreg2, List.lookup_cons]
    · intro k hk
      rw [hfl]
      exact land_lnot_clears _ _ _ hk
  · intro hfmt
    refine ⟨updObj (newDataBind env st handle nitems format flags) st.heap.length fun y =>
        { y with slots := (fun _ => words.map Slot.word) y.slots },
      { freshObject Kind.data "Data" with
        nitems := nitems, format := format, refCount := 1,
        flags := Int.land flags (Int.lnot env.OSP_DATA_SHARED_BUFFER),
        slots := words.map Slot.word }, ?_, ?_, rfl, ?_, ?_, ?_⟩
    · simp [CMD_NEW_DATA, get_handle, get_size_t, get_int32, get_data, hcmd, hinit, fillData,
        hfmt]
    · rw [setSlots_get _ _ _ (fun _ => words.map Slot.word) _ hd1]
      simp
    · intro k hk
      exact land_lnot_clears _ _ _ hk
    · intro o
      exact refCountOf_setSlots _ _ o (fun _ => words.map Slot.word)
    · exact htrace
  · intro rest2
    simp [CMD_NEW_DATA, get_handle, get_size_t, get_int32]
  · refine ⟨fun o ho => newDataBind_refCount env st handle nitems format flags o ho, ?_,
      htrace, _, hd1, rfl, rfl⟩
    intro w hw
    have hb : (w == handle) = false := by simpa using hw
    simp [lookup, hreg, List.lookup_cons, hb]

/-- The handles 2 and 0 of `dataChannel` in `modelState []`: 2 is bound, 0 is the null
handle. -/
theorem dataChannel_bound :
    ∀ w ∈ ([2, 0, 2] : List Int), w ≠ (sampleEnv 0 0 true false).NULL_HANDLE →
      Bound (modelState []) w := by
  intro w hw hne
  simp only [List.mem_cons, List.mem_singleton, List.not_mem_nil, or_false] at hw
  rcases hw with rfl | rfl | rfl
  · exact ⟨1, _, rfl, rfl, rfl⟩
  · exact absurd rfl hne
  · exact ⟨1, _, rfl, rfl, rfl⟩

/-- The translation within the range of the loop index, applied to `dataChannel` on a worker
with three bound objects. -/
theorem new_data_translates_once_witness :
    (dataChannel.cmd = Token.handle 9 :: Token.size_t 3 :: Token.int32 1000 ::
        Token.int32 1 :: Token.size_t 1 ::
        Token.data (3 * (sampleEnv 0 0 true false).sizeOf 1000 % 18446744073709551616)
          [2, 0, 2] :: [] ∧
      (1 : Nat) ≠ 0 ∧ ([2, 0, 2] : List Int).length = 3 ∧ 3 < 2147483648 ∧
      ∀ w ∈ ([2, 0, 2] : List Int), w ≠ (sampleEnv 0 0 true false).NULL_HANDLE →
        Bound (modelState []) w) ∧
    (∃ st2 d,
      CMD_NEW_DATA (sampleEnv 0 0 true false) (modelState []) dataChannel =
        Step.next st2 { dataChannel with cmd := [] } ∧
      lookup st2 9 = some (modelState []).heap.length ∧
      st2.heap[(modelState []).heap.length]? = some d ∧
      d.slots = ([2, 0, 2] : List Int).map
        (translatedSlot (sampleEnv 0 0 true false)
          (newDataBind (sampleEnv 0 0 true false) (modelState []) 9 3 1000 1)) ∧
      (∀ k, Int.testBit (sampleEnv 0 0 true false).OSP_DATA_SHARED_BUFFER k = true →
        Int.testBit d.flags k = false) ∧
      ∀ o, refCountOf st2 o =
        refCountOf (newDataBind (sampleEnv 0 0 true false) (modelState []) 9 3 1000 1) o +
          references (sampleEnv 0 0 true false)
            (newDataBind (sampleEnv 0 0 true false) (modelState []) 9 3 1000 1)
            [2, 0, 2] o) :=
  ⟨⟨rfl, by decide, rfl, by decide, dataChannel_bound⟩,
    (new_data_translates_once (sampleEnv 0 0 true false) (modelState []) dataChannel 9 3 1000 1
      1 [2, 0, 2] [] rfl (by decide) rfl (by decide) dataChannel_bound).1 rfl⟩

/-- The same command evaluated: the two entries with handle 2 point to the mesh at address
1, whose count rises from 3 to 5; the null entry stays as it is. -/
theorem new_data_evaluated :
    (CMD_NEW_DATA (sampleEnv 0 0 true false) (modelState []) dataChannel).st.heap.map
      (fun x => (x.refCount, x.slots)) =
      [(1, []), (5, []), (3, []), (1, [Slot.ptr 1, Slot.word 0, Slot.ptr 1])] := by
  decide

/-! ## The loop needs no more passes than the stream has fields -/

theorem get_handle_cmdLe (st : WorkerState) (ch : Channel) (k : ObjectHandle → Channel → Step)
    (n : Nat) (hk : ∀ v ch1, ch1.cmd.length < ch.cmd.length → (k v ch1).cmdLe n) :
    (get_handle st ch k).cmdLe n := by
  unfold get_handle
  split
  · rename_i v rest hc; exact hk _ _ (by simp [hc])
  · trivial

theorem get_int32_cmdLe (st : WorkerState) (ch : Channel) (k : Int → Channel → Step)
    (n : Nat) (hk : ∀ v ch1, ch1.cmd.length < ch.cmd.length → (k v ch1).cmdLe n) :
    (get_int32 st ch k).cmdLe n := by
  unfold get_int32
  split
  · rename_i v rest hc; exact hk _ _ (by simp [hc])
  · trivial

theorem get_size_t_cmdLe (st : WorkerState) (ch : Channel) (k : Nat → Channel → Step)
    (n : Nat) (hk : ∀ v ch1, ch1.cmd.length < ch.cmd.length → (k v ch1).cmdLe n) :
    (get_size_t st ch k).cmdLe n := by
  unfold get_size_t
  split
  · rename_i v rest hc; exact hk _ _ (by simp [hc])
  · trivial

theorem get_charPtr_cmdLe (st : WorkerState) (ch : Channel) (k : String → Channel → Step)
    (n : Nat) (hk : ∀ v ch1, ch1.cmd.length < ch.cmd.length → (k v ch1).cmdLe n) :
    (get_charPtr st ch k).cmdLe n := by
  unfold get_charPtr
  split
  · rename_i v rest hc; exact hk _ _ (by simp [hc])
  · trivial

theorem get_float_cmdLe (st : WorkerState) (ch : Channel) (k : Nat → Channel → Step)
    (n : Nat) (hk : ∀ v ch1, ch1.cmd.length < ch.cmd.length → (k v ch1).cmdLe n) :
    (get_float st ch k).cmdLe n := by
  unfold get_float
  split
  · rename_i v rest hc; exact hk _ _ (by simp [hc])
  · trivial

theorem get_vecf_cmdLe (m : Nat) (st : WorkerState) (ch : Channel)
    (k : List Nat → Channel → Step) (n : Nat)
    (hk : ∀ v ch1, ch1.cmd.length < ch.cmd.length → (k v ch1).cmdLe n) :
    (get_vecf m st ch k).cmdLe n := by
  unfold get_vecf
  split
  · rename_i v rest hc
    split
    · exact hk _ _ (by simp [hc])
    · trivial
  · trivial

theorem get_veci_cmdLe (m : Nat) (st : WorkerState) (ch : Channel)
    (k : List Int → Channel → Step) (n : Nat)
    (hk : ∀ v ch1, ch1.cmd.length < ch.cmd.length → (k v ch1).cmdLe n) :
    (get_veci m st ch k).cmdLe n := by
  unfold get_veci
  split
  · rename_i v rest hc
    split
    · exact hk _ _ (by simp [hc])
    · trivial
  · trivial

theorem get_data_cmdLe (m : Nat) (st : WorkerState) (ch : Channel)
    (k : List Int → Channel → Step) (n : Nat)
    (hk : ∀ v ch1, ch1.cmd.length < ch.cmd.length → (k v ch1).cmdLe n) :
    (get_data m st ch k).cmdLe n := by
  unfold get_data
  split
  · rename_i b v rest hc
    split
    · exact hk _ _ (by simp [hc])
    · trivial
  · trivial

theorem Assert_cmdLe (st : WorkerState) (e : String) (p : Option ObjId) (k : ObjId → Step)
    (n : Nat) (hk : ∀ o, (k o).cmdLe n) : (Assert st e p k).cmdLe n := by
  unfold Assert
  split
  · trivial
  · exact hk _

theorem deref_cmdLe (st : WorkerState) (e : String) (p : Option ObjId)
    (k : ObjId → ManagedObject → Step) (n : Nat) (hk : ∀ o x, (k o x).cmdLe n) :
    (deref st e p k).cmdLe n := by
  unfold deref
  repeat' split
  all_goals first | trivial | exact hk _ _

theorem derefAs_cmdLe (st : WorkerState) (t : Kind) (e : String) (p : Option ObjId)
    (k : ObjId → ManagedObject → Step) (n : Nat) (hk : ∀ o x, (k o x).cmdLe n) :
    (derefAs st t e p k).cmdLe n := by
  unfold derefAs
  apply deref_cmdLe
  intro o x
  split
  · exact hk _ _
  · trivial

theorem MPI_Allreduce_cmdLe (st : WorkerState) (ch : Channel) (f : Int)
    (k : WorkerState → Int → Channel → Step) (n : Nat)
    (hk : ∀ s v ch1, ch1.cmd.length = ch.cmd.length → (k s v ch1).cmdLe n) :
    (MPI_Allreduce st ch f k).cmdLe n := by
  unfold MPI_Allreduce
  split
  · trivial
  · exact hk _ _ _ rfl

/-- No handler puts fields back into the command stream. -/
theorem handler_cmdLe (env : Env) (c : Cmd) (st : WorkerState) (ch : Channel) :
    (handler env c st ch).cmdLe ch.cmd.length := by
  cases c
  all_goals
    simp only [handler, CMD_NEW_PIXELOP, CMD_NEW_RENDERER, CMD_NEW_CAMERA, CMD_NEW_VOLUME,
      CMD_NEW_TRANSFERFUNCTION, CMD_NEW_MATERIAL, CMD_NEW_LIGHT, CMD_NEW_GEOMETRY,
      CMD_FRAMEBUFFER_CREATE, CMD_FRAMEBUFFER_CLEAR, CMD_RENDER_FRAME, CMD_FRAMEBUFFER_MAP,
      CMD_NEW_MODEL, CMD_NEW_TRIANGLEMESH, CMD_NEW_DATA, CMD_NEW_TEXTURE2D, CMD_ADD_GEOMETRY,
      CMD_REMOVE_GEOMETRY, CMD_REMOVE_VOLUME, CMD_ADD_VOLUME, CMD_COMMIT, CMD_SET_OBJECT,
      CMD_RELEASE, CMD_SAMPLE_VOLUME, CMD_GET_TYPE, CMD_GET_VALUE, CMD_SET_MATERIAL,
      CMD_SET_PIXELOP, CMD_SET_REGION, CMD_SET_STRING, CMD_SET_INT, CMD_SET_FLOAT,
      CMD_SET_VEC3F, CMD_SET_VEC4F, CMD_SET_VEC2F, CMD_SET_VEC2I, CMD_SET_VEC3I,
      CMD_LOAD_MODULE, CMD_API_MODE, CMD_FINALIZE, newAsserted, newOrThrow, newVoted,
      voteAndBind, afterVote, reportRank0, setOn, regionBody]
    repeat' (first
      | (apply get_handle_cmdLe; intro _ _ _)
      | (apply get_int32_cmdLe; intro _ _ _)
      | (apply get_size_t_cmdLe; intro _ _ _)
      | (apply get_charPtr_cmdLe; intro _ _ _)
      | (apply get_float_cmdLe; intro _ _ _)
      | (apply get_vecf_cmdLe; intro _ _ _)
      | (apply get_veci_cmdLe; intro _ _ _)
      | (apply get_data_cmdLe; intro _ _ _)
      | (apply Assert_cmdLe; intro _)
      | (apply derefAs_cmdLe; intro _ _)
      | (apply deref_cmdLe; intro _ _)
      | (apply MPI_Allreduce_cmdLe; intro _ _ _ _)
      | exact True.intro
      | (show (_ : Nat) ≤ _; omega)
      | split)

theorem dispatch_cmdLe (env : Env) (st : WorkerState) (ch : Channel) (command : Int) :
    (dispatch env st ch command).cmdLe ch.cmd.length := by
  unfold dispatch
  split
  · exact handler_cmdLe env _ st ch
  · exact True.intro

/-- Two unrollings of the loop that both exceed the number of fields in the stream agree. -/
theorem workerLoop_fuel_irrelevant (env : Env) (fuel1 : Nat) :
    ∀ (fuel2 : Nat) (st : WorkerState) (ch : Channel), ch.cmd.length < fuel1 →
      ch.cmd.length < fuel2 → workerLoop env fuel1 st ch = workerLoop env fuel2 st ch := by
  induction fuel1 with
  | zero => intro fuel2 st ch h1; omega
  | succ n1 ih =>
    intro fuel2 st ch h1 h2
    cases fuel2 with
    | zero => omega
    | succ n2 =>
      obtain ⟨cmd, peers⟩ := ch
      cases cmd with
      | nil => simp [workerLoop, get_int32]
      | cons t rest =>
        cases t with
        | int32 command =>
          simp only [workerLoop, get_int32]
          have hle := dispatch_cmdLe env st { cmd := rest, peers := peers } command
          cases hd : dispatch env st { cmd := rest, peers := peers } command with
          | next st1 ch1 =>
            rw [hd] at hle
            have hlen : ch1.cmd.length ≤ rest.length := hle
            simp only [List.length_cons] at h1 h2
            exact ih n2 st1 ch1 (by omega) (by omega)
          | raised f st1 => rfl
          | exited status st1 => rfl
        | _ => simp [workerLoop, get_int32]

/-- Unrolling the loop more often than the stream has fields changes nothing: `runWorker` is
the loop run until it stops or the stream is used up. -/
theorem workerLoop_fuel (env : Env) (fuel : Nat) (st : WorkerState) (ch : Channel)
    (h : ch.cmd.length < fuel) : workerLoop env fuel st ch = runWorker env st ch :=
  workerLoop_fuel_irrelevant env fuel (ch.cmd.length + 1) st ch h (Nat.lt_succ_self _)

/-! ## Construction with an unknown-type error -/

@[simp] theorem refIncs_emit (st : WorkerState) (e : Event) :
    refIncs (emit st e) = refIncs st ++ (refIncOf e).toList := by
  cases h : refIncOf e <;> simp [refIncs, List.filterMap_append, h]

theorem refIncs_congr {st1 st : WorkerState} (h : st1.trace = st.trace) :
    refIncs st1 = refIncs st := by
  unfold refIncs; rw [h]

@[simp] theorem logRank0_modules (env : Env) (st : WorkerState) :
    (logRank0 env st).modules = st.modules := by
  unfold logRank0; split <;> rfl

theorem refIncs_logRank0 (env : Env) (st : WorkerState) :
    refIncs (logRank0 env st) = refIncs st := by
  unfold logRank0; split <;> simp [refIncOf]

/-- The shared body `newOrThrow` when the registry does not know the type: the error names
the type, and neither the heap nor the registry has changed. -/
theorem newOrThrow_unknown (env : Env) (kind : Kind) (what : String) (logsAfter : Bool)
    (st : WorkerState) (ch : Channel) (handle : ObjectHandle) (type : String)
    (rest : List Token) (hcmd : ch.cmd = Token.handle handle :: Token.charPtr type :: rest)
    (hreg : env.registered st.modules kind type = false) :
    newOrThrow env kind what logsAfter st ch =
      Step.raised (Fault.runtimeError ("unknown " ++ what ++ " type '" ++ type ++ "'"))
        (logRank0 env st) := by
  simp [newOrThrow, get_handle, get_charPtr, hcmd, createInstance, hreg]

/-- The shared body `newOrThrow` when the registry knows the type. -/
theorem newOrThrow_known (env : Env) (kind : Kind) (what : String) (logsAfter : Bool)
    (st : WorkerState) (ch : Channel) (handle : ObjectHandle) (type : String)
    (rest : List Token) (hcmd : ch.cmd = Token.handle handle :: Token.charPtr type :: rest)
    (hreg : env.registered st.modules kind type = true) :
    ∃ st1, newOrThrow env kind what logsAfter st ch = Step.next st1 { ch with cmd := rest } ∧
      st1.objectByHandle = (handle, st.heap.length) :: st.objectByHandle ∧
      st1.heap = st.heap ++ [{ freshObject kind type with refCount := 2 }] ∧
      refIncs st1 = refIncs st ++ [st.heap.length] := by
  have hheap : (assign (refInc (newObject (logRank0 env st) (freshObject kind type)).1
      st.heap.length) handle st.heap.length).heap =
      st.heap ++ [{ freshObject kind type with refCount := 2 }] := by
    simp only [assign, refInc, emit, bump, updObj, newObject, logRank0_heap]
    rw [modify_append_length, modify_append_length]
    simp [freshObject]
  have hinc : refIncs (assign (refInc (newObject (logRank0 env st) (freshObject kind type)).1
      st.heap.length) handle st.heap.length) = refIncs st ++ [st.heap.length] := by
    rw [refIncs_congr (assign_trace _ _ _), refInc, refIncs_emit,
      refIncs_congr (bump_trace _ _ _)]
    rw [show refIncs (newObject (logRank0 env st) (freshObject kind type)).1 =
      refIncs (logRank0 env st) from refIncs_congr rfl, refIncs_logRank0]
    rfl
  simp only [newOrThrow, get_handle, get_charPtr, hcmd, createInstance, logRank0_modules, hreg,
    if_true, newObject, logRank0_heap]
  split
  · exact ⟨_, rfl, by simp, by simpa [newObject] using hheap,
      by simpa [newObject, refIncOf] using hinc⟩
  · exact ⟨_, rfl, by simp, by simpa [newObject] using hheap,
      by simpa [newObject] using hinc⟩

/-- C11: NEW_VOLUME, NEW_GEOMETRY and NEW_TRANSFERFUNCTION on a frame `handle, type`. When
the factory of the rank yields nothing for the type name, the handler raises the runtime
error "unknown <kind> type '<type>'" and leaves the registry (and the heap) as it was, so the
handle is not bound. Otherwise the handler returns, it has called `refInc` exactly once, on
the new object, the handle is bound to that object, and the object is referenced twice: by
the handler and by the registry. -/
theorem new_or_unknown_type (env : Env) (st : WorkerState) (ch : Channel) (c : Cmd)
    (kind : Kind) (what : String) (handle : ObjectHandle) (type : String) (rest : List Token)
    (hc : (c, kind, what) ∈ throwingConstructors)
    (hcmd : ch.cmd = Token.handle handle :: Token.charPtr type :: rest) :
    (env.registered st.modules kind type = false →
      ∃ st1, handler env c st ch =
          Step.raised (Fault.runtimeError ("unknown " ++ what ++ " type '" ++ type ++ "'"))
            st1 ∧
        st1.objectByHandle = st.objectByHandle ∧ st1.heap = st.heap ∧
        lookup st1 handle = lookup st handle) ∧
    (env.registered st.modules kind type = true →
      ∃ st1, handler env c st ch = Step.next st1 { ch with cmd := rest } ∧
        lookup st1 handle = some st.heap.length ∧
        st1.heap = st.heap ++ [{ freshObject kind type with refCount := 2 }] ∧
        refIncs st1 = refIncs st ++ [st.heap.length]) := by
  have hbody : ∃ logsAfter, handler env c st ch = newOrThrow env kind what logsAfter st ch := by
    simp only [throwingConstructors, List.mem_cons, List.mem_singleton, Prod.mk.injEq,
      List.not_mem_nil, or_false] at hc
    rcases hc with ⟨rfl, rfl, rfl⟩ | ⟨rfl, rfl, rfl⟩ | ⟨rfl, rfl, rfl⟩
    · exact ⟨false, rfl⟩
    · exact ⟨true, rfl⟩
    · exact ⟨false, rfl⟩
  obtain ⟨logsAfter, hb⟩ := hbody
  rw [hb]
  constructor
  · intro hreg
    exact ⟨_, newOrThrow_unknown env kind what logsAfter st ch handle type rest hcmd hreg,
      logRank0_objectByHandle env st, logRank0_heap env st,
      lookup_congr (logRank0_objectByHandle env st) handle⟩
  · intro hreg
    obtain ⟨st1, h1, h2, h3, h4⟩ :=
      newOrThrow_known env kind what logsAfter st ch handle type rest hcmd hreg
    refine ⟨st1, h1, ?_, h3, h4⟩
    simp [lookup, h2, List.lookup_cons]

/-- C11 applied to a NEW_VOLUME for handle 4 on a rank that does not know the type. -/
theorem new_or_unknown_type_witness :
    ((Cmd.NEW_VOLUME, Kind.volume, "volume") ∈ throwingConstructors ∧
      (newVolumeChannel "no_such_volume").cmd =
        Token.handle 4 :: Token.charPtr "no_such_volume" :: []) ∧
    ((sampleEnv 0 0 false false).registered emptyState.modules Kind.volume "no_such_volume" =
        false →
      ∃ st1, handler (sampleEnv 0 0 false false) Cmd.NEW_VOLUME emptyState
          (newVolumeChannel "no_such_volume") =
          Step.raised (Fault.runtimeError
            ("unknown " ++ "volume" ++ " type '" ++ "no_such_volume" ++ "'")) st1 ∧
        st1.objectByHandle = emptyState.objectByHandle ∧ st1.heap = emptyState.heap ∧
        lookup st1 4 = lookup emptyState 4) :=
  ⟨⟨by decide, rfl⟩,
    (new_or_unknown_type (sampleEnv 0 0 false false) emptyState
      (newVolumeChannel "no_such_volume") Cmd.NEW_VOLUME Kind.volume "volume" 4
      "no_such_volume" [] (by decide) rfl).1⟩

/-- The two outcomes of NEW_VOLUME evaluated: the error with its message, and the bound
volume with its two references and the one `refInc` of the handler. -/
theorem new_volume_evaluated :
    CMD_NEW_VOLUME (sampleEnv 0 0 false false) emptyState (newVolumeChannel "no_such_volume") =
        Step.raised (Fault.runtimeError "unknown volume type 'no_such_volume'") emptyState ∧
      CMD_NEW_VOLUME (sampleEnv 0 0 true false) emptyState (newVolumeChannel "bricked") =
        Step.next
          { heap := [{ freshObject Kind.volume "bricked" with refCount := 2 }],
            objectByHandle := [(4, 0)], bcBuffer := false, modules := [],
            trace := [Event.refInc 0] }
          { cmd := [], peers := [] } := by
  decide

/-! ## Termination -/

/-- C13: whenever the loop reads the opcode FINALIZE, in any state and on any rank, it shuts
the channel down and the process exits with status 0. The loop does not continue: what
follows the opcode in the stream is neither decoded nor executed, and the state is the one
before the opcode plus the shutdown. -/
theorem finalize_exits (env : Env) (hinj : Function.Injective env.code) (st : WorkerState)
    (ch : Channel) (rest : List Token) (fuel : Nat)
    (hcmd : ch.cmd = Token.int32 (env.code Cmd.FINALIZE) :: rest) :
    workerLoop env (fuel + 1) st ch = Step.exited 0 (emit st Event.shutdown) ∧
      runWorker env st ch = Step.exited 0 (emit st Event.shutdown) := by
  have h1 : ∀ n, workerLoop env (n + 1) st ch = Step.exited 0 (emit st Event.shutdown) := by
    intro n
    simp only [workerLoop, get_int32, hcmd, dispatch, caseOf_code env hinj, handler,
      CMD_FINALIZE]
  exact ⟨h1 fuel, h1 _⟩

/-- C13 applied to a stream that starts with FINALIZE and goes on with a NEW_MODEL. -/
theorem finalize_exits_witness :
    (Function.Injective (sampleEnv 2 0 true false).code ∧
      (({ cmd := [Token.int32 ((sampleEnv 2 0 true false).code Cmd.FINALIZE),
                  Token.int32 ((sampleEnv 2 0 true false).code Cmd.NEW_MODEL),
                  Token.handle 2],
          peers := [] } : Channel)).cmd =
        Token.int32 ((sampleEnv 2 0 true false).code Cmd.FINALIZE) ::
          [Token.int32 ((sampleEnv 2 0 true false).code Cmd.NEW_MODEL), Token.handle 2]) ∧
    (workerLoop (sampleEnv 2 0 true false) (0 + 1) volumeState
        { cmd := [Token.int32 ((sampleEnv 2 0 true false).code Cmd.FINALIZE),
                  Token.int32 ((sampleEnv 2 0 true false).code Cmd.NEW_MODEL),
                  Token.handle 2],
          peers := [] } = Step.exited 0 (emit volumeState Event.shutdown) ∧
      runWorker (sampleEnv 2 0 true false) volumeState
        { cmd := [Token.int32 ((sampleEnv 2 0 true false).code Cmd.FINALIZE),
                  Token.int32 ((sampleEnv 2 0 true false).code Cmd.NEW_MODEL),
                  Token.handle 2],
          peers := [] } = Step.exited 0 (emit volumeState Event.shutdown)) :=
  ⟨⟨sampleEnv_code_injective 2 0 true false, rfl⟩,
    finalize_exits (sampleEnv 2 0 true false) (sampleEnv_code_injective 2 0 true false)
      volumeState
      { cmd := [Token.int32 ((sampleEnv 2 0 true false).code Cmd.FINALIZE),
                Token.int32 ((sampleEnv 2 0 true false).code Cmd.NEW_MODEL),
                Token.handle 2],
        peers := [] }
      [Token.int32 ((sampleEnv 2 0 true false).code Cmd.NEW_MODEL), Token.handle 2] 0 rfl⟩

/-- A FINALIZE in the middle of a stream: the model before it exists, the one after it is
never created. -/
theorem finalize_midstream_evaluated :
    runWorker (sampleEnv 0 0 true false) emptyState finalizeChannel =
      Step.exited 0
        { heap := [{ freshObject Kind.model "Model" with refCount := 1 }],
          objectByHandle := [(1, 0)], bcBuffer := false, modules := [],
          trace := [Event.shutdown] } := by
  decide

/-! ## Use of the locally created object -/

/-- C17, at the failing input: two ranks handle NEW_MATERIAL, rank 0 logs at level 3 and its
creation yields nothing, so the creation is rejected (sum 1). In the rejecting branch rank 0
evaluates `material->toString()` for its log line although `material` is `NULL`; it never
gets to the `MPI_Send`. Rank 1, which does not log, releases its object and returns. -/
theorem rejected_log_dereferences_null :
    (groupNewVoted Kind.material (fun e => e.rendererCreateMaterial) twoRanksLogging 0 7
      "OBJMaterial").map (fun s => (s.fault, s.st.trace)) =
      [(some (Fault.nullDereference "->toString"), [Event.log, Event.allreduce 1 1]),
       (none, [Event.allreduce 0 1, Event.refDec 0])] := by
  decide

/-- The same log line after a release: when the renderer of rank 0 created the object, the
`refDec` of the rejecting branch destroys it (count 1 to 0) and the log line then calls
`toString()` on the destroyed object. -/
theorem rejected_log_uses_destroyed_object :
    (groupNewVoted Kind.material (fun e => e.rendererCreateMaterial) twoRanksOverrideLogging
      3 7 "OBJMaterial").map (fun s => (s.fault, s.st.trace)) =
      [(some (Fault.useAfterFree "->toString"),
        [Event.log, Event.refInc 1, Event.allreduce 0 1, Event.refDec 1]),
       (none, [Event.allreduce 1 1])] := by
  decide

/-- On rank 0 at a log level above 2, in every state: a rejected creation that produced no
local object ends in the null dereference of the log line. -/
theorem rejected_log_null_general (env : Env) (st : WorkerState) (ch : Channel)
    (handle : ObjectHandle) (sumFail : Int) (hrank : env.rank = 0) (hlog : env.logLevel > 2)
    (hs : sumFail ≠ 0) :
    afterVote env st ch handle none sumFail =
      Step.raised (Fault.nullDereference "->toString") st := by
  simp [afterVote, hs, reportRank0, hrank, hlog, deref]

/-! ## Allocation and release in the region update -/

@[simp] theorem dedicated_emit (st : WorkerState) (e : Event) :
    dedicated (emit st e) = dedicated st ++ (dedicatedOf e).toList := by
  cases h : dedicatedOf e <;> simp [dedicated, List.filterMap_append, h]

@[simp] theorem frees_emit (st : WorkerState) (e : Event) :
    frees (emit st e) = frees st + (if isFree e then 1 else 0) := by
  cases h : isFree e <;> simp [frees, List.filter_append, List.filter_cons, h]

@[simp] theorem initBcBuffer_heap (st : WorkerState) : (initBcBuffer st).heap = st.heap := by
  unfold initBcBuffer; split <;> rfl

@[simp] theorem initBcBuffer_objectByHandle (st : WorkerState) :
    (initBcBuffer st).objectByHandle = st.objectByHandle := by
  unfold initBcBuffer; split <;> rfl

@[simp] theorem selectMem_heap (st : WorkerState) (size : Nat) :
    (selectMem st size).heap = st.heap := by
  unfold selectMem; split <;> rfl

@[simp] theorem selectMem_objectByHandle (st : WorkerState) (size : Nat) :
    (selectMem st size).objectByHandle = st.objectByHandle := by
  unfold selectMem; split <;> rfl

theorem dedicated_initBcBuffer (st : WorkerState) :
    dedicated (initBcBuffer st) = dedicated st := by
  unfold initBcBuffer; split
  · rfl
  · rw [dedicated_emit]; simp [dedicatedOf, dedicated]

theorem frees_initBcBuffer (st : WorkerState) : frees (initBcBuffer st) = frees st := by
  unfold initBcBuffer; split
  · rfl
  · rw [frees_emit]; simp [isFree, frees]

/-- A SET_REGION on a live volume whose reduction completes returns to the loop. -/
theorem set_region_returns (env : Env) (st : WorkerState) (ch : Channel)
    (volumeHandle : ObjectHandle) (index count : List Int) (size : Nat) (words : List Int)
    (rest : List Token) (o : ObjId) (x : ManagedObject) (others : List Int)
    (more : List (List Int))
    (hcmd : ch.cmd = Token.handle volumeHandle :: Token.veci index :: Token.veci count ::
      Token.size_t size :: Token.data size words :: rest)
    (hi : index.length = 3) (hc : count.length = 3)
    (hv : lookup st volumeHandle = some o) (hx : st.heap[o]? = some x)
    (ha : x.alive = true) (hk : x.kind = Kind.volume) (hp : ch.peers = others :: more) :
    CMD_SET_REGION env st ch =
      Step.next
        (finishRegion env
          (emit (emit (emit (selectMem (initBcBuffer st) size)
            (Event.getData size (decide (size < bcBufferSize))))
            (Event.setRegion o (env.setRegion x.typeName words index count)))
            (Event.allreduce (if env.setRegion x.typeName words index count = 0 then 1 else 0)
              (MPI_SUM (if env.setRegion x.typeName words index count = 0 then 1 else 0)
                others)))
          size
          (MPI_SUM (if env.setRegion x.typeName words index count = 0 then 1 else 0) others))
        { cmd := rest, peers := more } := by
  have hl : lookup (selectMem (initBcBuffer st) size) volumeHandle = some o := by
    rw [lookup_congr (by simp : (selectMem (initBcBuffer st) size).objectByHandle =
      st.objectByHandle)]
    exact hv
  simp [CMD_SET_REGION, get_handle, get_veci, get_size_t, get_data, hcmd, hi, hc, regionBody,
    Assert, hl, derefAs, deref, hx, ha, hk, Kind.isA, MPI_Allreduce, hp]

/-- C16: a SET_REGION on a live volume, for every payload size. The condition under which
the handler allocates (`size < bcBufferSize` is false) and the condition under which it
frees (`size >= bcBufferSize`) are the same. The handler returns; it has allocated a
dedicated buffer exactly when the size is at or above the threshold, and then exactly one,
of the payload size; it has called `alignedFree` once in that case, as its last action, and
not at all otherwise, so the scratch buffer is never freed. -/
theorem region_free_matches_malloc (env : Env) (st : WorkerState) (ch : Channel)
    (volumeHandle : ObjectHandle) (index count : List Int) (size : Nat) (words : List Int)
    (rest : List Token) (o : ObjId) (x : ManagedObject) (others : List Int)
    (more : List (List Int))
    (hcmd : ch.cmd = Token.handle volumeHandle :: Token.veci index :: Token.veci count ::
      Token.size_t size :: Token.data size words :: rest)
    (hi : index.length = 3) (hc : count.length = 3)
    (hv : lookup st volumeHandle = some o) (hx : st.heap[o]? = some x)
    (ha : x.alive = true) (hk : x.kind = Kind.volume) (hp : ch.peers = others :: more) :
    (¬ size < bcBufferSize ↔ size ≥ bcBufferSize) ∧
    ∃ st', CMD_SET_REGION env st ch = Step.next st' { cmd := rest, peers := more } ∧
      dedicated st' = dedicated st ++ (if size ≥ bcBufferSize then [size] else []) ∧
      frees st' = frees st + (if size ≥ bcBufferSize then 1 else 0) ∧
      (size ≥ bcBufferSize → st'.trace.getLast? = some Event.alignedFree) := by
  refine ⟨Nat.not_lt, _, set_region_returns env st ch volumeHandle index count size words rest
    o x others more hcmd hi hc hv hx ha hk hp, ?_, ?_, ?_⟩
  · unfold finishRegion selectMem
    split <;> split <;> split <;>
      simp_all [dedicatedOf, dedicated_initBcBuffer] <;> omega
  · unfold finishRegion selectMem
    split <;> split <;> split <;>
      simp_all [isFree, frees_initBcBuffer]
  · intro hge
    unfold finishRegion
    simp [hge]

/-- C16 applied to a payload of exactly `40*1024*1024` bytes for the volume of
`volumeState`. -/
theorem region_free_matches_malloc_witness :
    ((regionChannel 41943040).cmd = Token.handle 5 :: Token.veci [0, 0, 0] ::
        Token.veci [1, 1, 1] :: Token.size_t 41943040 :: Token.data 41943040 [] :: [] ∧
      ([0, 0, 0] : List Int).length = 3 ∧ ([1, 1, 1] : List Int).length = 3 ∧
      lookup volumeState 5 = some 0 ∧
      volumeState.heap[0]? =
        some { freshObject Kind.volume "block_bricked_volume" with refCount := 2 } ∧
      ({ freshObject Kind.volume "block_bricked_volume" with refCount := 2 } :
        ManagedObject).alive = true ∧
      ({ freshObject Kind.volume "block_bricked_volume" with refCount := 2 } :
        ManagedObject).kind = Kind.volume ∧
      (regionChannel 41943040).peers = [] :: []) ∧
    ((¬ 41943040 < bcBufferSize ↔ 41943040 ≥ bcBufferSize) ∧
      ∃ st', CMD_SET_REGION (sampleEnv 0 0 true false) volumeState (regionChannel 41943040) =
          Step.next st' { cmd := [], peers := [] } ∧
        dedicated st' = dedicated volumeState ++
          (if 41943040 ≥ bcBufferSize then [41943040] else []) ∧
        frees st' = frees volumeState + (if 41943040 ≥ bcBufferSize then 1 else 0) ∧
        (41943040 ≥ bcBufferSize → st'.trace.getLast? = some Event.alignedFree)) :=
  ⟨⟨rfl, rfl, rfl, rfl, rfl, rfl, rfl, rfl⟩,
    region_free_matches_malloc (sampleEnv 0 0 true false) volumeState (regionChannel 41943040)
      5 [0, 0, 0] [1, 1, 1] 41943040 [] [] 0
      { freshObject Kind.volume "block_bricked_volume" with refCount := 2 } [] []
      rfl rfl rfl rfl rfl rfl rfl rfl⟩

/-! ## Commit of the Velvet material -/

/-- C15, counterexample: a fresh Velvet material is committed, its reflectance is then set
to (1, 1, 1) (bit pattern `0x3F800000`, type tag `OSP_FLOAT3`), and it is committed again.
After the second commit the derived state is not the one built from the current parameter
values. -/
theorem velvet_recommit_not_rederived :
    (Velvet.run (sampleEnv 0 0 true false) Velvet.fresh
      [VelvetOp.commit,
       VelvetOp.set "reflectance" 6002 (ParamValue.vecf [0x3F800000, 0x3F800000, 0x3F800000]),
       VelvetOp.commit]).ispcEquivalent ≠
      some (PathTracer_Velvet_create (sampleEnv 0 0 true false)
        (Velvet.run (sampleEnv 0 0 true false) Velvet.fresh
          [VelvetOp.commit,
           VelvetOp.set "reflectance" 6002
             (ParamValue.vecf [0x3F800000, 0x3F800000, 0x3F800000]),
           VelvetOp.commit]).params) := by
  decide

/-- The two sides of the counterexample written out: the derived state still holds the
default reflectance (0.4, 0, 0) of the first commit, while the current parameters would give
the reflectance (1, 1, 1). -/
theorem velvet_recommit_evaluated :
    (Velvet.run (sampleEnv 0 0 true false) Velvet.fresh
      [VelvetOp.commit,
       VelvetOp.set "reflectance" 6002 (ParamValue.vecf [0x3F800000, 0x3F800000, 0x3F800000]),
       VelvetOp.commit]).ispcEquivalent =
      some { reflectance := [float_0_4, float_0, float_0],
             horizonScatteringColor := [float_0_75, float_0_1, float_0_1],
             horizonScatteringFallOff := float_10, backScattering := float_0_5 } ∧
    PathTracer_Velvet_create (sampleEnv 0 0 true false)
      (Velvet.run (sampleEnv 0 0 true false) Velvet.fresh
        [VelvetOp.commit,
         VelvetOp.set "reflectance" 6002
           (ParamValue.vecf [0x3F800000, 0x3F800000, 0x3F800000]),
         VelvetOp.commit]).params =
      { reflectance := [0x3F800000, 0x3F800000, 0x3F800000],
        horizonScatteringColor := [float_0_75, float_0_1, float_0_1],
        horizonScatteringFallOff := float_10, backScattering := float_0_5 } := by
  decide

theorem Velvet.run_append (env : Env) (v : Velvet) (ops1 ops2 : List VelvetOp) :
    v.run env (ops1 ++ ops2) = (v.run env ops1).run env ops2 := by
  simp [Velvet.run, List.foldl_append]

/-- Assignments of parameters do not touch the derived state. -/
theorem Velvet.run_sets (env : Env) (ops : List VelvetOp) :
    ∀ v : Velvet, (∀ op ∈ ops, op ≠ VelvetOp.commit) →
      (v.run env ops).ispcEquivalent = v.ispcEquivalent := by
  induction ops with
  | nil => intro v _; rfl
  | cons op ops ih =>
    intro v h
    have hop := h op (List.mem_cons_self _ _)
    have := ih (v.apply env op) fun o ho => h o (List.mem_cons_of_mem _ ho)
    simp only [Velvet.run, List.foldl_cons] at this ⊢
    rw [this]
    cases op with
    | set name type value => rfl
    | commit => exact absurd rfl hop

/-- Once the derived state exists, no operation changes it. -/
theorem Velvet.run_keeps (env : Env) (ops : List VelvetOp) :
    ∀ (v : Velvet) (ie : VelvetIE), v.ispcEquivalent = some ie →
      (v.run env ops).ispcEquivalent = some ie := by
  induction ops with
  | nil => intro v ie h; exact h
  | cons op ops ih =>
    intro v ie h
    simp only [Velvet.run, List.foldl_cons]
    apply ih
    cases op with
    | set name type value => exact h
    | commit => simp [Velvet.apply, Velvet.commit, h]

theorem getParam3f_stored (env : Env) (params : List Param) (name : String)
    (dflt : List Nat) : getParam3f env params name dflt = float3Or env (stored params name) dflt := by
  unfold getParam3f stored float3Or
  cases params.find? fun p => p.name == name with
  | none => rfl
  | some p =>
    simp only [Option.map_some']
    cases p.value <;> by_cases ht : p.type = env.OSP_FLOAT3 <;> simp [ht]

theorem getParam1f_stored (env : Env) (params : List Param) (name : String)
    (dflt : Nat) : getParam1f env params name dflt = float1Or env (stored params name) dflt := by
  unfold getParam1f stored float1Or
  cases params.find? fun p => p.name == name with
  | none => rfl
  | some p =>
    simp only [Option.map_some']
    cases p.value <;> by_cases ht : p.type = env.OSP_FLOAT <;> simp [ht]

theorem stored_cons (p : Param) (l : List Param) (name : String) :
    stored (p :: l) name =
      if p.name == name then some (p.type, p.value) else stored l name := by
  unfold stored
  rw [List.find?_cons]
  cases h : p.name == name <;> simp

/-- The store after an update in place of the parameters called `n`. -/
theorem stored_map_update (n name : String) (t : Int) (value : ParamValue) :
    ∀ l : List Param,
      stored (l.map fun p => if p.name == n then { p with type := t, value := value } else p)
          name =
        if n == name then (stored l name).map fun _ => (t, value) else stored l name := by
  intro l
  induction l with
  | nil => simp [stored]
  | cons p l ih =>
    rw [List.map_cons, stored_cons, stored_cons, ih]
    by_cases hp : p.name = n <;> by_cases hn : n = name <;> by_cases hq : p.name = name <;>
      simp_all

/-- An assignment stores type tag and value under its name and leaves the other names as
they are. -/
theorem stored_set (v : Velvet) (n name : String) (t : Int) (value : ParamValue) :
    stored (v.set n t value).params name =
      if n == name then some (t, value) else stored v.params name := by
  unfold Velvet.set
  simp only []
  cases hf : v.params.find? fun p => p.name == n with
  | some q =>
    simp only [Option.isSome_some, if_true]
    rw [stored_map_update]
    by_cases hn : n = name
    · subst hn
      simp [stored, hf]
    · simp [hn]
  | none =>
    simp only [Option.isSome_none, Bool.false_eq_true, if_false]
    by_cases hn : n = name
    · subst hn
      simp [stored, List.find?_append, hf]
    · have hn' : (n == name) = false := by simpa using hn
      simp only [stored, List.find?_append, hn', Bool.false_eq_true, if_false]
      cases v.params.find? fun p => p.name == name with
      | some r => simp
      | none => simp [List.find?_cons, hn]

/-- After a sequence of assignments the store holds, under every name, what `assigned`
says. -/
theorem stored_run (env : Env) (ops : List VelvetOp) (name : String) :
    ∀ v : Velvet, (∀ op ∈ ops, op ≠ VelvetOp.commit) →
      stored (v.run env ops).params name = assigned v.params ops name := by
  induction ops with
  | nil => intro v _; simp [Velvet.run, assigned, lastSet]
  | cons op ops ih =>
    intro v h
    have hop := h op (List.mem_cons_self _ _)
    have h2 := ih (v.apply env op) fun o ho => h o (List.mem_cons_of_mem _ ho)
    simp only [Velvet.run, List.foldl_cons] at h2 ⊢
    rw [h2]
    cases op with
    | commit => exact absurd rfl hop
    | set n t value =>
      unfold assigned
      simp only [Velvet.apply, lastSet]
      cases lastSet ops name with
      | some x => rfl
      | none =>
        simp only []
        rw [stored_set]
        by_cases hn : n = name
        · simp [hn]
        · have hn' : (n == name) = false := by simpa using hn
          simp [hn']

/-- C15 as amended: a Velvet material without derived state receives parameter assignments
`ops1` and is committed. That first commit builds the derived state from the parameter
contents of that moment: each of the four fields is the value last assigned under its own
name (reflectance and horizonScatteringColor as 3D float vectors, backScattering and
horizonScatteringFallOff as floats), or the value the material stored before when `ops1`
does not assign the name, and the default reflectance (0.4, 0, 0), backScattering 0.5,
horizonScatteringColor (0.75, 0.1, 0.1), horizonScatteringFallOff 10 for a parameter that
is not set or is set with another type. Whatever assignments and commits `ops2` follow,
the derived state stays the one of the first commit: a commit of a material that has a
derived state changes nothing, so two commits with unchanged parameters give the same
derived state, and a commit after a change of parameters does not take the change over. -/
theorem velvet_commit_builds_once (env : Env) (v : Velvet) (ops1 ops2 : List VelvetOp)
    (hnone : v.ispcEquivalent = none) (hsets : ∀ op ∈ ops1, op ≠ VelvetOp.commit) :
    (v.run env (ops1 ++ VelvetOp.commit :: ops2)).ispcEquivalent =
        some { reflectance :=
                 float3Or env (assigned v.params ops1 "reflectance")
                   [float_0_4, float_0, float_0],
               horizonScatteringColor :=
                 float3Or env (assigned v.params ops1 "horizonScatteringColor")
                   [float_0_75, float_0_1, float_0_1],
               horizonScatteringFallOff :=
                 float1Or env (assigned v.params ops1 "horizonScatteringFallOff") float_10,
               backScattering :=
                 float1Or env (assigned v.params ops1 "backScattering") float_0_5 } ∧
      ((v.run env ops1).commit env).ispcEquivalent =
        some (PathTracer_Velvet_create env (v.run env ops1).params) ∧
      (v.run env (ops1 ++ VelvetOp.commit :: ops2)).ispcEquivalent =
        some (PathTracer_Velvet_create env (v.run env ops1).params) ∧
      (∀ w : Velvet, w.ispcEquivalent ≠ none → w.commit env = w) ∧
      (∀ w : Velvet, (w.commit env).commit env = w.commit env) ∧
      PathTracer_Velvet_create env [] =
        { reflectance := [float_0_4, float_0, float_0],
          horizonScatteringColor := [float_0_75, float_0_1, float_0_1],
          horizonScatteringFallOff := float_10, backScattering := float_0_5 } := by
  have h0 : (v.run env ops1).ispcEquivalent = none :=
    (Velvet.run_sets env ops1 v hsets).trans hnone
  have h1 : ((v.run env ops1).commit env).ispcEquivalent =
      some (PathTracer_Velvet_create env (v.run env ops1).params) := by
    simp [Velvet.commit, h0]
  have h2 : (v.run env (ops1 ++ VelvetOp.commit :: ops2)).ispcEquivalent =
      some (PathTracer_Velvet_create env (v.run env ops1).params) := by
    rw [Velvet.run_append]
    exact Velvet.run_keeps env ops2 _ _ h1
  refine ⟨?_, h1, h2, ?_, ?_, rfl⟩
  · rw [h2]
    unfold PathTracer_Velvet_create
    rw [getParam3f_stored, getParam3f_stored, getParam1f_stored, getParam1f_stored,
      stored_run env ops1 _ v hsets, stored_run env ops1 _ v hsets,
      stored_run env ops1 _ v hsets, stored_run env ops1 _ v hsets]
  · intro w hw
    simp [Velvet.commit, hw]
  · intro w
    cases hw : w.ispcEquivalent with
    | none => simp [Velvet.commit, hw]
    | some ie => simp [Velvet.commit, hw]

/-- C15 as amended, applied to a fresh material whose backScattering is set to 0.75 and
whose horizonScatteringFallOff is set to 2 before the first commit, and whose reflectance is
set after it: the derived state holds these two values in their own fields, and the
defaults of the two colours. -/
theorem velvet_commit_builds_once_witness :
    (Velvet.fresh.ispcEquivalent = none ∧
      ∀ op ∈ [VelvetOp.set "backScattering" 6000 (ParamValue.float 0x3F400000),
              VelvetOp.set "horizonScatteringFallOff" 6000 (ParamValue.float 0x40000000)],
        op ≠ VelvetOp.commit) ∧
    (Velvet.run (sampleEnv 0 0 true false) Velvet.fresh
      ([VelvetOp.set "backScattering" 6000 (ParamValue.float 0x3F400000),
        VelvetOp.set "horizonScatteringFallOff" 6000 (ParamValue.float 0x40000000)] ++
        VelvetOp.commit ::
        [VelvetOp.set "reflectance" 6002
           (ParamValue.vecf [0x3F800000, 0x3F800000, 0x3F800000]),
         VelvetOp.commit])).ispcEquivalent =
      some { reflectance := [float_0_4, float_0, float_0],
             horizonScatteringColor := [float_0_75, float_0_1, float_0_1],
             horizonScatteringFallOff := 0x40000000,
             backScattering := 0x3F400000 } :=
  ⟨⟨rfl, by decide⟩,
    (velvet_commit_builds_once (sampleEnv 0 0 true false) Velvet.fresh
      [VelvetOp.set "backScattering" 6000 (ParamValue.float 0x3F400000),
       VelvetOp.set "horizonScatteringFallOff" 6000 (ParamValue.float 0x40000000)]
      [VelvetOp.set "reflectance" 6002
         (ParamValue.vecf [0x3F800000, 0x3F800000, 0x3F800000]),
       VelvetOp.commit]
      rfl (by decide)).1.trans (by decide)⟩

/-! ## Every handler reads the fields of its schema -/

theorem Step.reads_next (st : WorkerState) (ch : Channel) (Q : List Token → Prop)
    (h : Q []) : (Step.next st ch).reads ch.cmd Q :=
  ⟨[], rfl, h⟩

theorem Step.reads_cons (r : Step) (cmd rest : List Token) (t : Token)
    (Q : List Token → Prop) (hc : cmd = t :: rest)
    (h : r.reads rest fun pre => Q (t :: pre)) : r.reads cmd Q := by
  cases r with
  | next st ch =>
    obtain ⟨pre, e, q⟩ := h
    exact ⟨t :: pre, by rw [hc, e]; rfl, q⟩
  | raised f st => exact True.intro
  | exited n st => exact True.intro

theorem get_handle_reads (st : WorkerState) (ch : Channel) (k : ObjectHandle → Channel → Step)
    (Q : List Token → Prop)
    (hk : ∀ v ch1, ch.cmd = Token.handle v :: ch1.cmd →
      (k v ch1).reads ch1.cmd fun pre => Q (Token.handle v :: pre)) :
    (get_handle st ch k).reads ch.cmd Q := by
  unfold get_handle
  split
  · rename_i v rest hc
    exact Step.reads_cons _ _ rest _ Q hc (hk v { ch with cmd := rest } hc)
  · exact True.intro

theorem get_int32_reads (st : WorkerState) (ch : Channel) (k : Int → Channel → Step)
    (Q : List Token → Prop)
    (hk : ∀ v ch1, ch.cmd = Token.int32 v :: ch1.cmd →
      (k v ch1).reads ch1.cmd fun pre => Q (Token.int32 v :: pre)) :
    (get_int32 st ch k).reads ch.cmd Q := by
  unfold get_int32
  split
  · rename_i v rest hc
    exact Step.reads_cons _ _ rest _ Q hc (hk v { ch with cmd := rest } hc)
  · exact True.intro

theorem get_size_t_reads (st : WorkerState) (ch : Channel) (k : Nat → Channel → Step)
    (Q : List Token → Prop)
    (hk : ∀ v ch1, ch.cmd = Token.size_t v :: ch1.cmd →
      (k v ch1).reads ch1.cmd fun pre => Q (Token.size_t v :: pre)) :
    (get_size_t st ch k).reads ch.cmd Q := by
  unfold get_size_t
  split
  · rename_i v rest hc
    exact Step.reads_cons _ _ rest _ Q hc (hk v { ch with cmd := rest } hc)
  · exact True.intro

theorem get_charPtr_reads (st : WorkerState) (ch : Channel) (k : String → Channel → Step)
    (Q : List Token → Prop)
    (hk : ∀ v ch1, ch.cmd = Token.charPtr v :: ch1.cmd →
      (k v ch1).reads ch1.cmd fun pre => Q (Token.charPtr v :: pre)) :
    (get_charPtr st ch k).reads ch.cmd Q := by
  unfold get_charPtr
  split
  · rename_i v rest hc
    exact Step.reads_cons _ _ rest _ Q hc (hk v { ch with cmd := rest } hc)
  · exact True.intro

theorem get_float_reads (st : WorkerState) (ch : Channel) (k : Nat → Channel → Step)
    (Q : List Token → Prop)
    (hk : ∀ v ch1, ch.cmd = Token.float v :: ch1.cmd →
      (k v ch1).reads ch1.cmd fun pre => Q (Token.float v :: pre)) :
    (get_float st ch k).reads ch.cmd Q := by
  unfold get_float
  split
  · rename_i v rest hc
    exact Step.reads_cons _ _ rest _ Q hc (hk v { ch with cmd := rest } hc)
  · exact True.intro

theorem get_vecf_reads (m : Nat) (st : WorkerState) (ch : Channel)
    (k : List Nat → Channel → Step) (Q : List Token → Prop)
    (hk : ∀ v ch1, v.length = m → ch.cmd = Token.vecf v :: ch1.cmd →
      (k v ch1).reads ch1.cmd fun pre => Q (Token.vecf v :: pre)) :
    (get_vecf m st ch k).reads ch.cmd Q := by
  unfold get_vecf
  split
  · rename_i v rest hc
    split
    · rename_i hl
      exact Step.reads_cons _ _ rest _ Q hc (hk v { ch with cmd := rest } hl hc)
    · exact True.intro
  · exact True.intro

theorem get_veci_reads (m : Nat) (st : WorkerState) (ch : Channel)
    (k : List Int → Channel → Step) (Q : List Token → Prop)
    (hk : ∀ v ch1, v.length = m → ch.cmd = Token.veci v :: ch1.cmd →
      (k v ch1).reads ch1.cmd fun pre => Q (Token.veci v :: pre)) :
    (get_veci m st ch k).reads ch.cmd Q := by
  unfold get_veci
  split
  · rename_i v rest hc
    split
    · rename_i hl
      exact Step.reads_cons _ _ rest _ Q hc (hk v { ch with cmd := rest } hl hc)
    · exact True.intro
  · exact True.intro

theorem get_data_reads (m : Nat) (st : WorkerState) (ch : Channel)
    (k : List Int → Channel → Step) (Q : List Token → Prop)
    (hk : ∀ v ch1, ch.cmd = Token.data m v :: ch1.cmd →
      (k v ch1).reads ch1.cmd fun pre => Q (Token.data m v :: pre)) :
    (get_data m st ch k).reads ch.cmd Q := by
  unfold get_data
  split
  · rename_i b v rest hc
    split
    · rename_i hl
      subst hl
      exact Step.reads_cons _ _ rest _ Q hc (hk v { ch with cmd := rest } hc)
    · exact True.intro
  · exact True.intro

theorem Assert_reads (st : WorkerState) (e : String) (p : Option ObjId) (k : ObjId → Step)
    (cmd : List Token) (Q : List Token → Prop) (hk : ∀ o, (k o).reads cmd Q) :
    (Assert st e p k).reads cmd Q := by
  unfold Assert
  split
  · exact True.intro
  · exact hk _

theorem deref_reads (st : WorkerState) (e : String) (p : Option ObjId)
    (k : ObjId → ManagedObject → Step) (cmd : List Token) (Q : List Token → Prop)
    (hk : ∀ o x, (k o x).reads cmd Q) : (deref st e p k).reads cmd Q := by
  unfold deref
  repeat' split
  all_goals first | exact True.intro | exact hk _ _

theorem derefAs_reads (st : WorkerState) (t : Kind) (e : String) (p : Option ObjId)
    (k : ObjId → ManagedObject → Step) (cmd : List Token) (Q : List Token → Prop)
    (hk : ∀ o x, (k o x).reads cmd Q) : (derefAs st t e p k).reads cmd Q := by
  unfold derefAs
  apply deref_reads
  intro o x
  split
  · exact hk _ _
  · exact True.intro

theorem MPI_Allreduce_reads (st : WorkerState) (ch : Channel) (f : Int)
    (k : WorkerState → Int → Channel → Step) (Q : List Token → Prop)
    (hk : ∀ s v ch1, ch1.cmd = ch.cmd → (k s v ch1).reads ch1.cmd Q) :
    (MPI_Allreduce st ch f k).reads ch.cmd Q := by
  unfold MPI_Allreduce
  split
  · exact True.intro
  · exact hk _ _ { ch with peers := _ } rfl

/-- Every handler that returns to the loop has taken from the stream exactly the fields of
the schema of its opcode. -/
theorem handler_reads (env : Env) (c : Cmd) (st : WorkerState) (ch : Channel) :
    (handler env c st ch).reads ch.cmd fun pre =>
      pre.map Token.type = schema env.sizeOf c ch.cmd := by
  cases c
  all_goals
    simp only [handler, CMD_NEW_PIXELOP, CMD_NEW_RENDERER, CMD_NEW_CAMERA, CMD_NEW_VOLUME,
      CMD_NEW_TRANSFERFUNCTION, CMD_NEW_MATERIAL, CMD_NEW_LIGHT, CMD_NEW_GEOMETRY,
      CMD_FRAMEBUFFER_CREATE, CMD_FRAMEBUFFER_CLEAR, CMD_RENDER_FRAME, CMD_FRAMEBUFFER_MAP,
      CMD_NEW_MODEL, CMD_NEW_TRIANGLEMESH, CMD_NEW_DATA, CMD_NEW_TEXTURE2D, CMD_ADD_GEOMETRY,
      CMD_REMOVE_GEOMETRY, CMD_REMOVE_VOLUME, CMD_ADD_VOLUME, CMD_COMMIT, CMD_SET_OBJECT,
      CMD_RELEASE, CMD_SAMPLE_VOLUME, CMD_GET_TYPE, CMD_GET_VALUE, CMD_SET_MATERIAL,
      CMD_SET_PIXELOP, CMD_SET_REGION, CMD_SET_STRING, CMD_SET_INT, CMD_SET_FLOAT,
      CMD_SET_VEC3F, CMD_SET_VEC4F, CMD_SET_VEC2F, CMD_SET_VEC2I, CMD_SET_VEC3I,
      CMD_LOAD_MODULE, CMD_API_MODE, CMD_FINALIZE, newAsserted, newOrThrow, newVoted,
      voteAndBind, afterVote, reportRank0, setOn, regionBody]
    repeat' (first
      | (apply get_handle_reads; intro _ _ _)
      | (apply get_int32_reads; intro _ _ _)
      | (apply get_size_t_reads; intro _ _ _)
      | (apply get_charPtr_reads; intro _ _ _)
      | (apply get_float_reads; intro _ _ _)
      | (apply get_vecf_reads; intro _ _ _ _)
      | (apply get_veci_reads; intro _ _ _ _)
      | (apply get_data_reads; intro _ _ _)
      | (apply Assert_reads; intro _)
      | (apply derefAs_reads; intro _ _)
      | (apply deref_reads; intro _ _)
      | (apply MPI_Allreduce_reads; intro _ _ _ _)
      | exact True.intro
      | (apply Step.reads_next; first
          | rfl
          | simp_all [schema, newDataPayload, texturePayload, regionPayload, samplePayload,
              Token.type])
      | split)

/-- A handler that returns to the loop leaves the stream right behind the fields of its
schema. -/
theorem handler_next_drop (env : Env) (c : Cmd) (st st1 : WorkerState) (ch ch1 : Channel)
    (h : handler env c st ch = Step.next st1 ch1) :
    (ch.cmd.take (schema env.sizeOf c ch.cmd).length).map Token.type =
        schema env.sizeOf c ch.cmd ∧
      ch1.cmd = ch.cmd.drop (schema env.sizeOf c ch.cmd).length := by
  have hr := handler_reads env c st ch
  rw [h] at hr
  obtain ⟨pre, e, q⟩ := hr
  have hl : (schema env.sizeOf c ch.cmd).length = pre.length := by
    rw [← q, List.length_map]
  rw [hl]
  constructor
  · rw [← q]
    nth_rewrite 1 [e]
    rw [List.take_left]
  · rw [e, List.drop_left]

theorem caseOf_congr (env1 env2 : Env) (hcode : env1.code = env2.code) (command : Int) :
    caseOf env1 command = caseOf env2 command := by
  unfold caseOf
  rw [hcode]

/-- One command: two ranks that decode the same opcode from the same stream, and whose
handlers both return, stand at the same place afterwards. -/
theorem dispatch_position (env1 env2 : Env) (hcode : env1.code = env2.code)
    (hsize : env1.sizeOf = env2.sizeOf) (command : Int) (st1 st2 s1 s2 : WorkerState)
    (ch1 ch2 c1 c2 : Channel) (hcmd : ch1.cmd = ch2.cmd)
    (h1 : dispatch env1 st1 ch1 command = Step.next s1 c1)
    (h2 : dispatch env2 st2 ch2 command = Step.next s2 c2) : c1.cmd = c2.cmd := by
  unfold dispatch at h1 h2
  rw [caseOf_congr env1 env2 hcode] at h1
  cases hc : caseOf env2 command with
  | none => rw [hc] at h1; cases h1
  | some c =>
    rw [hc] at h1 h2
    rw [(handler_next_drop env1 c st1 s1 ch1 c1 h1).2,
      (handler_next_drop env2 c st2 s2 ch2 c2 h2).2, hcmd, hsize]

theorem passes_succ_inv (env : Env) (n : Nat) (st : WorkerState) (ch : Channel)
    (r : List Token) (h : (passes env (n + 1) st ch).position = some r) :
    ∃ command rest st1 ch1, ch.cmd = Token.int32 command :: rest ∧
      dispatch env st { ch with cmd := rest } command = Step.next st1 ch1 ∧
      (passes env n st1 ch1).position = some r := by
  simp only [passes] at h
  rcases get_int32_inv _ _ _ _ rfl with h0 | ⟨v, rest, hc, hk⟩
  · rw [h0] at h; cases h
  · rw [← hk] at h
    cases hd : dispatch env st { ch with cmd := rest } v with
    | next st1 ch1 =>
      rw [hd] at h
      exact ⟨v, rest, st1, ch1, hc, hd, h⟩
    | raised f s => rw [hd] at h; cases h
    | exited e s => rw [hd] at h; cases h

/-- Any number of commands: two ranks that started on the same stream and are both back in
the loop after `n` commands stand at the same place. -/
theorem passes_position (env1 env2 : Env) (hcode : env1.code = env2.code)
    (hsize : env1.sizeOf = env2.sizeOf) (n : Nat) :
    ∀ (st1 st2 : WorkerState) (ch1 ch2 : Channel) (r1 r2 : List Token),
      ch1.cmd = ch2.cmd → (passes env1 n st1 ch1).position = some r1 →
      (passes env2 n st2 ch2).position = some r2 → r1 = r2 := by
  induction n with
  | zero =>
    intro st1 st2 ch1 ch2 r1 r2 hcmd h1 h2
    simp only [passes, Step.position, Option.some.injEq] at h1 h2
    rw [← h1, ← h2, hcmd]
  | succ n ih =>
    intro st1 st2 ch1 ch2 r1 r2 hcmd h1 h2
    obtain ⟨v1, rest1, s1, c1, e1, d1, p1⟩ := passes_succ_inv env1 n st1 ch1 r1 h1
    obtain ⟨v2, rest2, s2, c2, e2, d2, p2⟩ := passes_succ_inv env2 n st2 ch2 r2 h2
    rw [hcmd, e2] at e1
    injection e1 with ev er
    injection ev with ev
    subst ev
    exact ih s1 s2 c1 c2 r1 r2
      (dispatch_position env1 env2 hcode hsize v2 st1 st2 s1 s2 { ch1 with cmd := rest1 }
        { ch2 with cmd := rest2 } c1 c2 er.symm d1 d2) p1 p2

/-- The passes counted by `passes` are the first passes of the loop of `runWorker`. -/
theorem workerLoop_passes (env : Env) (n : Nat) :
    ∀ (m : Nat) (st st1 : WorkerState) (ch ch1 : Channel),
      passes env n st ch = Step.next st1 ch1 →
        workerLoop env (n + m) st ch = workerLoop env m st1 ch1 := by
  induction n with
  | zero =>
    intro m st st1 ch ch1 h
    simp only [passes, Step.next.injEq] at h
    rw [Nat.zero_add, h.1, h.2]
  | succ n ih =>
    intro m st st1 ch ch1 h
    have hp : (passes env (n + 1) st ch).position = some ch1.cmd := by rw [h]; rfl
    obtain ⟨v, rest, s, c, e, d, _⟩ := passes_succ_inv env n st ch ch1.cmd hp
    have h3 : passes env (n + 1) st ch = passes env n s c := by
      simp only [passes, get_int32, e, d]
    rw [h3] at h
    have h4 : workerLoop env (n + 1 + m) st ch = workerLoop env (n + m) s c := by
      rw [Nat.add_right_comm]
      simp only [workerLoop, get_int32, e, d]
    rw [h4]
    exact ih m s st1 c ch1 h

/-- The payload of NEW_DATA is read exactly when the field `hasInitData` is not zero. -/
theorem new_data_payload (env : Env) (st st1 : WorkerState) (ch ch1 : Channel)
    (handle : ObjectHandle) (nitems : Nat) (format flags : Int) (hasInitData : Nat)
    (rest : List Token)
    (hcmd : ch.cmd = Token.handle handle :: Token.size_t nitems :: Token.int32 format ::
      Token.int32 flags :: Token.size_t hasInitData :: rest)
    (h : CMD_NEW_DATA env st ch = Step.next st1 ch1) :
    (hasInitData = 0 → ch1.cmd = rest) ∧
      (hasInitData ≠ 0 → ∃ words, rest =
        Token.data (nitems * env.sizeOf format % 18446744073709551616) words :: ch1.cmd) := by
  obtain ⟨ht, hd⟩ := handler_next_drop env Cmd.NEW_DATA st st1 ch ch1 h
  rw [hcmd] at ht hd
  constructor
  · intro h0
    simpa [schema, newDataPayload, h0] using hd
  · intro h0
    simp only [schema, newDataPayload, h0, ne_eq, not_false_eq_true, if_true] at ht hd
    cases rest with
    | nil => simp at ht
    | cons t rest1 =>
      simp at ht hd
      cases t <;> simp [Token.type] at ht
      rename_i b words
      exact ⟨words, by rw [ht, hd]⟩

/-- C12: an opcode whose handler returns to the loop has read from the command stream
exactly the fields of its schema, which is a function of the opcode and of the frame (and
of the element sizes `sizeOf`) and of nothing else: the types of the fields it took are the
schema, and the stream continues right behind them. For NEW_DATA the payload is among
them exactly when the field `hasInitData` is not zero. It follows that two ranks with the
same enum values and element sizes, whatever their rank numbers, log levels, registries,
states and the votes of their peers, that are given the same stream and are both back in
the loop after `n` commands, stand at the same place in the stream; this includes GET_TYPE
and GET_VALUE, where rank 0 alone looks the object up. -/
theorem fields_read_determined_by_frame (env1 env2 : Env) (hcode : env1.code = env2.code)
    (hsize : env1.sizeOf = env2.sizeOf) :
    (∀ (c : Cmd) (st st1 : WorkerState) (ch ch1 : Channel),
        handler env1 c st ch = Step.next st1 ch1 →
          (ch.cmd.take (schema env1.sizeOf c ch.cmd).length).map Token.type =
              schema env1.sizeOf c ch.cmd ∧
            ch1.cmd = ch.cmd.drop (schema env1.sizeOf c ch.cmd).length) ∧
      (∀ (st st1 : WorkerState) (ch ch1 : Channel) (handle : ObjectHandle) (nitems : Nat)
          (format flags : Int) (hasInitData : Nat) (rest : List Token),
        ch.cmd = Token.handle handle :: Token.size_t nitems :: Token.int32 format ::
          Token.int32 flags :: Token.size_t hasInitData :: rest →
        handler env1 Cmd.NEW_DATA st ch = Step.next st1 ch1 →
          (hasInitData = 0 → ch1.cmd = rest) ∧
          (hasInitData ≠ 0 → ∃ words, rest =
            Token.data (nitems * env1.sizeOf format % 18446744073709551616) words ::
              ch1.cmd)) ∧
      (∀ (n : Nat) (st1 st2 : WorkerState) (ch1 ch2 : Channel) (r1 r2 : List Token),
        ch1.cmd = ch2.cmd → (passes env1 n st1 ch1).position = some r1 →
          (passes env2 n st2 ch2).position = some r2 → r1 = r2) :=
  ⟨fun c st st1 ch ch1 h => handler_next_drop env1 c st st1 ch ch1 h,
    fun st st1 ch ch1 handle nitems format flags hasInitData rest hcmd h =>
      new_data_payload env1 st st1 ch ch1 handle nitems format flags hasInitData rest hcmd h,
    fun n => passes_position env1 env2 hcode hsize n⟩

/-- C12 applied to rank 0, logging at level 3 and holding a volume at handle 5, and rank 1,
silent and with no object at all, on the stream of `queryChannel`: after GET_TYPE, GET_VALUE
and NEW_DATA both stand in front of the COMMIT. -/
theorem fields_read_determined_by_frame_witness :
    ((sampleEnv 0 3 true false).code = (sampleEnv 1 0 false false).code ∧
      (sampleEnv 0 3 true false).sizeOf = (sampleEnv 1 0 false false).sizeOf ∧
      queryChannel.cmd = ({ queryChannel with peers := [[1]] } : Channel).cmd ∧
      (passes (sampleEnv 0 3 true false) 3 volumeState queryChannel).position =
        some [Token.int32 ((sampleEnv 0 0 true false).code Cmd.COMMIT), Token.handle 5] ∧
      (passes (sampleEnv 1 0 false false) 3 emptyState
        { queryChannel with peers := [[1]] }).position =
        some [Token.int32 ((sampleEnv 0 0 true false).code Cmd.COMMIT), Token.handle 5]) ∧
    [Token.int32 ((sampleEnv 0 0 true false).code Cmd.COMMIT), Token.handle 5] =
      [Token.int32 ((sampleEnv 0 0 true false).code Cmd.COMMIT), Token.handle 5] :=
  ⟨⟨rfl, rfl, rfl, by decide, by decide⟩,
    (fields_read_determined_by_frame (sampleEnv 0 3 true false) (sampleEnv 1 0 false false)
      rfl rfl).2.2 3 volumeState emptyState queryChannel { queryChannel with peers := [[1]] }
      _ _ rfl (by decide) (by decide)⟩

/-- The two ranks of the example evaluated: rank 0 sends two records, rank 1 sends nothing,
and both created the data object. -/
theorem query_stream_evaluated :
    ((passes (sampleEnv 0 3 true false) 3 volumeState queryChannel).st.trace,
      (passes (sampleEnv 0 3 true false) 3 volumeState queryChannel).st.heap.length,
      (passes (sampleEnv 1 0 false false) 3 emptyState queryChannel).st.trace,
      (passes (sampleEnv 1 0 false false) 3 emptyState queryChannel).st.heap.length) =
      ([Event.sendRecord 1 (some (ParamValue.int 1000)), Event.flush,
        Event.sendRecord 0 none, Event.flush], 2, [], 1) := by
  decide

/-! ## Commit and barrier -/

theorem syncs_congr {st1 st : WorkerState} (h : st1.trace = st.trace) :
    syncs st1 = syncs st := by
  unfold syncs; rw [h]

@[simp] theorem syncs_emit (st : WorkerState) (e : Event) :
    syncs (emit st e) = syncs st ++ (if isSync e then [e] else []) := by
  unfold syncs
  rw [emit_trace, List.filter_append]
  cases h : isSync e <;> simp [List.filter, h]

@[simp] theorem syncs_updObj (st : WorkerState) (o : ObjId) (f : ManagedObject → ManagedObject) :
    syncs (updObj st o f) = syncs st := rfl

@[simp] theorem syncs_bump (st : WorkerState) (o : ObjId) (d : Int) :
    syncs (bump st o d) = syncs st := rfl

@[simp] theorem syncs_assign (st : WorkerState) (h : ObjectHandle) (o : ObjId) :
    syncs (assign st h o) = syncs st := rfl

@[simp] theorem syncs_refInc (st : WorkerState) (o : ObjId) :
    syncs (refInc st o) = syncs st := by
  simp [refInc, isSync]

@[simp] theorem syncs_refDec (st : WorkerState) (o : ObjId) :
    syncs (refDec st o) = syncs st := by
  simp [refDec, isSync]

@[simp] theorem syncs_newObject (st : WorkerState) (x : ManagedObject) :
    syncs (newObject st x).1 = syncs st := rfl

@[simp] theorem syncs_freeObject (st : WorkerState) (h : ObjectHandle) :
    syncs (freeObject st h) = syncs st := by
  unfold freeObject
  split <;> rfl

@[simp] theorem syncs_logRank0 (env : Env) (st : WorkerState) :
    syncs (logRank0 env st) = syncs st := by
  unfold logRank0
  split <;> simp [isSync]

@[simp] theorem syncs_createInstance (env : Env) (st : WorkerState) (k : Kind) (t : String) :
    syncs (createInstance env st k t).1 = syncs st := by
  unfold createInstance
  split <;> rfl

@[simp] theorem syncs_setParam (st : WorkerState) (o : ObjId) (name : String) (type : Int)
    (v : ParamValue) : syncs (setParam st o name type v) = syncs st := rfl

@[simp] theorem syncs_pushGeometry (st : WorkerState) (m g : ObjId) :
    syncs (pushGeometry st m g) = syncs st := rfl

@[simp] theorem syncs_pushVolume (st : WorkerState) (m g : ObjId) :
    syncs (pushVolume st m g) = syncs st := rfl

@[simp] theorem syncs_removeGeometry (st : WorkerState) (m g : ObjId) (x : ManagedObject) :
    syncs (removeGeometry st m g x) = syncs st := by
  unfold removeGeometry
  split <;> rfl

@[simp] theorem syncs_removeVolume (st : WorkerState) (m g : ObjId) (x : ManagedObject) :
    syncs (removeVolume st m g x) = syncs st := by
  unfold removeVolume
  split <;> rfl

@[simp] theorem syncs_newDataBind (env : Env) (st : WorkerState) (h : ObjectHandle) (n : Nat)
    (f g : Int) : syncs (newDataBind env st h n f g) = syncs st := rfl

@[simp] theorem syncs_initBcBuffer (st : WorkerState) : syncs (initBcBuffer st) = syncs st := by
  unfold initBcBuffer
  split
  · rfl
  · rw [syncs_emit]; simp [isSync]; rfl

@[simp] theorem syncs_selectMem (st : WorkerState) (size : Nat) :
    syncs (selectMem st size) = syncs st := by
  unfold selectMem
  split <;> simp [isSync]

@[simp] theorem syncs_finishRegion (env : Env) (st : WorkerState) (size : Nat) (v : Int) :
    syncs (finishRegion env st size v) = syncs st := by
  unfold finishRegion
  repeat' split
  all_goals simp [isSync]

@[simp] theorem syncs_modules (st : WorkerState) (m : List String) :
    syncs { st with modules := m } = syncs st := rfl

theorem translateItem_syncs (env : Env) (st : WorkerState) (data i : Nat) :
    (∀ st1, translateItem env st data i = Run.done st1 → syncs st1 = syncs st) ∧
      ∀ f st1, translateItem env st data i = Run.stopped f st1 → syncs st1 = syncs st := by
  unfold translateItem
  constructor
  · intro st1 h
    repeat' split at h
    all_goals first
      | (cases h; done)
      | (cases h; simp)
  · intro f st1 h
    repeat' split at h
    all_goals first
      | (cases h; done)
      | (cases h; simp)

theorem translateLoop_syncs (env : Env) (data : ObjId) (n : Nat) :
    ∀ (i : Nat) (st : WorkerState),
      (∀ st1, translateLoop env data n i st = Run.done st1 → syncs st1 = syncs st) ∧
        ∀ f st1, translateLoop env data n i st = Run.stopped f st1 → syncs st1 = syncs st := by
  induction n with
  | zero =>
    intro i st
    constructor
    · intro st1 h; simp only [translateLoop] at h; cases h; rfl
    · intro f st1 h; simp only [translateLoop] at h; cases h
  | succ n ih =>
    intro i st
    have hi := translateItem_syncs env st data i
    simp only [translateLoop]
    cases ht : translateItem env st data i with
    | stopped f0 s0 =>
      constructor
      · intro st1 h; cases h
      · intro f st1 h
        cases h
        exact hi.2 _ _ ht
    | done s0 =>
      have h0 := hi.1 _ ht
      by_cases hmax : 2147483647 ≤ i
      · simp only [hmax, if_true]
        constructor
        · intro st1 h; cases h
        · intro f st1 h; cases h; exact h0
      · simp only [hmax, if_false]
        constructor
        · intro st1 h; exact ((ih (i + 1) s0).1 st1 h).trans h0
        · intro f st1 h; exact ((ih (i + 1) s0).2 f st1 h).trans h0

theorem fillData_syncs (env : Env) (st : WorkerState) (data : ObjId) (n : Nat) (format : Int)
    (words : List Int) :
    (∀ st1, fillData env st data n format words = Run.done st1 → syncs st1 = syncs st) ∧
      ∀ f st1, fillData env st data n format words = Run.stopped f st1 →
        syncs st1 = syncs st := by
  unfold fillData
  split
  · constructor
    · intro st1 h; exact ((translateLoop_syncs env data n 0 _).1 st1 h).trans (by simp)
    · intro f st1 h; exact ((translateLoop_syncs env data n 0 _).2 f st1 h).trans (by simp)
  · constructor
    · intro st1 h; cases h; simp
    · intro f st1 h; cases h

theorem createLocal_syncs (env : Env) (kind : Kind) (ov : String → String → Bool)
    (st : WorkerState) (rh : ObjectHandle) (type : String) :
    (∀ st1 obj, createLocal env kind ov st rh type = Local.created st1 obj →
        syncs st1 = syncs st) ∧
      ∀ f st1, createLocal env kind ov st rh type = Local.stopped f st1 →
        syncs st1 = syncs st := by
  unfold createLocal
  constructor
  · intro st1 obj h
    repeat' split at h
    all_goals first
      | (cases h; done)
      | (cases h; simp)
  · intro f st1 h
    repeat' split at h
    all_goals first
      | (cases h; done)
      | (cases h; simp)

theorem get_handle_quiet (st : WorkerState) (ch : Channel) (k : ObjectHandle → Channel → Step)
    (t0 : List Event) (hst : syncs st = t0) (hk : ∀ v ch1, syncs (k v ch1).st = t0) :
    syncs (get_handle st ch k).st = t0 := by
  unfold get_handle
  split
  · exact hk _ _
  · exact hst

theorem get_int32_quiet (st : WorkerState) (ch : Channel) (k : Int → Channel → Step)
    (t0 : List Event) (hst : syncs st = t0) (hk : ∀ v ch1, syncs (k v ch1).st = t0) :
    syncs (get_int32 st ch k).st = t0 := by
  unfold get_int32
  split
  · exact hk _ _
  · exact hst

theorem get_size_t_quiet (st : WorkerState) (ch : Channel) (k : Nat → Channel → Step)
    (t0 : List Event) (hst : syncs st = t0) (hk : ∀ v ch1, syncs (k v ch1).st = t0) :
    syncs (get_size_t st ch k).st = t0 := by
  unfold get_size_t
  split
  · exact hk _ _
  · exact hst

theorem get_charPtr_quiet (st : WorkerState) (ch : Channel) (k : String → Channel → Step)
    (t0 : List Event) (hst : syncs st = t0) (hk : ∀ v ch1, syncs (k v ch1).st = t0) :
    syncs (get_charPtr st ch k).st = t0 := by
  unfold get_charPtr
  split
  · exact hk _ _
  · exact hst

theorem get_float_quiet (st : WorkerState) (ch : Channel) (k : Nat → Channel → Step)
    (t0 : List Event) (hst : syncs st = t0) (hk : ∀ v ch1, syncs (k v ch1).st = t0) :
    syncs (get_float st ch k).st = t0 := by
  unfold get_float
  split
  · exact hk _ _
  · exact hst

theorem get_vecf_quiet (m : Nat) (st : WorkerState) (ch : Channel)
    (k : List Nat → Channel → Step) (t0 : List Event) (hst : syncs st = t0)
    (hk : ∀ v ch1, syncs (k v ch1).st = t0) : syncs (get_vecf m st ch k).st = t0 := by
  unfold get_vecf
  split
  · split
    · exact hk _ _
    · exact hst
  · exact hst

theorem get_veci_quiet (m : Nat) (st : WorkerState) (ch : Channel)
    (k : List Int → Channel → Step) (t0 : List Event) (hst : syncs st = t0)
    (hk : ∀ v ch1, syncs (k v ch1).st = t0) : syncs (get_veci m st ch k).st = t0 := by
  unfold get_veci
  split
  · split
    · exact hk _ _
    · exact hst
  · exact hst

theorem get_data_quiet (m : Nat) (st : WorkerState) (ch : Channel)
    (k : List Int → Channel → Step) (t0 : List Event) (hst : syncs st = t0)
    (hk : ∀ v ch1, syncs (k v ch1).st = t0) : syncs (get_data m st ch k).st = t0 := by
  unfold get_data
  split
  · split
    · exact hk _ _
    · exact hst
  · exact hst

theorem Assert_quiet (st : WorkerState) (e : String) (p : Option ObjId) (k : ObjId → Step)
    (t0 : List Event) (hst : syncs st = t0) (hk : ∀ o, syncs (k o).st = t0) :
    syncs (Assert st e p k).st = t0 := by
  unfold Assert
  split
  · exact hst
  · exact hk _

theorem deref_quiet (st : WorkerState) (e : String) (p : Option ObjId)
    (k : ObjId → ManagedObject → Step) (t0 : List Event) (hst : syncs st = t0)
    (hk : ∀ o x, syncs (k o x).st = t0) : syncs (deref st e p k).st = t0 := by
  unfold deref
  repeat' split
  all_goals first | exact hst | exact hk _ _

theorem derefAs_quiet (st : WorkerState) (t : Kind) (e : String) (p : Option ObjId)
    (k : ObjId → ManagedObject → Step) (t0 : List Event) (hst : syncs st = t0)
    (hk : ∀ o x, syncs (k o x).st = t0) : syncs (derefAs st t e p k).st = t0 := by
  unfold derefAs
  refine deref_quiet _ _ _ _ _ hst fun o x => ?_
  split
  · exact hk _ _
  · exact hst

theorem MPI_Allreduce_quiet (st : WorkerState) (ch : Channel) (f : Int)
    (k : WorkerState → Int → Channel → Step) (t0 : List Event) (hst : syncs st = t0)
    (hk : ∀ s v ch1, syncs s = syncs st → syncs (k s v ch1).st = t0) :
    syncs (MPI_Allreduce st ch f k).st = t0 := by
  unfold MPI_Allreduce
  split
  · exact hst
  · exact hk _ _ _ (by simp [isSync])

theorem newOrThrow_quiet (env : Env) (kind : Kind) (what : String) (logsAfter : Bool)
    (st : WorkerState) (ch : Channel) :
    syncs (newOrThrow env kind what logsAfter st ch).st = syncs st := by
  unfold newOrThrow
  refine get_handle_quiet _ _ _ _ rfl fun handle ch1 => ?_
  refine get_charPtr_quiet _ _ _ _ rfl fun type ch2 => ?_
  have h1 := syncs_createInstance env (logRank0 env st) kind type
  rw [syncs_logRank0] at h1
  cases hc : createInstance env (logRank0 env st) kind type with
  | mk st1 r =>
    rw [hc] at h1
    cases r with
    | none => exact h1
    | some o =>
      simp only []
      split <;> simp [Step.st, isSync, h1]

theorem voteAndBind_quiet (env : Env) (st : WorkerState) (ch : Channel)
    (handle : ObjectHandle) (obj : Option ObjId) :
    syncs (voteAndBind env st ch handle obj).st = syncs st := by
  simp only [voteAndBind, afterVote, reportRank0]
  repeat' (first
    | refine deref_quiet _ _ _ _ _ ?_ (fun _ _ => ?_)
    | refine MPI_Allreduce_quiet _ _ _ _ _ ?_ (fun _ _ _ _ => ?_)
    | split
    | simp [Step.st, isSync, *])

theorem newVoted_quiet (env : Env) (kind : Kind) (ov : String → String → Bool)
    (st : WorkerState) (ch : Channel) (rh handle : ObjectHandle) (type : String) :
    syncs (newVoted env kind ov st ch rh handle type).st = syncs st := by
  unfold newVoted
  have h := createLocal_syncs env kind ov (logRank0 env st) rh type
  cases hl : createLocal env kind ov (logRank0 env st) rh type with
  | stopped f st1 => exact (h.2 f st1 hl).trans (syncs_logRank0 env st)
  | created st1 obj =>
    exact (voteAndBind_quiet env st1 ch handle obj).trans
      ((h.1 st1 obj hl).trans (syncs_logRank0 env st))

theorem CMD_NEW_DATA_quiet (env : Env) (st : WorkerState) (ch : Channel) :
    syncs (CMD_NEW_DATA env st ch).st = syncs st := by
  unfold CMD_NEW_DATA
  refine get_handle_quiet _ _ _ _ rfl fun handle ch1 => ?_
  refine get_size_t_quiet _ _ _ _ rfl fun nitems ch2 => ?_
  refine get_int32_quiet _ _ _ _ rfl fun format ch3 => ?_
  refine get_int32_quiet _ _ _ _ rfl fun flags ch4 => ?_
  refine get_size_t_quiet _ _ _ _ rfl fun hasInitData ch5 => ?_
  split
  · refine get_data_quiet _ _ _ _ _ rfl fun words ch6 => ?_
    have h := fillData_syncs env (newDataBind env st handle nitems format flags)
      st.heap.length nitems format words
    cases hf : fillData env (newDataBind env st handle nitems format flags) st.heap.length
        nitems format words with
    | done st2 => exact h.1 st2 hf
    | stopped f st2 => exact h.2 f st2 hf
  · rfl

set_option maxHeartbeats 1600000 in
/-- Every handler other than those of COMMIT and RENDER_FRAME, however it ends, commits
nothing, passes no barrier and renders nothing. -/
theorem handler_quiet (env : Env) (c : Cmd) (st : WorkerState) (ch : Channel)
    (h1 : c ≠ Cmd.COMMIT) (h2 : c ≠ Cmd.RENDER_FRAME) :
    syncs (handler env c st ch).st = syncs st := by
  cases c
  case COMMIT => exact absurd rfl h1
  case RENDER_FRAME => exact absurd rfl h2
  case NEW_VOLUME => exact newOrThrow_quiet env _ _ _ st ch
  case NEW_TRANSFERFUNCTION => exact newOrThrow_quiet env _ _ _ st ch
  case NEW_GEOMETRY => exact newOrThrow_quiet env _ _ _ st ch
  case NEW_DATA => exact CMD_NEW_DATA_quiet env st ch
  case NEW_MATERIAL =>
    simp only [handler, CMD_NEW_MATERIAL]
    refine get_handle_quiet _ _ _ _ rfl fun rh ch1 => ?_
    refine get_handle_quiet _ _ _ _ rfl fun h ch2 => ?_
    refine get_charPtr_quiet _ _ _ _ rfl fun type ch3 => ?_
    exact newVoted_quiet env _ _ st ch3 rh h type
  case NEW_LIGHT =>
    simp only [handler, CMD_NEW_LIGHT]
    refine get_handle_quiet _ _ _ _ rfl fun rh ch1 => ?_
    refine get_handle_quiet _ _ _ _ rfl fun h ch2 => ?_
    refine get_charPtr_quiet _ _ _ _ rfl fun type ch3 => ?_
    exact newVoted_quiet env _ _ st ch3 rh h type
  all_goals
    simp only [handler, CMD_NEW_PIXELOP, CMD_NEW_RENDERER, CMD_NEW_CAMERA,
      CMD_FRAMEBUFFER_CREATE, CMD_FRAMEBUFFER_CLEAR, CMD_FRAMEBUFFER_MAP,
      CMD_NEW_MODEL, CMD_NEW_TRIANGLEMESH, CMD_NEW_TEXTURE2D, CMD_ADD_GEOMETRY,
      CMD_REMOVE_GEOMETRY, CMD_REMOVE_VOLUME, CMD_ADD_VOLUME, CMD_SET_OBJECT,
      CMD_RELEASE, CMD_SAMPLE_VOLUME, CMD_GET_TYPE, CMD_GET_VALUE, CMD_SET_MATERIAL,
      CMD_SET_PIXELOP, CMD_SET_REGION, CMD_SET_STRING, CMD_SET_INT, CMD_SET_FLOAT,
      CMD_SET_VEC3F, CMD_SET_VEC4F, CMD_SET_VEC2F, CMD_SET_VEC2I, CMD_SET_VEC3I,
      CMD_LOAD_MODULE, CMD_API_MODE, CMD_FINALIZE, newAsserted, setOn, regionBody]
    repeat' (first
      | refine get_handle_quiet _ _ _ _ ?_ (fun _ _ => ?_)
      | refine get_int32_quiet _ _ _ _ ?_ (fun _ _ => ?_)
      | refine get_size_t_quiet _ _ _ _ ?_ (fun _ _ => ?_)
      | refine get_charPtr_quiet _ _ _ _ ?_ (fun _ _ => ?_)
      | refine get_float_quiet _ _ _ _ ?_ (fun _ _ => ?_)
      | refine get_vecf_quiet _ _ _ _ _ ?_ (fun _ _ => ?_)
      | refine get_veci_quiet _ _ _ _ _ ?_ (fun _ _ => ?_)
      | refine get_data_quiet _ _ _ _ _ ?_ (fun _ _ => ?_)
      | refine Assert_quiet _ _ _ _ _ ?_ (fun _ => ?_)
      | refine derefAs_quiet _ _ _ _ _ _ ?_ (fun _ _ => ?_)
      | refine deref_quiet _ _ _ _ _ ?_ (fun _ _ => ?_)
      | refine MPI_Allreduce_quiet _ _ _ _ _ ?_ (fun _ _ _ _ => ?_)
      | split
      | simp [Step.st, isSync, *])

theorem blockSince_refl (st s : WorkerState) (h : syncs s = syncs st) : blockSince st s :=
  ⟨[], Or.inl rfl, by rw [h, List.append_nil]⟩

theorem get_handle_block (st0 st : WorkerState) (ch : Channel)
    (k : ObjectHandle → Channel → Step) (hst : blockSince st0 st)
    (hk : ∀ v ch1, blockSince st0 (k v ch1).st) : blockSince st0 (get_handle st ch k).st := by
  unfold get_handle
  split
  · exact hk _ _
  · exact hst

theorem get_int32_block (st0 st : WorkerState) (ch : Channel) (k : Int → Channel → Step)
    (hst : blockSince st0 st) (hk : ∀ v ch1, blockSince st0 (k v ch1).st) :
    blockSince st0 (get_int32 st ch k).st := by
  unfold get_int32
  split
  · exact hk _ _
  · exact hst

theorem Assert_block (st0 st : WorkerState) (e : String) (p : Option ObjId) (k : ObjId → Step)
    (hst : blockSince st0 st) (hk : ∀ o, blockSince st0 (k o).st) :
    blockSince st0 (Assert st e p k).st := by
  unfold Assert
  split
  · exact hst
  · exact hk _

theorem deref_block (st0 st : WorkerState) (e : String) (p : Option ObjId)
    (k : ObjId → ManagedObject → Step) (hst : blockSince st0 st)
    (hk : ∀ o x, blockSince st0 (k o x).st) : blockSince st0 (deref st e p k).st := by
  unfold deref
  repeat' split
  all_goals first | exact hst | exact hk _ _

theorem derefAs_block (st0 st : WorkerState) (t : Kind) (e : String) (p : Option ObjId)
    (k : ObjId → ManagedObject → Step) (hst : blockSince st0 st)
    (hk : ∀ o x, blockSince st0 (k o x).st) : blockSince st0 (derefAs st t e p k).st := by
  unfold derefAs
  refine deref_block _ _ _ _ _ hst fun o x => ?_
  split
  · exact hk _ _
  · exact hst

/-- What `commitAndBarrier` adds to the trace. -/
theorem commitAndBarrier_trace (st : WorkerState) (o : ObjId) (x : ManagedObject) :
    (commitAndBarrier st o x).trace = st.trace ++ ([Event.commit o] ++
      (if x.kind = Kind.model then [Event.finalize o] else []) ++ [Event.barrier]) := by
  unfold commitAndBarrier
  split <;> simp

theorem syncs_of_trace (st s : WorkerState) (l : List Event) (h : s.trace = st.trace ++ l) :
    syncs s = syncs st ++ l.filter isSync := by
  unfold syncs
  rw [h, List.filter_append]

theorem commitAndBarrier_syncs (st : WorkerState) (o : ObjId) (x : ManagedObject) :
    syncs (commitAndBarrier st o x) = syncs st ++ [Event.commit o] ++
      (if x.kind = Kind.model then [Event.finalize o] else []) ++ [Event.barrier] := by
  rw [syncs_of_trace st _ _ (commitAndBarrier_trace st o x)]
  split <;> simp [List.filter, isSync]

theorem commitAndBarrier_block (st0 st : WorkerState) (o : ObjId) (x : ManagedObject)
    (h : syncs st = syncs st0) : blockSince st0 (commitAndBarrier st o x) := by
  by_cases hm : x.kind = Kind.model
  · refine ⟨[Event.commit o, Event.finalize o, Event.barrier], Or.inr ?_, ?_⟩
    · simp [isBlock]
    · rw [commitAndBarrier_syncs, h]; simp [hm]
  · refine ⟨[Event.commit o, Event.barrier], Or.inr rfl, ?_⟩
    rw [commitAndBarrier_syncs, h]; simp [hm]

/-- However the handler of COMMIT ends, it has added nothing or one whole block. -/
theorem CMD_COMMIT_block (env : Env) (st : WorkerState) (ch : Channel) :
    blockSince st (CMD_COMMIT env st ch).st := by
  unfold CMD_COMMIT
  refine get_handle_block _ _ _ _ (blockSince_refl _ _ rfl) fun handle ch1 => ?_
  refine Assert_block _ _ _ _ _ (blockSince_refl _ _ rfl) fun obj => ?_
  refine deref_block _ _ _ _ _ (blockSince_refl _ _ rfl) fun o x => ?_
  split
  · exact commitAndBarrier_block _ _ _ _ (by simp [isSync])
  · exact commitAndBarrier_block _ _ _ _ rfl

/-- However the handler of RENDER_FRAME ends, it has added nothing or one render. -/
theorem CMD_RENDER_FRAME_block (env : Env) (st : WorkerState) (ch : Channel) :
    blockSince st (CMD_RENDER_FRAME env st ch).st := by
  unfold CMD_RENDER_FRAME
  refine get_handle_block _ _ _ _ (blockSince_refl _ _ rfl) fun fbHandle ch1 => ?_
  refine get_handle_block _ _ _ _ (blockSince_refl _ _ rfl) fun rendererHandle ch2 => ?_
  refine get_int32_block _ _ _ _ (blockSince_refl _ _ rfl) fun channelFlags ch3 => ?_
  refine Assert_block _ _ _ _ _ (blockSince_refl _ _ rfl) fun renderer => ?_
  refine derefAs_block _ _ _ _ _ _ (blockSince_refl _ _ rfl) fun r x => ?_
  exact ⟨[Event.renderFrame r (lookup st fbHandle) channelFlags], Or.inr rfl,
    by simp [Step.st, isSync]⟩

theorem handler_block (env : Env) (c : Cmd) (st : WorkerState) (ch : Channel) :
    blockSince st (handler env c st ch).st := by
  by_cases h1 : c = Cmd.COMMIT
  · subst h1; exact CMD_COMMIT_block env st ch
  · by_cases h2 : c = Cmd.RENDER_FRAME
    · subst h2; exact CMD_RENDER_FRAME_block env st ch
    · exact blockSince_refl _ _ (handler_quiet env c st ch h1 h2)

theorem dispatch_block (env : Env) (st : WorkerState) (ch : Channel) (command : Int) :
    blockSince st (dispatch env st ch command).st := by
  unfold dispatch
  split
  · exact handler_block env _ st ch
  · exact blockSince_refl _ _ rfl

theorem blocksSince_refl (st s : WorkerState) (h : syncs s = syncs st) : blocksSince st s :=
  ⟨[], by simp, by simp [h]⟩

theorem blocksSince_step (st s1 s2 : WorkerState) (h1 : blockSince st s1)
    (h2 : blocksSince s1 s2) : blocksSince st s2 := by
  obtain ⟨b, hb, e1⟩ := h1
  obtain ⟨blocks, hbs, e2⟩ := h2
  rcases hb with hb | hb
  · subst hb
    exact ⟨blocks, hbs, by rw [e2, e1, List.append_nil]⟩
  · refine ⟨b :: blocks, ?_, by rw [e2, e1, List.flatten_cons, List.append_assoc]⟩
    intro c hc
    rcases List.mem_cons.1 hc with hc | hc
    · rw [hc]; exact hb
    · exact hbs c hc

/-- At every head of the loop, and when the loop stops, the commits, barriers and renders of
the rank since the start are whole blocks. -/
theorem passes_blocks (env : Env) (n : Nat) :
    ∀ (st : WorkerState) (ch : Channel), blocksSince st (passes env n st ch).st := by
  induction n with
  | zero => intro st ch; exact blocksSince_refl _ _ rfl
  | succ n ih =>
    intro st ch
    simp only [passes]
    unfold get_int32
    split
    · rename_i v rest hc
      dsimp only
      have hd := dispatch_block env st { ch with cmd := rest } v
      cases hr : dispatch env st { ch with cmd := rest } v with
      | next st1 ch1 =>
        rw [hr] at hd
        exact blocksSince_step _ _ _ hd (ih st1 ch1)
      | raised f s =>
        rw [hr] at hd
        exact blocksSince_step _ _ _ hd (blocksSince_refl _ _ rfl)
      | exited e s =>
        rw [hr] at hd
        exact blocksSince_step _ _ _ hd (blocksSince_refl _ _ rfl)
    · exact blocksSince_refl _ _ rfl

theorem workerLoop_blocks (env : Env) (fuel : Nat) :
    ∀ (st : WorkerState) (ch : Channel), blocksSince st (workerLoop env fuel st ch).st := by
  induction fuel with
  | zero => intro st ch; exact blocksSince_refl _ _ rfl
  | succ n ih =>
    intro st ch
    simp only [workerLoop]
    unfold get_int32
    split
    · rename_i v rest hc
      dsimp only
      have hd := dispatch_block env st { ch with cmd := rest } v
      cases hr : dispatch env st { ch with cmd := rest } v with
      | next st1 ch1 =>
        rw [hr] at hd
        exact blocksSince_step _ _ _ hd (ih st1 ch1)
      | raised f s =>
        rw [hr] at hd
        exact blocksSince_step _ _ _ hd (blocksSince_refl _ _ rfl)
      | exited e s =>
        rw [hr] at hd
        exact blocksSince_step _ _ _ hd (blocksSince_refl _ _ rfl)
    · exact blocksSince_refl _ _ rfl

/-- A COMMIT that returns to the loop was given a handle bound to a live object, has read
that handle only, and has added to the trace the commit of the object, the finalize if it
is a model, and the barrier, in this order (after the log line of log levels above 2). -/
theorem CMD_COMMIT_next (env : Env) (st st1 : WorkerState) (ch ch1 : Channel)
    (h : CMD_COMMIT env st ch = Step.next st1 ch1) :
    ∃ handle rest o x, ch.cmd = Token.handle handle :: rest ∧ ch1 = { ch with cmd := rest } ∧
      lookup st handle = some o ∧ st.heap[o]? = some x ∧ x.alive = true ∧
      st1.trace = st.trace ++ (if env.logLevel > 2 then [Event.log, Event.toString o] else [])
        ++ [Event.commit o] ++ (if x.kind = Kind.model then [Event.finalize o] else [])
        ++ [Event.barrier] := by
  unfold CMD_COMMIT at h
  rcases get_handle_inv _ _ _ _ h with h0 | ⟨v, rest, hc, hk⟩
  · cases h0
  · cases hl : lookup st v with
    | none => rw [hl] at hk; cases hk
    | some o =>
      rw [hl] at hk
      simp only [Assert, deref] at hk
      cases hx : st.heap[o]? with
      | none => rw [hx] at hk; cases hk
      | some x =>
        rw [hx] at hk
        simp only at hk
        by_cases ha : x.alive = true
        · rw [if_pos ha] at hk
          refine ⟨v, rest, o, x, hc, ?_, hl, hx, ha, ?_⟩
          · split at hk <;> cases hk <;> rfl
          · split at hk
            · rename_i hlog
              cases hk
              rw [commitAndBarrier_trace, if_pos hlog]
              simp
            · rename_i hlog
              cases hk
              rw [commitAndBarrier_trace, if_neg hlog]
              simp
        · rw [if_neg ha] at hk; cases hk

/-- A RENDER_FRAME that returns to the loop has added one render to the trace and nothing
else. -/
theorem CMD_RENDER_FRAME_next (env : Env) (st st1 : WorkerState) (ch ch1 : Channel)
    (h : CMD_RENDER_FRAME env st ch = Step.next st1 ch1) :
    ∃ renderer fb channelFlags,
      st1.trace = st.trace ++ [Event.renderFrame renderer fb channelFlags] := by
  unfold CMD_RENDER_FRAME at h
  rcases get_handle_inv _ _ _ _ h with h0 | ⟨fbHandle, rest1, _, h1⟩
  · cases h0
  rcases get_handle_inv _ _ _ _ h1 with h0 | ⟨rendererHandle, rest2, _, h2⟩
  · cases h0
  rcases get_int32_inv _ _ _ _ h2 with h0 | ⟨channelFlags, rest3, _, h3⟩
  · cases h0
  simp only [Assert, derefAs, deref] at h3
  repeat' split at h3
  all_goals first
    | (cases h3; done)
    | (cases h3; exact ⟨_, _, _, rfl⟩)

/-- C14: a COMMIT whose handle is bound to a live object returns to the loop having read
the handle only, and what it has added to the trace is, in this order, the commit of the
object, the finalize of the object when it is a model, and one barrier (preceded by the log
line at log levels above 2). No COMMIT, in any state, returns to the loop without that
barrier as its last action. Hence at every head of the loop, after any number of commands
of any stream, the commits, barriers and renders of the rank are whole blocks: each commit
is followed by its barrier before the next command is decoded, so the handler of a
RENDER_FRAME, which adds its render after that point, starts after the barrier of every
earlier COMMIT; the same holds for the trace with which the whole run ends. -/
theorem commit_then_barrier (env : Env) (st : WorkerState) (ch : Channel)
    (handle : ObjectHandle) (rest : List Token) (obj : ObjId) (x : ManagedObject)
    (hcmd : ch.cmd = Token.handle handle :: rest) (hb : lookup st handle = some obj)
    (hx : st.heap[obj]? = some x) (ha : x.alive = true) :
    (∃ st1, CMD_COMMIT env st ch = Step.next st1 { ch with cmd := rest } ∧
        st1.trace = st.trace ++
          (if env.logLevel > 2 then [Event.log, Event.toString obj] else []) ++
          [Event.commit obj] ++ (if x.kind = Kind.model then [Event.finalize obj] else []) ++
          [Event.barrier]) ∧
      (∀ (st0 st1 : WorkerState) (ch0 ch1 : Channel),
        handler env Cmd.COMMIT st0 ch0 = Step.next st1 ch1 →
          ∃ (o : ObjId) (y : ManagedObject), st1.trace = st0.trace ++
            (if env.logLevel > 2 then [Event.log, Event.toString o] else []) ++
            [Event.commit o] ++ (if y.kind = Kind.model then [Event.finalize o] else []) ++
            [Event.barrier]) ∧
      (∀ (n : Nat) (st0 st1 : WorkerState) (ch0 ch1 : Channel),
        passes env n st0 ch0 = Step.next st1 ch1 → blocksSince st0 st1) ∧
      (∀ (st0 st1 : WorkerState) (ch0 ch1 : Channel),
        handler env Cmd.RENDER_FRAME st0 ch0 = Step.next st1 ch1 →
          ∃ renderer fb channelFlags,
            st1.trace = st0.trace ++ [Event.renderFrame renderer fb channelFlags]) ∧
      (∀ (st0 : WorkerState) (ch0 : Channel), blocksSince st0 (runWorker env st0 ch0).st) := by
  refine ⟨?_, ?_, ?_, ?_, ?_⟩
  · obtain ⟨st1, hrun, _, _⟩ := commit_step env st ch handle rest obj x hcmd hb hx ha
    refine ⟨st1, hrun, ?_⟩
    obtain ⟨h2, rest2, o2, x2, hc2, _, hl2, hx2, _, ht⟩ := CMD_COMMIT_next env st st1 ch _ hrun
    rw [hcmd] at hc2
    injection hc2 with e1 e2
    injection e1 with e1
    subst e1
    rw [hb] at hl2
    injection hl2 with e3
    subst e3
    rw [hx] at hx2
    injection hx2 with e4
    subst e4
    exact ht
  · intro st0 st1 ch0 ch1 h
    obtain ⟨_, _, o, y, _, _, _, _, _, ht⟩ := CMD_COMMIT_next env st0 st1 ch0 ch1 h
    exact ⟨o, y, ht⟩
  · intro n st0 st1 ch0 ch1 h
    have hp := passes_blocks env n st0 ch0
    rw [h] at hp
    exact hp
  · intro st0 st1 ch0 ch1 h
    exact CMD_RENDER_FRAME_next env st0 st1 ch0 ch1 h
  · intro st0 ch0
    exact workerLoop_blocks env _ st0 ch0

/-- C14 applied to the model at handle 1 of `modelState`, on a rank that logs at level 3:
the COMMIT returns with the log line, the commit, the finalize and the barrier. -/
theorem commit_then_barrier_witness :
    ((({ cmd := [Token.handle 1, Token.int32 7], peers := [] } : Channel)).cmd =
        Token.handle 1 :: [Token.int32 7] ∧
      lookup (modelState []) 1 = some 0 ∧
      (modelState []).heap[0]? =
        some { freshObject Kind.model "Model" with refCount := 1, geometry := [] } ∧
      ({ freshObject Kind.model "Model" with
          refCount := 1, geometry := [] } : ManagedObject).alive = true) ∧
    ∃ st1, CMD_COMMIT (sampleEnv 0 3 true false) (modelState [])
        { cmd := [Token.handle 1, Token.int32 7], peers := [] } =
          Step.next st1 { cmd := [Token.int32 7], peers := [] } ∧
      st1.trace = (modelState []).trace ++
        (if (sampleEnv 0 3 true false).logLevel > 2 then [Event.log, Event.toString 0]
          else []) ++
        [Event.commit 0] ++
        (if ({ freshObject Kind.model "Model" with
            refCount := 1, geometry := [] } : ManagedObject).kind = Kind.model
          then [Event.finalize 0] else []) ++
        [Event.barrier] :=
  ⟨⟨rfl, by decide, by decide, rfl⟩,
    (commit_then_barrier (sampleEnv 0 3 true false) (modelState [])
      { cmd := [Token.handle 1, Token.int32 7], peers := [] } 1 [Token.int32 7] 0
      { freshObject Kind.model "Model" with refCount := 1, geometry := [] }
      rfl (by decide) (by decide) rfl).1⟩

/-- The stream of `renderChannel` run to its end on a fresh rank: the model (address 1) is
committed, finalized and followed by a barrier, the renderer (address 0) is committed and
followed by a barrier, and only then the frame is rendered. -/
theorem render_stream_evaluated :
    syncs (runWorker (sampleEnv 0 0 true false) emptyState renderChannel).st =
      [Event.commit 1, Event.finalize 1, Event.barrier, Event.commit 0, Event.barrier,
       Event.renderFrame 0 none 0] := by
  decide

/-! ## The index of the translation loop -/

/-- Over entries that all hold the null handle the loop changes nothing, and it stops at the
increment of the index `INT_MAX` when it has still a pass to go there. -/
theorem translateLoop_null_overflows (env : Env) (data : ObjId) (d : ManagedObject) (m : Nat)
    (st : WorkerState) (hd : st.heap[data]? = some d)
    (hs : ∀ j, j < m → d.slots[j]? = some (Slot.word env.NULL_HANDLE)) (k : Nat) :
    ∀ n i, i + k = 2147483647 → k < n → i + n ≤ m →
      translateLoop env data n i st =
        Run.stopped (Fault.undefinedBehaviour "i++ at INT_MAX") st := by
  induction k with
  | zero =>
    intro n i hi hn hm
    cases n with
    | zero => omega
    | succ n1 =>
      simp only [translateLoop,
        translateItem_null env st data i _ d hd (hs i (by omega)) rfl]
      rw [if_pos (by omega)]
  | succ k ih =>
    intro n i hi hn hm
    cases n with
    | zero => omega
    | succ n1 =>
      simp only [translateLoop,
        translateItem_null env st data i _ d hd (hs i (by omega)) rfl]
      rw [if_neg (by omega)]
      exact ih n1 (i + 1) (by omega) (by omega) (by omega)

/-- A NEW_DATA frame of `OSP_OBJECT` entries with initial data and `2^31` entries or more,
all of them the null handle: the handler does not return. After the entry with index
`INT_MAX` the statement `i++` of the loop `for (int i=0;i<nitems;i++)` overflows the `int`
index, which is undefined. -/
theorem new_data_index_overflow_general (env : Env) (st : WorkerState) (ch : Channel)
    (handle : ObjectHandle) (nitems : Nat) (flags : Int) (rest : List Token)
    (hcmd : ch.cmd = Token.handle handle :: Token.size_t nitems ::
      Token.int32 env.OSP_OBJECT :: Token.int32 flags :: Token.size_t 1 ::
      Token.data (nitems * env.sizeOf env.OSP_OBJECT % 18446744073709551616)
        (List.replicate nitems env.NULL_HANDLE) :: rest)
    (hbig : 2147483648 ≤ nitems) :
    CMD_NEW_DATA env st ch =
      Step.raised (Fault.undefinedBehaviour "i++ at INT_MAX")
        (updObj (newDataBind env st handle nitems env.OSP_OBJECT flags) st.heap.length
          fun y => { y with slots := (List.replicate nitems env.NULL_HANDLE).map Slot.word })
      := by
  obtain ⟨hheap, _, _⟩ := newDataBind_state env st handle nitems env.OSP_OBJECT flags
  have hd1 : (newDataBind env st handle nitems env.OSP_OBJECT flags).heap[st.heap.length]? =
      some { freshObject Kind.data "Data" with
        nitems := nitems, format := env.OSP_OBJECT, refCount := 1,
        flags := Int.land flags (Int.lnot env.OSP_DATA_SHARED_BUFFER) } := by
    rw [hheap]; exact getElem?_append_length _ _ _
  have hd2 := setSlots_get (newDataBind env st handle nitems env.OSP_OBJECT flags)
    st.heap.length st.heap.length
    (fun _ => (List.replicate nitems env.NULL_HANDLE).map Slot.word) _ hd1
  rw [if_pos rfl] at hd2
  have hloop := translateLoop_null_overflows env st.heap.length _ nitems _ hd2
    (by
      intro j hj
      simp [List.getElem?_replicate, hj])
    2147483647 nitems 0 (by omega) (by omega) (by omega)
  simp only [CMD_NEW_DATA, get_handle, get_size_t, get_int32, get_data, hcmd, fillData,
    if_true, ne_eq, Nat.one_ne_zero, not_false_eq_true]
  rw [hloop]

/-- C8, at the failing input: a NEW_DATA frame for handle 9 with `2^31` entries of element
type `OSP_OBJECT`, sent with initial data in which every entry is the null handle, so that
every non-null handle is bound. The handler does not create the translated array and
return: the index of the loop `for (int i=0;i<nitems;i++)` is an `int` while `nitems` is a
`size_t`, and after the entry with index `INT_MAX` the increment of the index overflows,
which is undefined behaviour. -/
theorem new_data_index_overflows :
    (∀ w ∈ List.replicate 2147483648 (0 : Int), w = (sampleEnv 0 0 true false).NULL_HANDLE) ∧
      (CMD_NEW_DATA (sampleEnv 0 0 true false) emptyState bigDataChannel).fault =
        some (Fault.undefinedBehaviour "i++ at INT_MAX") := by
  constructor
  · intro w hw
    exact List.eq_of_mem_replicate hw
  · rw [new_data_index_overflow_general (sampleEnv 0 0 true false) emptyState bigDataChannel 9
      2147483648 0 [] rfl (by omega)]
    rfl

/-! ## One response per voted command -/

/-- The three fields that `CMD_NEW_MATERIAL` and `CMD_NEW_LIGHT` decode, and what follows
them. -/
theorem decode_creation_frame (st : WorkerState) (ch : Channel)
    (k : ObjectHandle → ObjectHandle → String → Channel → Step) (st' : WorkerState)
    (ch' : Channel)
    (h : (get_handle st ch fun a ch => get_handle st ch fun b ch => get_charPtr st ch fun t ch =>
      k a b t ch) = Step.next st' ch') :
    ∃ a b t rest, ch.cmd = Token.handle a :: Token.handle b :: Token.charPtr t :: rest ∧
      k a b t { cmd := rest, peers := ch.peers } = Step.next st' ch' := by
  obtain ⟨cmd, peers⟩ := ch
  match cmd, h with
  | Token.handle a :: Token.handle b :: Token.charPtr t :: rest, h =>
    exact ⟨a, b, t, rest, rfl, h⟩

/-- A creation with vote that runs to completion brought to its one reduction the flag of
its own creation, and sent the sum exactly once if the rank is rank 0. -/
theorem newVoted_next_flag (env : Env) (kind : Kind) (ov : String → String → Bool)
    (st : WorkerState) (ch : Channel) (rh handle : ObjectHandle) (type : String)
    (st' : WorkerState) (ch' : Channel)
    (h : newVoted env kind ov st ch rh handle type = Step.next st' ch') :
    ∃ others more, ch.peers = others :: more ∧ ch' = { ch with peers := more } ∧
      sends st' = sends st ++
        (if env.rank = 0 then
          [MPI_SUM (myFail (createLocal env kind ov (logRank0 env st) rh type).obj) others]
        else []) ∧
      reductions st' = reductions st ++
        [(myFail (createLocal env kind ov (logRank0 env st) rh type).obj,
          MPI_SUM (myFail (createLocal env kind ov (logRank0 env st) rh type).obj) others)]
      := by
  unfold newVoted at h
  split at h
  · cases h
  · rename_i st1 obj hl
    have hq := createLocal_quiet _ _ _ _ _ _ _ _ hl
    rw [hl]
    unfold voteAndBind MPI_Allreduce at h
    split at h
    · cases h
    · rename_i others more hp
      obtain ⟨h1, h2, h3⟩ := afterVote_next _ _ _ _ _ _ _ _ h
      refine ⟨others, more, hp, h1, ?_, ?_⟩
      · rw [h2]; simp [hq.1, sendOf, Local.obj]
      · rw [h3]; simp [hq.2, reductionOf, Local.obj]

/-- A region update that runs to completion brought to its one reduction the flag
`success == 0` of its own `setRegion`, and sent the sum exactly once if the rank is rank
0. -/
theorem regionBody_next_flag (env : Env) (st : WorkerState) (ch : Channel)
    (volumeHandle : ObjectHandle) (index count : List Int) (size : Nat) (words : List Int)
    (st' : WorkerState) (ch' : Channel)
    (h : regionBody env st ch volumeHandle index count size words = Step.next st' ch') :
    ∃ v x others more, lookup st volumeHandle = some v ∧ st.heap[v]? = some x ∧
      ch.peers = others :: more ∧ ch' = { ch with peers := more } ∧
      sends st' = sends st ++
        (if env.rank = 0 then
          [MPI_SUM (if env.setRegion x.typeName words index count = 0 then 1 else 0) others]
        else []) ∧
      reductions st' = reductions st ++
        [((if env.setRegion x.typeName words index count = 0 then 1 else 0),
          MPI_SUM (if env.setRegion x.typeName words index count = 0 then 1 else 0) others)]
      := by
  unfold regionBody at h
  cases hv : lookup st volumeHandle with
  | none => simp [hv, Assert] at h
  | some v =>
    simp only [hv, Assert, derefAs, deref] at h
    cases hx : st.heap[v]? with
    | none => simp [hx] at h
    | some x =>
      simp only [hx] at h
      by_cases ha : x.alive = true
      · by_cases hk : x.kind.isA Kind.volume = true
        · simp only [ha, hk, if_true, MPI_Allreduce] at h
          cases hp : ch.peers with
          | nil => simp [hp] at h
          | cons others more =>
            simp only [hp] at h
            cases h
            refine ⟨v, x, others, more, rfl, hx, rfl, rfl, ?_, ?_⟩
            · unfold finishRegion
              split <;> split <;> simp [sendOf]
            · unfold finishRegion
              split <;> split <;> simp [reductionOf, sendOf]
        · simp [ha, hk] at h
      · simp [ha] at h

/-- A `CMD_SET_REGION` that runs to completion decoded the five fields of its frame and ran
`regionBody` on the payload. -/
theorem CMD_SET_REGION_next_frame (env : Env) (st : WorkerState) (ch : Channel)
    (st' : WorkerState) (ch' : Channel) (h : CMD_SET_REGION env st ch = Step.next st' ch') :
    ∃ volumeHandle index count size words rest,
      ch.cmd = Token.handle volumeHandle :: Token.veci index :: Token.veci count ::
        Token.size_t size :: Token.data size words :: rest ∧
      regionBody env
        (emit (selectMem (initBcBuffer st) size)
          (Event.getData size (decide (size < bcBufferSize))))
        { cmd := rest, peers := ch.peers } volumeHandle index count size words =
          Step.next st' ch' := by
  unfold CMD_SET_REGION at h
  rcases get_handle_inv _ _ _ _ h with h | ⟨a, r1, e1, h⟩
  · cases h
  rcases get_veci_inv _ _ _ _ _ h with h | ⟨b, r2, e2, _, h⟩
  · cases h
  rcases get_veci_inv _ _ _ _ _ h with h | ⟨c, r3, e3, _, h⟩
  · cases h
  rcases get_size_t_inv _ _ _ _ h with h | ⟨n, r4, e4, h⟩
  · cases h
  rcases get_data_inv _ _ _ _ _ h with h | ⟨w, r5, e5, h⟩
  · cases h
  simp only [] at e2 e3 e4 e5
  exact ⟨a, b, c, n, w, r5, by rw [e1, e2, e3, e4, e5], h⟩

theorem myFail_eq_one (obj : Option ObjId) : myFail obj = 1 ↔ obj = none := by
  unfold myFail
  split <;> simp [*]

/-- C2: a NEW_MATERIAL, NEW_LIGHT or SET_REGION command that runs to completion on a rank
took part in exactly one sum-reduction. The flag the rank brought to it is 1 exactly when
its own operation failed (the creation left it without an object, or `setRegion` returned
0) and 0 otherwise. Rank 0 sent exactly one value to the master, namely the sum of that
reduction, and any other rank sent nothing. With the flags of a group of fewer than `2^31`
ranks, the sum is zero exactly when no rank has set its failure flag: when the operation
succeeded on this rank and every other rank brought the flag 0. -/
theorem one_response_from_rank0 (env : Env) (c : Cmd) (st st' : WorkerState)
    (ch ch' : Channel)
    (hc : c = Cmd.NEW_MATERIAL ∨ c = Cmd.NEW_LIGHT ∨ c = Cmd.SET_REGION)
    (hpeers : ∀ os ∈ ch.peers, os.length + 1 < 2147483648 ∧ ∀ f ∈ os, f = 0 ∨ f = 1)
    (hrun : handler env c st ch = Step.next st' ch') :
    ∃ flag others more, ch.peers = others :: more ∧ ch'.peers = more ∧
      (flag = 0 ∨ flag = 1) ∧
      (flag = 1 ↔ failedLocally env c st ch = true) ∧
      reductions st' = reductions st ++ [(flag, MPI_SUM flag others)] ∧
      sends st' = sends st ++ (if env.rank = 0 then [MPI_SUM flag others] else []) ∧
      (MPI_SUM flag others = 0 ↔ flag = 0 ∧ ∀ f ∈ others, f = 0) ∧
      (MPI_SUM flag others = 0 ↔
        failedLocally env c st ch = false ∧ ∀ f ∈ others, f = 0) := by
  have key : ∀ (flag : Int) (others : List Int) (more : List (List Int)) (st0 : WorkerState)
      (rest : List Token),
      (flag = 0 ∨ flag = 1) → (flag = 1 ↔ failedLocally env c st ch = true) →
      sends st0 = sends st → reductions st0 = reductions st →
      ch.peers = others :: more → ch' = { cmd := rest, peers := more } →
      sends st' = sends st0 ++ (if env.rank = 0 then [MPI_SUM flag others] else []) →
      reductions st' = reductions st0 ++ [(flag, MPI_SUM flag others)] →
      ∃ flag others more, ch.peers = others :: more ∧ ch'.peers = more ∧
        (flag = 0 ∨ flag = 1) ∧
        (flag = 1 ↔ failedLocally env c st ch = true) ∧
        reductions st' = reductions st ++ [(flag, MPI_SUM flag others)] ∧
        sends st' = sends st ++ (if env.rank = 0 then [MPI_SUM flag others] else []) ∧
        (MPI_SUM flag others = 0 ↔ flag = 0 ∧ ∀ f ∈ others, f = 0) ∧
        (MPI_SUM flag others = 0 ↔
          failedLocally env c st ch = false ∧ ∀ f ∈ others, f = 0) := by
    intro flag others more st0 rest hf hfl hs hr hp hch h1 h2
    have hmem : others ∈ ch.peers := by rw [hp]; exact List.mem_cons_self _ _
    obtain ⟨hlen, h01⟩ := hpeers others hmem
    have hsum := MPI_SUM_eq_zero flag others hf h01 hlen
    have h0 : flag = 0 ↔ failedLocally env c st ch = false := by
      rw [← Bool.not_eq_true, ← hfl]
      rcases hf with hf | hf <;> simp [hf]
    refine ⟨flag, others, more, hp, by rw [hch], hf, hfl, by rw [h2, hr], by rw [h1, hs],
      hsum, ?_⟩
    rw [hsum, h0]
  rcases hc with rfl | rfl | rfl
  · obtain ⟨a, b, t, rest, hcmd, h⟩ := decode_creation_frame st ch _ st' ch' hrun
    obtain ⟨others, more, hp, hch, h1, h2⟩ := newVoted_next_flag _ _ _ _ _ _ _ _ _ _ h
    refine key _ others more st rest ?_ ?_ rfl rfl hp hch h1 h2
    · unfold myFail; split <;> simp
    · rw [myFail_eq_one]
      simp [failedLocally, creationFailed, hcmd]
  · obtain ⟨a, b, t, rest, hcmd, h⟩ := decode_creation_frame st ch _ st' ch' hrun
    obtain ⟨others, more, hp, hch, h1, h2⟩ := newVoted_next_flag _ _ _ _ _ _ _ _ _ _ h
    refine key _ others more st rest ?_ ?_ rfl rfl hp hch h1 h2
    · unfold myFail; split <;> simp
    · rw [myFail_eq_one]
      simp [failedLocally, creationFailed, hcmd]
  · obtain ⟨v, ix, ct, size, words, rest, hcmd, h⟩ :=
      CMD_SET_REGION_next_frame env st ch st' ch' hrun
    obtain ⟨o, x, others, more, hl, hx, hp, hch, h1, h2⟩ :=
      regionBody_next_flag _ _ _ _ _ _ _ _ _ _ h
    have hl2 : lookup st v = some o := by
      rw [← hl]; simp [lookup]
    have hx2 : st.heap[o]? = some x := by
      rw [← hx]; simp
    refine key _ others more _ rest ?_ ?_ (by simp [sendOf]) (by simp [reductionOf]) hp hch
      h1 h2
    · split <;> simp
    · simp only [failedLocally, regionFailed, hcmd, hl2, hx2]
      split <;> simp [*]

/-- C2 applied to rank 0 of three ranks that all create the material. -/
theorem one_response_from_rank0_witness :
    (Cmd.NEW_MATERIAL = Cmd.NEW_MATERIAL ∧
      (∀ os ∈ sampleMaterialChannel.peers,
        os.length + 1 < 2147483648 ∧ ∀ f ∈ os, f = 0 ∨ f = 1) ∧
      handler (sampleEnv 0 0 true false) Cmd.NEW_MATERIAL emptyState sampleMaterialChannel =
        Step.next sampleAccepted { cmd := [], peers := [] }) ∧
      ∃ flag others more, sampleMaterialChannel.peers = others :: more ∧
        (({ cmd := [], peers := [] } : Channel)).peers = more ∧
        (flag = 0 ∨ flag = 1) ∧
        (flag = 1 ↔ failedLocally (sampleEnv 0 0 true false) Cmd.NEW_MATERIAL emptyState
          sampleMaterialChannel = true) ∧
        reductions sampleAccepted = reductions emptyState ++ [(flag, MPI_SUM flag others)] ∧
        sends sampleAccepted = sends emptyState ++
          (if (sampleEnv 0 0 true false).rank = 0 then [MPI_SUM flag others] else []) ∧
        (MPI_SUM flag others = 0 ↔ flag = 0 ∧ ∀ f ∈ others, f = 0) ∧
        (MPI_SUM flag others = 0 ↔
          failedLocally (sampleEnv 0 0 true false) Cmd.NEW_MATERIAL emptyState
            sampleMaterialChannel = false ∧ ∀ f ∈ others, f = 0) :=
  ⟨⟨rfl, by decide, rfl⟩,
    one_response_from_rank0 (sampleEnv 0 0 true false) Cmd.NEW_MATERIAL emptyState
      sampleAccepted sampleMaterialChannel { cmd := [], peers := [] } (Or.inl rfl)
      (by decide) rfl⟩

/-- Rank 1 of `twoRanks`, which cannot create the material, while its peer can: its own
operation failed, it brings the flag 1 to the reduction, the sum is 1, and it sends
nothing. -/
theorem failing_rank_flag_evaluated :
    (failedLocally (sampleEnv 1 0 false false) Cmd.NEW_MATERIAL emptyState
        { sampleMaterialChannel with peers := [[0]] },
      reductions (handler (sampleEnv 1 0 false false) Cmd.NEW_MATERIAL emptyState
        { sampleMaterialChannel with peers := [[0]] }).st,
      sends (handler (sampleEnv 1 0 false false) Cmd.NEW_MATERIAL emptyState
        { sampleMaterialChannel with peers := [[0]] }).st) =
      (true, [(1, 1)], []) := by
  decide

/-! ## The scratch buffer of the region update is allocated once -/

@[simp] theorem buffers_emit (st : WorkerState) (e : Event) (h : mallocOf e = none) :
    buffers (emit st e) = buffers st := by
  unfold buffers
  rw [mallocs_emit, h]
  simp

@[simp] theorem buffers_updObj (st : WorkerState) (o : ObjId) (f : ManagedObject → ManagedObject) :
    buffers (updObj st o f) = buffers st := rfl

@[simp] theorem buffers_bump (st : WorkerState) (o : ObjId) (d : Int) :
    buffers (bump st o d) = buffers st := rfl

@[simp] theorem buffers_assign (st : WorkerState) (h : ObjectHandle) (o : ObjId) :
    buffers (assign st h o) = buffers st := rfl

@[simp] theorem buffers_refInc (st : WorkerState) (o : ObjId) :
    buffers (refInc st o) = buffers st := by
  simp [refInc, mallocOf]

@[simp] theorem buffers_refDec (st : WorkerState) (o : ObjId) :
    buffers (refDec st o) = buffers st := by
  simp [refDec, mallocOf]

@[simp] theorem buffers_newObject (st : WorkerState) (x : ManagedObject) :
    buffers (newObject st x).1 = buffers st := rfl

@[simp] theorem buffers_freeObject (st : WorkerState) (h : ObjectHandle) :
    buffers (freeObject st h) = buffers st := by
  unfold freeObject
  split <;> rfl

@[simp] theorem buffers_logRank0 (env : Env) (st : WorkerState) :
    buffers (logRank0 env st) = buffers st := by
  unfold logRank0
  split <;> simp [mallocOf]

@[simp] theorem buffers_createInstance (env : Env) (st : WorkerState) (k : Kind) (t : String) :
    buffers (createInstance env st k t).1 = buffers st := by
  unfold createInstance
  split <;> rfl

@[simp] theorem buffers_setParam (st : WorkerState) (o : ObjId) (name : String) (type : Int)
    (v : ParamValue) : buffers (setParam st o name type v) = buffers st := rfl

@[simp] theorem buffers_pushGeometry (st : WorkerState) (m g : ObjId) :
    buffers (pushGeometry st m g) = buffers st := rfl

@[simp] theorem buffers_pushVolume (st : WorkerState) (m g : ObjId) :
    buffers (pushVolume st m g) = buffers st := rfl

@[simp] theorem buffers_removeGeometry (st : WorkerState) (m g : ObjId) (x : ManagedObject) :
    buffers (removeGeometry st m g x) = buffers st := by
  unfold removeGeometry
  split <;> rfl

@[simp] theorem buffers_removeVolume (st : WorkerState) (m g : ObjId) (x : ManagedObject) :
    buffers (removeVolume st m g x) = buffers st := by
  unfold removeVolume
  split <;> rfl

@[simp] theorem buffers_newDataBind (env : Env) (st : WorkerState) (h : ObjectHandle) (n : Nat)
    (f g : Int) : buffers (newDataBind env st h n f g) = buffers st := rfl

@[simp] theorem buffers_finishRegion (env : Env) (st : WorkerState) (size : Nat) (v : Int) :
    buffers (finishRegion env st size v) = buffers st := by
  unfold finishRegion
  repeat' split
  all_goals simp [mallocOf]

@[simp] theorem buffers_modules (st : WorkerState) (m : List String) :
    buffers { st with modules := m } = buffers st := rfl

@[simp] theorem buffers_commitAndBarrier (st : WorkerState) (o : ObjId) (x : ManagedObject) :
    buffers (commitAndBarrier st o x) = buffers st := by
  unfold commitAndBarrier
  split <;> simp [mallocOf]

theorem translateItem_buffers (env : Env) (st : WorkerState) (data i : Nat) :
    (∀ st1, translateItem env st data i = Run.done st1 → buffers st1 = buffers st) ∧
      ∀ f st1, translateItem env st data i = Run.stopped f st1 → buffers st1 = buffers st := by
  unfold translateItem
  constructor
  · intro st1 h
    repeat' split at h
    all_goals first
      | (cases h; done)
      | (cases h; simp)
  · intro f st1 h
    repeat' split at h
    all_goals first
      | (cases h; done)
      | (cases h; simp)

theorem translateLoop_buffers (env : Env) (data : ObjId) (n : Nat) :
    ∀ (i : Nat) (st : WorkerState),
      (∀ st1, translateLoop env data n i st = Run.done st1 → buffers st1 = buffers st) ∧
        ∀ f st1, translateLoop env data n i st = Run.stopped f st1 → buffers st1 = buffers st := by
  induction n with
  | zero =>
    intro i st
    constructor
    · intro st1 h; simp only [translateLoop] at h; cases h; rfl
    · intro f st1 h; simp only [translateLoop] at h; cases h
  | succ n ih =>
    intro i st
    have hi := translateItem_buffers env st data i
    simp only [translateLoop]
    cases ht : translateItem env st data i with
    | stopped f0 s0 =>
      constructor
      · intro st1 h; cases h
      · intro f st1 h
        cases h
        exact hi.2 _ _ ht
    | done s0 =>
      have h0 := hi.1 _ ht
      by_cases hmax : 2147483647 ≤ i
      · simp only [hmax, if_true]
        constructor
        · intro st1 h; cases h
        · intro f st1 h; cases h; exact h0
      · simp only [hmax, if_false]
        constructor
        · intro st1 h; exact ((ih (i + 1) s0).1 st1 h).trans h0
        · intro f st1 h; exact ((ih (i + 1) s0).2 f st1 h).trans h0

theorem fillData_buffers (env : Env) (st : WorkerState) (data : ObjId) (n : Nat) (format : Int)
    (words : List Int) :
    (∀ st1, fillData env st data n format words = Run.done st1 → buffers st1 = buffers st) ∧
      ∀ f st1, fillData env st data n format words = Run.stopped f st1 →
        buffers st1 = buffers st := by
  unfold fillData
  split
  · constructor
    · intro st1 h; exact ((translateLoop_buffers env data n 0 _).1 st1 h).trans (by simp)
    · intro f st1 h; exact ((translateLoop_buffers env data n 0 _).2 f st1 h).trans (by simp)
  · constructor
    · intro st1 h; cases h; simp
    · intro f st1 h; cases h

theorem createLocal_buffers (env : Env) (kind : Kind) (ov : String → String → Bool)
    (st : WorkerState) (rh : ObjectHandle) (type : String) :
    (∀ st1 obj, createLocal env kind ov st rh type = Local.created st1 obj →
        buffers st1 = buffers st) ∧
      ∀ f st1, createLocal env kind ov st rh type = Local.stopped f st1 →
        buffers st1 = buffers st := by
  unfold createLocal
  constructor
  · intro st1 obj h
    repeat' split at h
    all_goals first
      | (cases h; done)
      | (cases h; simp)
  · intro f st1 h
    repeat' split at h
    all_goals first
      | (cases h; done)
      | (cases h; simp)

theorem get_handle_buffers (st : WorkerState) (ch : Channel) (k : ObjectHandle → Channel → Step)
    (t0 : Bool × List (Nat × Bool)) (hst : buffers st = t0) (hk : ∀ v ch1, buffers (k v ch1).st = t0) :
    buffers (get_handle st ch k).st = t0 := by
  unfold get_handle
  split
  · exact hk _ _
  · exact hst

theorem get_int32_buffers (st : WorkerState) (ch : Channel) (k : Int → Channel → Step)
    (t0 : Bool × List (Nat × Bool)) (hst : buffers st = t0) (hk : ∀ v ch1, buffers (k v ch1).st = t0) :
    buffers (get_int32 st ch k).st = t0 := by
  unfold get_int32
  split
  · exact hk _ _
  · exact hst

theorem get_size_t_buffers (st : WorkerState) (ch : Channel) (k : Nat → Channel → Step)
    (t0 : Bool × List (Nat × Bool)) (hst : buffers st = t0) (hk : ∀ v ch1, buffers (k v ch1).st = t0) :
    buffers (get_size_t st ch k).st = t0 := by
  unfold get_size_t
  split
  · exact hk _ _
  · exact hst

theorem get_charPtr_buffers (st : WorkerState) (ch : Channel) (k : String → Channel → Step)
    (t0 : Bool × List (Nat × Bool)) (hst : buffers st = t0) (hk : ∀ v ch1, buffers (k v ch1).st = t0) :
    buffers (get_charPtr st ch k).st = t0 := by
  unfold get_charPtr
  split
  · exact hk _ _
  · exact hst

theorem get_float_buffers (st : WorkerState) (ch : Channel) (k : Nat → Channel → Step)
    (t0 : Bool × List (Nat × Bool)) (hst : buffers st = t0) (hk : ∀ v ch1, buffers (k v ch1).st = t0) :
    buffers (get_float st ch k).st = t0 := by
  unfold get_float
  split
  · exact hk _ _
  · exact hst

theorem get_vecf_buffers (m : Nat) (st : WorkerState) (ch : Channel)
    (k : List Nat → Channel → Step) (t0 : Bool × List (Nat × Bool)) (hst : buffers st = t0)
    (hk : ∀ v ch1, buffers (k v ch1).st = t0) : buffers (get_vecf m st ch k).st = t0 := by
  unfold get_vecf
  split
  · split
    · exact hk _ _
    · exact hst
  · exact hst

theorem get_veci_buffers (m : Nat) (st : WorkerState) (ch : Channel)
    (k : List Int → Channel → Step) (t0 : Bool × List (Nat × Bool)) (hst : buffers st = t0)
    (hk : ∀ v ch1, buffers (k v ch1).st = t0) : buffers (get_veci m st ch k).st = t0 := by
  unfold get_veci
  split
  · split
    · exact hk _ _
    · exact hst
  · exact hst

theorem get_data_buffers (m : Nat) (st : WorkerState) (ch : Channel)
    (k : List Int → Channel → Step) (t0 : Bool × List (Nat × Bool)) (hst : buffers st = t0)
    (hk : ∀ v ch1, buffers (k v ch1).st = t0) : buffers (get_data m st ch k).st = t0 := by
  unfold get_data
  split
  · split
    · exact hk _ _
    · exact hst
  · exact hst

theorem Assert_buffers (st : WorkerState) (e : String) (p : Option ObjId) (k : ObjId → Step)
    (t0 : Bool × List (Nat × Bool)) (hst : buffers st = t0) (hk : ∀ o, buffers (k o).st = t0) :
    buffers (Assert st e p k).st = t0 := by
  unfold Assert
  split
  · exact hst
  · exact hk _

theorem deref_buffers (st : WorkerState) (e : String) (p : Option ObjId)
    (k : ObjId → ManagedObject → Step) (t0 : Bool × List (Nat × Bool)) (hst : buffers st = t0)
    (hk : ∀ o x, buffers (k o x).st = t0) : buffers (deref st e p k).st = t0 := by
  unfold deref
  repeat' split
  all_goals first | exact hst | exact hk _ _

theorem derefAs_buffers (st : WorkerState) (t : Kind) (e : String) (p : Option ObjId)
    (k : ObjId → ManagedObject → Step) (t0 : Bool × List (Nat × Bool)) (hst : buffers st = t0)
    (hk : ∀ o x, buffers (k o x).st = t0) : buffers (derefAs st t e p k).st = t0 := by
  unfold derefAs
  refine deref_buffers _ _ _ _ _ hst fun o x => ?_
  split
  · exact hk _ _
  · exact hst

theorem MPI_Allreduce_buffers (st : WorkerState) (ch : Channel) (f : Int)
    (k : WorkerState → Int → Channel → Step) (t0 : Bool × List (Nat × Bool)) (hst : buffers st = t0)
    (hk : ∀ s v ch1, buffers s = buffers st → buffers (k s v ch1).st = t0) :
    buffers (MPI_Allreduce st ch f k).st = t0 := by
  unfold MPI_Allreduce
  split
  · exact hst
  · exact hk _ _ _ (by simp [mallocOf])

theorem newOrThrow_buffers (env : Env) (kind : Kind) (what : String) (logsAfter : Bool)
    (st : WorkerState) (ch : Channel) :
    buffers (newOrThrow env kind what logsAfter st ch).st = buffers st := by
  unfold newOrThrow
  refine get_handle_buffers _ _ _ _ rfl fun handle ch1 => ?_
  refine get_charPtr_buffers _ _ _ _ rfl fun type ch2 => ?_
  have h1 := buffers_createInstance env (logRank0 env st) kind type
  rw [buffers_logRank0] at h1
  cases hc : createInstance env (logRank0 env st) kind type with
  | mk st1 r =>
    rw [hc] at h1
    cases r with
    | none => exact h1
    | some o =>
      simp only []
      split <;> simp [Step.st, mallocOf, h1]

theorem voteAndBind_buffers (env : Env) (st : WorkerState) (ch : Channel)
    (handle : ObjectHandle) (obj : Option ObjId) :
    buffers (voteAndBind env st ch handle obj).st = buffers st := by
  simp only [voteAndBind, afterVote, reportRank0]
  repeat' (first
    | refine deref_buffers _ _ _ _ _ ?_ (fun _ _ => ?_)
    | refine MPI_Allreduce_buffers _ _ _ _ _ ?_ (fun _ _ _ _ => ?_)
    | split
    | simp [Step.st, mallocOf, *])

theorem newVoted_buffers (env : Env) (kind : Kind) (ov : String → String → Bool)
    (st : WorkerState) (ch : Channel) (rh handle : ObjectHandle) (type : String) :
    buffers (newVoted env kind ov st ch rh handle type).st = buffers st := by
  unfold newVoted
  have h := createLocal_buffers env kind ov (logRank0 env st) rh type
  cases hl : createLocal env kind ov (logRank0 env st) rh type with
  | stopped f st1 => exact (h.2 f st1 hl).trans (buffers_logRank0 env st)
  | created st1 obj =>
    exact (voteAndBind_buffers env st1 ch handle obj).trans
      ((h.1 st1 obj hl).trans (buffers_logRank0 env st))

theorem CMD_NEW_DATA_buffers (env : Env) (st : WorkerState) (ch : Channel) :
    buffers (CMD_NEW_DATA env st ch).st = buffers st := by
  unfold CMD_NEW_DATA
  refine get_handle_buffers _ _ _ _ rfl fun handle ch1 => ?_
  refine get_size_t_buffers _ _ _ _ rfl fun nitems ch2 => ?_
  refine get_int32_buffers _ _ _ _ rfl fun format ch3 => ?_
  refine get_int32_buffers _ _ _ _ rfl fun flags ch4 => ?_
  refine get_size_t_buffers _ _ _ _ rfl fun hasInitData ch5 => ?_
  split
  · refine get_data_buffers _ _ _ _ _ rfl fun words ch6 => ?_
    have h := fillData_buffers env (newDataBind env st handle nitems format flags)
      st.heap.length nitems format words
    cases hf : fillData env (newDataBind env st handle nitems format flags) st.heap.length
        nitems format words with
    | done st2 => exact h.1 st2 hf
    | stopped f st2 => exact h.2 f st2 hf
  · rfl

set_option maxHeartbeats 1600000 in
/-- Every handler other than that of SET_REGION, however it ends, allocates nothing and
leaves the scratch buffer as it is. -/
theorem handler_buffers (env : Env) (c : Cmd) (st : WorkerState) (ch : Channel)
    (h1 : c ≠ Cmd.SET_REGION) : buffers (handler env c st ch).st = buffers st := by
  cases c
  case SET_REGION => exact absurd rfl h1
  case NEW_VOLUME => exact newOrThrow_buffers env _ _ _ st ch
  case NEW_TRANSFERFUNCTION => exact newOrThrow_buffers env _ _ _ st ch
  case NEW_GEOMETRY => exact newOrThrow_buffers env _ _ _ st ch
  case NEW_DATA => exact CMD_NEW_DATA_buffers env st ch
  case NEW_MATERIAL =>
    simp only [handler, CMD_NEW_MATERIAL]
    refine get_handle_buffers _ _ _ _ rfl fun rh ch1 => ?_
    refine get_handle_buffers _ _ _ _ rfl fun h ch2 => ?_
    refine get_charPtr_buffers _ _ _ _ rfl fun type ch3 => ?_
    exact newVoted_buffers env _ _ st ch3 rh h type
  case NEW_LIGHT =>
    simp only [handler, CMD_NEW_LIGHT]
    refine get_handle_buffers _ _ _ _ rfl fun rh ch1 => ?_
    refine get_handle_buffers _ _ _ _ rfl fun h ch2 => ?_
    refine get_charPtr_buffers _ _ _ _ rfl fun type ch3 => ?_
    exact newVoted_buffers env _ _ st ch3 rh h type
  all_goals
    simp only [handler, CMD_NEW_PIXELOP, CMD_NEW_RENDERER, CMD_NEW_CAMERA,
      CMD_FRAMEBUFFER_CREATE, CMD_FRAMEBUFFER_CLEAR, CMD_RENDER_FRAME, CMD_FRAMEBUFFER_MAP,
      CMD_NEW_MODEL, CMD_NEW_TRIANGLEMESH, CMD_NEW_TEXTURE2D, CMD_ADD_GEOMETRY,
      CMD_REMOVE_GEOMETRY, CMD_REMOVE_VOLUME, CMD_ADD_VOLUME, CMD_COMMIT, CMD_SET_OBJECT,
      CMD_RELEASE, CMD_SAMPLE_VOLUME, CMD_GET_TYPE, CMD_GET_VALUE, CMD_SET_MATERIAL,
      CMD_SET_PIXELOP, CMD_SET_STRING, CMD_SET_INT, CMD_SET_FLOAT,
      CMD_SET_VEC3F, CMD_SET_VEC4F, CMD_SET_VEC2F, CMD_SET_VEC2I, CMD_SET_VEC3I,
      CMD_LOAD_MODULE, CMD_API_MODE, CMD_FINALIZE, newAsserted, setOn]
    repeat' (first
      | refine get_handle_buffers _ _ _ _ ?_ (fun _ _ => ?_)
      | refine get_int32_buffers _ _ _ _ ?_ (fun _ _ => ?_)
      | refine get_size_t_buffers _ _ _ _ ?_ (fun _ _ => ?_)
      | refine get_charPtr_buffers _ _ _ _ ?_ (fun _ _ => ?_)
      | refine get_float_buffers _ _ _ _ ?_ (fun _ _ => ?_)
      | refine get_vecf_buffers _ _ _ _ _ ?_ (fun _ _ => ?_)
      | refine get_veci_buffers _ _ _ _ _ ?_ (fun _ _ => ?_)
      | refine get_data_buffers _ _ _ _ _ ?_ (fun _ _ => ?_)
      | refine Assert_buffers _ _ _ _ _ ?_ (fun _ => ?_)
      | refine derefAs_buffers _ _ _ _ _ _ ?_ (fun _ _ => ?_)
      | refine deref_buffers _ _ _ _ _ ?_ (fun _ _ => ?_)
      | split
      | simp [Step.st, mallocOf, *])

theorem regionBody_buffers (env : Env) (st : WorkerState) (ch : Channel)
    (volumeHandle : ObjectHandle) (index count : List Int) (size : Nat) (words : List Int) :
    buffers (regionBody env st ch volumeHandle index count size words).st = buffers st := by
  unfold regionBody
  refine Assert_buffers _ _ _ _ _ rfl fun volume => ?_
  refine derefAs_buffers _ _ _ _ _ _ rfl fun volume x => ?_
  refine MPI_Allreduce_buffers _ _ _ _ _ ?_ fun s v ch1 hs => ?_
  · simp [mallocOf]
  · simp [Step.st, mallocOf, hs]

/-- The declaration of the static scratch buffer and the choice of `mem`: afterwards the
scratch buffer exists; it was allocated if it did not exist before, and a dedicated buffer
was allocated if the payload does not fit below the threshold. -/
theorem selectMem_initBcBuffer (st : WorkerState) (size : Nat) :
    (selectMem (initBcBuffer st) size).bcBuffer = true ∧
      mallocs (selectMem (initBcBuffer st) size) =
        mallocs st ++ (if st.bcBuffer then [] else [(bcBufferSize, true)]) ++
          (if size < bcBufferSize then [] else [(size, false)]) := by
  unfold selectMem initBcBuffer
  constructor
  · split <;> split <;> simp_all
  · split <;> split <;> simp_all [mallocOf, mallocs]

theorem keepsScratch_refl (st s : WorkerState) (h : buffers s = buffers st) :
    keepsScratch st s := by
  unfold buffers at h
  injection h with h1 h2
  unfold keepsScratch scratchDue scratchMallocs
  rw [h1, h2]
  exact ⟨fun h => h, rfl⟩

theorem keepsScratch_trans (st s1 s2 : WorkerState) (h1 : keepsScratch st s1)
    (h2 : keepsScratch s1 s2) : keepsScratch st s2 :=
  ⟨fun h => h2.1 (h1.1 h), h2.2.trans h1.2⟩

theorem keepsScratch_selectMem (st s : WorkerState) (size : Nat)
    (h : buffers s = buffers (selectMem (initBcBuffer st) size)) : keepsScratch st s := by
  obtain ⟨hb, hm⟩ := selectMem_initBcBuffer st size
  unfold buffers at h
  injection h with h1 h2
  rw [hb] at h1
  rw [hm] at h2
  unfold keepsScratch scratchDue scratchMallocs
  rw [h1, h2]
  refine ⟨fun _ => rfl, ?_⟩
  cases st.bcBuffer <;> by_cases hs : size < bcBufferSize <;>
    simp [hs, List.filter_append, List.filter]

/-- However the handler of SET_REGION ends, it has not allocated the scratch buffer a second
time. -/
theorem CMD_SET_REGION_keepsScratch (env : Env) (st : WorkerState) (ch : Channel) :
    keepsScratch st (CMD_SET_REGION env st ch).st := by
  unfold CMD_SET_REGION get_handle get_veci get_size_t get_data
  repeat' (first | split | dsimp only)
  all_goals first
    | exact keepsScratch_refl _ _ rfl
    | exact keepsScratch_selectMem _ _ _ rfl
    | exact keepsScratch_selectMem _ _ _
        ((regionBody_buffers _ _ _ _ _ _ _ _).trans (buffers_emit _ (Event.getData _ _) rfl))

theorem dispatch_keepsScratch (env : Env) (st : WorkerState) (ch : Channel) (command : Int) :
    keepsScratch st (dispatch env st ch command).st := by
  unfold dispatch
  split
  · rename_i c _
    by_cases hc : c = Cmd.SET_REGION
    · subst hc; exact CMD_SET_REGION_keepsScratch env st ch
    · exact keepsScratch_refl _ _ (handler_buffers env c st ch hc)
  · exact keepsScratch_refl _ _ rfl

/-- Over any number of passes of the loop the scratch buffer is not allocated a second
time. -/
theorem passes_keepsScratch (env : Env) (n : Nat) :
    ∀ (st : WorkerState) (ch : Channel), keepsScratch st (passes env n st ch).st := by
  induction n with
  | zero => intro st ch; exact keepsScratch_refl _ _ rfl
  | succ n ih =>
    intro st ch
    simp only [passes]
    unfold get_int32
    split
    · rename_i v rest hc
      dsimp only
      have hd := dispatch_keepsScratch env st { ch with cmd := rest } v
      cases hr : dispatch env st { ch with cmd := rest } v with
      | next st1 ch1 =>
        rw [hr] at hd
        exact keepsScratch_trans _ _ _ hd (ih st1 ch1)
      | raised f s =>
        rw [hr] at hd
        exact hd
      | exited e s =>
        rw [hr] at hd
        exact hd
    · exact keepsScratch_refl _ _ rfl

/-- The allocations and the receive of a SET_REGION whose frame is complete. -/
theorem region_frame_buffers (env : Env) (st : WorkerState) (ch : Channel)
    (volumeHandle : ObjectHandle) (index count : List Int) (size : Nat) (words : List Int)
    (rest : List Token)
    (hcmd : ch.cmd = Token.handle volumeHandle :: Token.veci index :: Token.veci count ::
      Token.size_t size :: Token.data size words :: rest)
    (hi : index.length = 3) (hc : count.length = 3) :
    mallocs (CMD_SET_REGION env st ch).st =
        mallocs st ++ (if st.bcBuffer then [] else [(bcBufferSize, true)]) ++
          (if size < bcBufferSize then [] else [(size, false)]) ∧
      received (CMD_SET_REGION env st ch).st =
        received st ++ [(size, decide (size < bcBufferSize))] ∧
      (CMD_SET_REGION env st ch).st.bcBuffer = true := by
  simp only [CMD_SET_REGION, get_handle, get_veci, get_size_t, get_data, hcmd, hi, hc,
    if_true]
  obtain ⟨h1, h2⟩ := regionBody_quiet env
    (emit (selectMem (initBcBuffer st) size) (Event.getData size (decide (size < bcBufferSize))))
    { cmd := rest, peers := ch.peers } volumeHandle index count size words
  have h3 := regionBody_buffers env
    (emit (selectMem (initBcBuffer st) size) (Event.getData size (decide (size < bcBufferSize))))
    { cmd := rest, peers := ch.peers } volumeHandle index count size words
  obtain ⟨hb, hm⟩ := selectMem_initBcBuffer st size
  refine ⟨?_, ?_, ?_⟩
  · rw [h1, mallocs_emit, hm]; simp [mallocOf]
  · rw [h2]
    unfold selectMem initBcBuffer
    split <;> split <;> simp_all [mallocOf, getDataOf, received]
  · have h4 := congrArg Prod.fst h3
    simp only [buffers, emit_bcBuffer] at h4
    rw [h4, hb]

/-- C4 as amended: for every SET_REGION frame and every payload size, the payload is
received into the scratch buffer exactly when the size is strictly below `40*1024*1024`,
and a dedicated buffer is allocated exactly when the size is at or above it. The only other
allocation is the scratch buffer itself, a function-local static: the command allocates it
if it does not exist yet, and after the command it exists. From then on it exists at every
head of the loop and no command allocates it again: over any number of commands of any
stream the number of its allocations, plus one while it does not exist, stays what it was.
So a rank allocates the scratch buffer once, in the first SET_REGION it handles, and every
later SET_REGION with a payload below the threshold allocates nothing. -/
theorem region_buffer_choice (env : Env) (st : WorkerState) (ch : Channel)
    (volumeHandle : ObjectHandle) (index count : List Int) (size : Nat) (words : List Int)
    (rest : List Token)
    (hcmd : ch.cmd = Token.handle volumeHandle :: Token.veci index :: Token.veci count ::
      Token.size_t size :: Token.data size words :: rest)
    (hi : index.length = 3) (hc : count.length = 3) :
    mallocs (CMD_SET_REGION env st ch).st =
        mallocs st ++ (if st.bcBuffer then [] else [(bcBufferSize, true)]) ++
          (if size < bcBufferSize then [] else [(size, false)]) ∧
      received (CMD_SET_REGION env st ch).st =
        received st ++ [(size, decide (size < bcBufferSize))] ∧
      (CMD_SET_REGION env st ch).st.bcBuffer = true ∧
      (∀ (n : Nat) (st1 : WorkerState) (ch1 : Channel),
        (st1.bcBuffer = true → (passes env n st1 ch1).st.bcBuffer = true) ∧
          scratchMallocs (passes env n st1 ch1).st +
              (if (passes env n st1 ch1).st.bcBuffer then 0 else 1) =
            scratchMallocs st1 + (if st1.bcBuffer then 0 else 1)) ∧
      (∀ (n : Nat) (ch1 : Channel) (st2 : WorkerState) (ch2 : Channel)
          (volumeHandle2 : ObjectHandle) (index2 count2 : List Int) (size2 : Nat)
          (words2 : List Int) (rest2 : List Token),
        passes env n (CMD_SET_REGION env st ch).st ch1 = Step.next st2 ch2 →
        ch2.cmd = Token.handle volumeHandle2 :: Token.veci index2 :: Token.veci count2 ::
          Token.size_t size2 :: Token.data size2 words2 :: rest2 →
        index2.length = 3 → count2.length = 3 → size2 < bcBufferSize →
          mallocs (CMD_SET_REGION env st2 ch2).st = mallocs st2 ∧
            received (CMD_SET_REGION env st2 ch2).st = received st2 ++ [(size2, true)]) := by
  obtain ⟨h1, h2, h3⟩ := region_frame_buffers env st ch volumeHandle index count size words
    rest hcmd hi hc
  refine ⟨h1, h2, h3, ?_, ?_⟩
  · intro n st1 ch1
    exact passes_keepsScratch env n st1 ch1
  · intro n ch1 st2 ch2 volumeHandle2 index2 count2 size2 words2 rest2 hp hcmd2 hi2 hc2 hs2
    have hk := (passes_keepsScratch env n (CMD_SET_REGION env st ch).st ch1).1 h3
    rw [hp] at hk
    have hb2 : st2.bcBuffer = true := hk
    obtain ⟨g1, g2, _⟩ := region_frame_buffers env st2 ch2 volumeHandle2 index2 count2 size2
      words2 rest2 hcmd2 hi2 hc2
    constructor
    · rw [g1]; simp [hb2, hs2]
    · rw [g2]; simp [hs2]

/-- C4 as amended, applied to a payload of 100 bytes for the volume of `freshVolumeState`,
a rank that has not handled a region update before: the command allocates the scratch
buffer, and nothing else. -/
theorem region_buffer_choice_witness :
    ((regionChannel 100).cmd = Token.handle 5 :: Token.veci [0, 0, 0] ::
        Token.veci [1, 1, 1] :: Token.size_t 100 :: Token.data 100 [] :: [] ∧
      ([0, 0, 0] : List Int).length = 3 ∧ ([1, 1, 1] : List Int).length = 3) ∧
    (mallocs (CMD_SET_REGION (sampleEnv 0 0 true false) freshVolumeState
        (regionChannel 100)).st =
        mallocs freshVolumeState ++
          (if freshVolumeState.bcBuffer then [] else [(bcBufferSize, true)]) ++
          (if 100 < bcBufferSize then [] else [(100, false)]) ∧
      received (CMD_SET_REGION (sampleEnv 0 0 true false) freshVolumeState
        (regionChannel 100)).st =
        received freshVolumeState ++ [(100, decide (100 < bcBufferSize))] ∧
      (CMD_SET_REGION (sampleEnv 0 0 true false) freshVolumeState
        (regionChannel 100)).st.bcBuffer = true) :=
  ⟨⟨rfl, rfl, rfl⟩,
    ⟨(region_buffer_choice (sampleEnv 0 0 true false) freshVolumeState (regionChannel 100) 5
        [0, 0, 0] [1, 1, 1] 100 [] [] rfl rfl rfl).1,
      (region_buffer_choice (sampleEnv 0 0 true false) freshVolumeState (regionChannel 100) 5
        [0, 0, 0] [1, 1, 1] 100 [] [] rfl rfl rfl).2.1,
      (region_buffer_choice (sampleEnv 0 0 true false) freshVolumeState (regionChannel 100) 5
        [0, 0, 0] [1, 1, 1] 100 [] [] rfl rfl rfl).2.2.1⟩⟩

/-- The stream of `regionStream` on a rank that has not handled a region update before: the
first SET_REGION allocates the scratch buffer, the second one allocates nothing, and the
third one, whose payload has exactly the size of the threshold, allocates a dedicated
buffer. -/
theorem region_stream_evaluated :
    (mallocs (passes (sampleEnv 0 0 true false) 1 freshVolumeState regionStream).st,
      mallocs (passes (sampleEnv 0 0 true false) 3 freshVolumeState regionStream).st,
      mallocs (passes (sampleEnv 0 0 true false) 4 freshVolumeState regionStream).st,
      frees (passes (sampleEnv 0 0 true false) 4 freshVolumeState regionStream).st) =
      ([(41943040, true)], [(41943040, true)], [(41943040, true), (41943040, false)], 1) := by
  decide

end Ospray
